import Mathlib

/-!
# TNeoKernel counting semaphore (src/core/tn_sem.c)

A shallow embedding of the semaphore module of TNeoKernel.  The functions of
`tn_sem.c` are transcribed one by one, for the build with `TN_CHECK_PARAM`
set (the parameter checks the specification describes are compiled in).

The kernel state is made explicit: task control blocks, semaphore objects,
the ready-queue set, the scheduler pointers, the interrupt-enable bit of the
status register, the calling context, and a ghost log (`trace`, newest event
first) of the kernel-internal calls that were performed.

The routines `tn_sem.c` calls but which live in other files of the kernel
(wait-queue protocol, scheduler, list helpers) are written down from the
specification, and are marked as such.
-/

namespace TNeo

/-- Result codes, `enum TN_RCode`. -/
inductive TN_RCode where
  | TN_RC_OK
  | TN_RC_TIMEOUT
  | TN_RC_OVERFLOW
  | TN_RC_WCONTEXT
  | TN_RC_WSTATE
  | TN_RC_WPARAM
  | TN_RC_ILLEGAL_USE
  | TN_RC_INVALID_OBJ
  | TN_RC_DELETED
  | TN_RC_FORCED
  deriving DecidableEq, Repr

open TN_RCode

/-- Wait reasons stored on a blocked task. -/
inductive TN_WaitReason where
  | TN_WAIT_REASON_NONE
  | TN_WAIT_REASON_SLEEP
  | TN_WAIT_REASON_SEM
  | TN_WAIT_REASON_EVENT
  | TN_WAIT_REASON_DQUE
  | TN_WAIT_REASON_MUTEX
  deriving DecidableEq, Repr

open TN_WaitReason

/-- Calling context reported by the system: not running yet, task, or ISR. -/
inductive TN_Context where
  | TN_CONTEXT_NONE
  | TN_CONTEXT_TASK
  | TN_CONTEXT_ISR
  deriving DecidableEq, Repr

open TN_Context

/-- The task state bitmask {Runnable, Waiting, Suspended, Dormant}, one flag per bit. -/
structure TaskState where
  runnable : Bool
  waiting : Bool
  suspended : Bool
  dormant : Bool
  deriving DecidableEq, Repr

/-- The fields of `struct TN_Task` the semaphore code and the wait protocol touch. -/
structure TN_Task where
  priority : Nat
  task_state : TaskState
  task_wait_reason : TN_WaitReason
  task_wait_rc : TN_RCode
  deriving DecidableEq, Repr

/-- The semaphore object `struct TN_Sem`; the intrusive wait queue is the list of
the tasks linked into it, head first. -/
structure TN_Sem where
  wait_queue : List Nat
  count : Int
  max_count : Int
  id_sem : Nat
  deriving DecidableEq, Repr

/-- Ghost log entries: the kernel-internal calls and writes an operation performs.
`count_write` and `id_write` record the interrupt-enable bit at the time of the write. -/
inductive Event where
  | int_dis_save
  | int_restore (sr : Bool)
  | int_idis_save
  | int_irestore (sr : Bool)
  | curr_to_wait (queue : Nat) (reason : TN_WaitReason) (timeout : Nat)
  | wait_complete (task : Nat) (rc : TN_RCode)
  | count_write (sem : Nat) (int_enabled : Bool)
  | id_write (sem : Nat) (value : Nat) (int_enabled : Bool)
  | context_switch
  | fatal_error
  deriving DecidableEq, Repr

/-- The kernel state: memory (tasks and semaphores, addressed by a number), the
ready-queue set (one run queue per priority), armed timeouts, the scheduler
pointers, the calling context, the interrupt-enable bit and the ghost log. -/
structure Kernel where
  tasks : Nat → TN_Task
  sems : Nat → TN_Sem
  ready : Nat → List Nat
  timers : List (Nat × Nat)
  tn_curr_run_task : Nat
  tn_next_task_to_run : Nat
  idle_task : Nat
  context : TN_Context
  int_enabled : Bool
  trace : List Event

/-- Build-time constants declared in headers outside `tn_sem.c`, and the behaviour of
the rest of the system while the caller is switched out (`arch_run_others`: what the
other tasks and interrupt handlers do from the architecture context switch until the
calling task runs again). -/
structure Config where
  TN_DEBUG : Bool
  TN_ID_SEMAPHORE : Nat
  TN_PRIORITIES_CNT : Nat
  TN_WAIT_INFINITE : Nat
  arch_run_others : Kernel → Kernel

/-! ## Collaborators of `tn_sem.c` -/

/-- Modelled from the spec: `is_task_context()` of the system module (tn_sys), absent
from the sources at hand; true when the call is made from a task. -/
def tn_is_task_context (k : Kernel) : Bool :=
  k.context == TN_CONTEXT_TASK

/-- Modelled from the spec: `is_isr_context()` of the system module (tn_sys), absent
from the sources at hand; true when the call is made from an interrupt handler. -/
def tn_is_isr_context (k : Kernel) : Bool :=
  k.context == TN_CONTEXT_ISR

/-- The port routine `tn_arch_sr_save_int_dis` declared in `tn_arch.h`: disable
interrupts and return the previous value of the status register. -/
def tn_arch_sr_save_int_dis (k : Kernel) : Bool × Kernel :=
  (k.int_enabled, { k with int_enabled := false, trace := Event.int_dis_save :: k.trace })

/-- The port routine `tn_arch_sr_restore` declared in `tn_arch.h`: restore a status
register value saved before. -/
def tn_arch_sr_restore (k : Kernel) (sr : Bool) : Kernel :=
  { k with int_enabled := sr, trace := Event.int_restore sr :: k.trace }

/-- Modelled from the spec: the ISR flavour `INT_IDIS_SAVE` of the interrupt
save-disable (macro of the absent port header). -/
def tn_arch_sr_save_int_idis (k : Kernel) : Bool × Kernel :=
  (k.int_enabled, { k with int_enabled := false, trace := Event.int_idis_save :: k.trace })

/-- Modelled from the spec: the ISR flavour `INT_IRESTORE` of the interrupt restore
(macro of the absent port header). -/
def tn_arch_sr_irestore (k : Kernel) (sr : Bool) : Kernel :=
  { k with int_enabled := sr, trace := Event.int_irestore sr :: k.trace }

/-- Modelled from the spec: list helper `is-empty` of the intrusive list (tn_list, absent). -/
def tn_is_list_empty (q : List Nat) : Bool :=
  q.isEmpty

/-- Modelled from the spec: ready-queue set `remove(task)` (scheduler, absent): unlink
the task from the slot of its priority. -/
def ready_remove (k : Kernel) (task : Nat) : Kernel :=
  { k with
    ready := Function.update k.ready (k.tasks task).priority
      ((k.ready (k.tasks task).priority).erase task) }

/-- Modelled from the spec: ready-queue set `enqueue(task)` (scheduler, absent): append
the task to the slot of its priority. -/
def ready_enqueue (k : Kernel) (task : Nat) : Kernel :=
  { k with
    ready := Function.update k.ready (k.tasks task).priority
      (k.ready (k.tasks task).priority ++ [task]) }

/-- Modelled from the spec: `find_next_task()` (scheduler, absent): the head of the
highest-priority non-empty ready slot (priority 0 is the highest), or the idle task. -/
def find_next_task (cfg : Config) (k : Kernel) : Nat :=
  match (List.range cfg.TN_PRIORITIES_CNT).find? (fun p => !(k.ready p).isEmpty) with
  | some p => (k.ready p).headD k.idle_task
  | none => k.idle_task

/-- Modelled from the spec: `wait_curr(queue, reason, timeout)` of the wait-queue
protocol (`_tn_task_curr_to_wait_action`, tn_tasks, absent).  The queue is named by the
semaphore that embeds it.  Steps: take the current task out of the ready set, clear
Runnable, set Waiting, store the reason, preload `wait_rc = TIMEOUT`; append it to the
queue; arm a timer when the timeout is finite; recompute next.  The "context switch
needed" mark of the last step is not a separate flag: it is the scheduler predicate
current differs from next, which the caller evaluates. -/
def _tn_task_curr_to_wait_action (cfg : Config) (k : Kernel) (queue : Nat)
    (reason : TN_WaitReason) (timeout : Nat) : Kernel :=
  let t := k.tn_curr_run_task
  let k1 := ready_remove k t
  let k2 : Kernel :=
    { k1 with
      tasks := Function.update k1.tasks t
        { k1.tasks t with
          task_state := { (k1.tasks t).task_state with runnable := false, waiting := true }
          task_wait_reason := reason
          task_wait_rc := TN_RC_TIMEOUT }
      sems := Function.update k1.sems queue
        { k1.sems queue with wait_queue := (k1.sems queue).wait_queue ++ [t] }
      timers := if timeout = cfg.TN_WAIT_INFINITE then k1.timers else (t, timeout) :: k1.timers
      trace := Event.curr_to_wait queue reason timeout :: k1.trace }
  { k2 with tn_next_task_to_run := find_next_task cfg k2 }

/-- Modelled from the spec: `wait_complete(task, rc)` of the wait-queue protocol
(`_tn_task_wait_complete`, tn_tasks, absent).  Steps: unlink the task from its wait
queue and cancel its timeout; clear Waiting and store `wait_rc = rc`; when Suspended is
not set, set Runnable, enqueue into the ready set and recompute next. -/
def _tn_task_wait_complete (cfg : Config) (k : Kernel) (task : Nat) (rc : TN_RCode) : Kernel :=
  let k1 : Kernel :=
    { k with
      sems := fun s => { k.sems s with wait_queue := (k.sems s).wait_queue.erase task }
      timers := k.timers.filter (fun e => e.1 ≠ task)
      tasks := Function.update k.tasks task
        { k.tasks task with
          task_state := { (k.tasks task).task_state with waiting := false }
          task_wait_rc := rc }
      trace := Event.wait_complete task rc :: k.trace }
  if (k.tasks task).task_state.suspended then k1
  else
    let k2 : Kernel :=
      { k1 with
        tasks := Function.update k1.tasks task
          { k1.tasks task with
            task_state := { (k1.tasks task).task_state with runnable := true } } }
    let k3 := ready_enqueue k2 task
    { k3 with tn_next_task_to_run := find_next_task cfg k3 }

/-- Modelled from the spec: `queue_notify_deleted(queue)` of the wait-queue protocol
(`_tn_wait_queue_notify_deleted`, absent): for each waiter of the queue, in queue
order, `wait_complete(task, DELETED)`. -/
def _tn_wait_queue_notify_deleted (cfg : Config) (k : Kernel) (queue : Nat) : Kernel :=
  (k.sems queue).wait_queue.foldl (fun k1 t => _tn_task_wait_complete cfg k1 t TN_RC_DELETED) k

/-- Modelled from the spec: the "context switch needed" predicate of the scheduler
core (`_tn_need_context_switch`, absent): current differs from next. -/
def _tn_need_context_switch (k : Kernel) : Bool :=
  k.tn_curr_run_task != k.tn_next_task_to_run

/-- The port routine `_tn_arch_context_switch` declared in `tn_arch.h`: the preempted
task is saved, `tn_curr_run_task` is set to `tn_next_task_to_run`, and the rest of the
system runs until the calling task is switched in again. -/
def _tn_arch_context_switch (cfg : Config) (k : Kernel) : Kernel :=
  cfg.arch_run_others
    { k with tn_curr_run_task := k.tn_next_task_to_run, trace := Event.context_switch :: k.trace }

/-- Modelled from the spec: `switch_if_needed()` of the scheduler core
(`_tn_switch_context_if_needed`, absent): when current differs from next, invoke the
architecture context switch. -/
def _tn_switch_context_if_needed (cfg : Config) (k : Kernel) : Kernel :=
  if _tn_need_context_switch k then _tn_arch_context_switch cfg k else k

/-- Modelled from the spec: the fatal-error hook `_TN_FATAL_ERROR` (macro of an absent
header): the hook is triggered, which the ghost log records. -/
def _TN_FATAL_ERROR (k : Kernel) : Kernel :=
  { k with trace := Event.fatal_error :: k.trace }

/-! ## `tn_sem.c` -/

/-- Transcription of `_check_param_generic` (TN_CHECK_PARAM build); `none` is the null pointer. -/
def _check_param_generic (cfg : Config) (k : Kernel) (sem : Option Nat) : TN_RCode :=
  match sem with
  | none => TN_RC_WPARAM
  | some s => if (k.sems s).id_sem ≠ cfg.TN_ID_SEMAPHORE then TN_RC_INVALID_OBJ else TN_RC_OK

/-- Transcription of `_check_param_create` (TN_CHECK_PARAM build). -/
def _check_param_create (cfg : Config) (k : Kernel) (sem : Option Nat)
    (start_count max_count : Int) : TN_RCode :=
  match sem with
  | none => TN_RC_WPARAM
  | some s =>
    if (k.sems s).id_sem = cfg.TN_ID_SEMAPHORE ∨ max_count ≤ 0 ∨ start_count < 0
        ∨ start_count > max_count then TN_RC_WPARAM
    else TN_RC_OK

/-- Transcription of `_sem_signal`: wake the first waiter, else count up if possible. -/
def _sem_signal (cfg : Config) (k : Kernel) (sem : Nat) : TN_RCode × Kernel :=
  if !(tn_is_list_empty (k.sems sem).wait_queue) then
    match (k.sems sem).wait_queue with
    | task :: _ => (TN_RC_OK, _tn_task_wait_complete cfg k task TN_RC_OK)
    | [] => (TN_RC_OK, k)
  else if (k.sems sem).count < (k.sems sem).max_count then
    (TN_RC_OK,
      { k with
        sems := Function.update k.sems sem { k.sems sem with count := (k.sems sem).count + 1 }
        trace := Event.count_write sem k.int_enabled :: k.trace })
  else (TN_RC_OVERFLOW, k)

/-- Transcription of `_sem_acquire`: take one unit if there is one, else TIMEOUT. -/
def _sem_acquire (_cfg : Config) (k : Kernel) (sem : Nat) : TN_RCode × Kernel :=
  if (k.sems sem).count ≥ 1 then
    (TN_RC_OK,
      { k with
        sems := Function.update k.sems sem { k.sems sem with count := (k.sems sem).count - 1 }
        trace := Event.count_write sem k.int_enabled :: k.trace })
  else (TN_RC_TIMEOUT, k)

/-- The interrupts-disabled region of `_sem_job_perform` (from `TN_INT_DIS_SAVE` to
`TN_INT_RESTORE`, both included) on a non-null semaphore: the worker's code, whether the
caller was put to wait, and the state when interrupts are restored. -/
def _sem_job_section (cfg : Config) (k : Kernel) (s : Nat)
    (p_worker : Config → Kernel → Nat → TN_RCode × Kernel) (timeout : Nat) :
    TN_RCode × Bool × Kernel :=
  let saved := tn_arch_sr_save_int_dis k
  let r := p_worker cfg saved.2 s
  let waited_for_sem : Bool := r.1 == TN_RC_TIMEOUT && timeout != 0
  let k3 :=
    if waited_for_sem then
      _tn_task_curr_to_wait_action cfg r.2 s TN_WAIT_REASON_SEM timeout
    else r.2
  let k4 :=
    if cfg.TN_DEBUG && (!_tn_need_context_switch k3 && waited_for_sem) then _TN_FATAL_ERROR k3
    else k3
  (r.1, waited_for_sem, tn_arch_sr_restore k4 saved.1)

/-- Transcription of `_sem_job_perform`: parameter check, context check, the
interrupts-disabled region, the deferred context switch, and the code read back from
the current task when the caller had been put to wait. -/
def _sem_job_perform (cfg : Config) (k : Kernel) (sem : Option Nat)
    (p_worker : Config → Kernel → Nat → TN_RCode × Kernel) (timeout : Nat) :
    TN_RCode × Kernel :=
  if _check_param_generic cfg k sem ≠ TN_RC_OK then (_check_param_generic cfg k sem, k)
  else if !tn_is_task_context k then (TN_RC_WCONTEXT, k)
  else
    match sem with
    | none => (TN_RC_OK, k)
    | some s =>
      let r := _sem_job_section cfg k s p_worker timeout
      let k6 := _tn_switch_context_if_needed cfg r.2.2
      (if r.2.1 then (k6.tasks k6.tn_curr_run_task).task_wait_rc else r.1, k6)

/-- Transcription of `_sem_job_iperform`: parameter check, ISR context check, the worker
between `TN_INT_IDIS_SAVE` and `TN_INT_IRESTORE`. -/
def _sem_job_iperform (cfg : Config) (k : Kernel) (sem : Option Nat)
    (p_worker : Config → Kernel → Nat → TN_RCode × Kernel) : TN_RCode × Kernel :=
  if _check_param_generic cfg k sem ≠ TN_RC_OK then (_check_param_generic cfg k sem, k)
  else if !tn_is_isr_context k then (TN_RC_WCONTEXT, k)
  else
    match sem with
    | none => (TN_RC_OK, k)
    | some s =>
      let saved := tn_arch_sr_save_int_idis k
      let r := p_worker cfg saved.2 s
      (r.1, tn_arch_sr_irestore r.2 saved.1)

/-- Transcription of `tn_sem_create`. -/
def tn_sem_create (cfg : Config) (k : Kernel) (sem : Option Nat)
    (start_count max_count : Int) : TN_RCode × Kernel :=
  if _check_param_create cfg k sem start_count max_count ≠ TN_RC_OK then
    (_check_param_create cfg k sem start_count max_count, k)
  else if !tn_is_task_context k then (TN_RC_WCONTEXT, k)
  else
    match sem with
    | none => (TN_RC_OK, k)
    | some s =>
      (TN_RC_OK,
        { k with
          sems := Function.update k.sems s
            { wait_queue := []
              count := start_count
              max_count := max_count
              id_sem := cfg.TN_ID_SEMAPHORE }
          trace := Event.id_write s cfg.TN_ID_SEMAPHORE k.int_enabled
            :: Event.count_write s k.int_enabled :: k.trace })

/-- The interrupts-disabled region of `tn_sem_delete` on a non-null semaphore: notify
the waiters, clear the identity tag, restore interrupts. -/
def tn_sem_delete_section (cfg : Config) (k : Kernel) (s : Nat) : Kernel :=
  let saved := tn_arch_sr_save_int_dis k
  let k2 := _tn_wait_queue_notify_deleted cfg saved.2 s
  let k3 : Kernel :=
    { k2 with
      sems := Function.update k2.sems s { k2.sems s with id_sem := 0 }
      trace := Event.id_write s 0 k2.int_enabled :: k2.trace }
  tn_arch_sr_restore k3 saved.1

/-- Transcription of `tn_sem_delete`. -/
def tn_sem_delete (cfg : Config) (k : Kernel) (sem : Option Nat) : TN_RCode × Kernel :=
  if _check_param_generic cfg k sem ≠ TN_RC_OK then (_check_param_generic cfg k sem, k)
  else if !tn_is_task_context k then (TN_RC_WCONTEXT, k)
  else
    match sem with
    | none => (TN_RC_OK, k)
    | some s => (TN_RC_OK, _tn_switch_context_if_needed cfg (tn_sem_delete_section cfg k s))

/-- Transcription of `tn_sem_signal`. -/
def tn_sem_signal (cfg : Config) (k : Kernel) (sem : Option Nat) : TN_RCode × Kernel :=
  _sem_job_perform cfg k sem _sem_signal 0

/-- Transcription of `tn_sem_isignal`. -/
def tn_sem_isignal (cfg : Config) (k : Kernel) (sem : Option Nat) : TN_RCode × Kernel :=
  _sem_job_iperform cfg k sem _sem_signal

/-- Transcription of `tn_sem_acquire`. -/
def tn_sem_acquire (cfg : Config) (k : Kernel) (sem : Option Nat) (timeout : Nat) :
    TN_RCode × Kernel :=
  _sem_job_perform cfg k sem _sem_acquire timeout

/-- Transcription of `tn_sem_acquire_polling`. -/
def tn_sem_acquire_polling (cfg : Config) (k : Kernel) (sem : Option Nat) : TN_RCode × Kernel :=
  _sem_job_perform cfg k sem _sem_acquire 0

/-- Transcription of `tn_sem_iacquire_polling`. -/
def tn_sem_iacquire_polling (cfg : Config) (k : Kernel) (sem : Option Nat) : TN_RCode × Kernel :=
  _sem_job_iperform cfg k sem _sem_acquire

/-! ## Semaphore invariants -/

/-- The range predicate of the data model: `0 <= count <= max_count`. -/
def count_in_range (x : TN_Sem) : Prop :=
  0 ≤ x.count ∧ x.count ≤ x.max_count

/-- The queue predicate of the data model: a non-empty wait queue implies `count == 0`. -/
def queue_implies_zero (x : TN_Sem) : Prop :=
  x.wait_queue ≠ [] → x.count = 0

/-- The full semaphore invariant of the data model. -/
def sem_invariant (x : TN_Sem) : Prop :=
  count_in_range x ∧ queue_implies_zero x

/-! ## Repeated signalling -/

/-- The codes, in call order, and the final state of `n` consecutive `tn_sem_signal` calls. -/
def signal_times (cfg : Config) : Nat → Kernel → Option Nat → List TN_RCode × Kernel
  | 0, k, _ => ([], k)
  | n + 1, k, sem =>
    ((tn_sem_signal cfg k sem).1 :: (signal_times cfg n (tn_sem_signal cfg k sem).2 sem).1,
      (signal_times cfg n (tn_sem_signal cfg k sem).2 sem).2)

/-- The codes, in call order, and the final state of `n` consecutive `tn_sem_isignal` calls. -/
def isignal_times (cfg : Config) : Nat → Kernel → Option Nat → List TN_RCode × Kernel
  | 0, k, _ => ([], k)
  | n + 1, k, sem =>
    ((tn_sem_isignal cfg k sem).1 :: (isignal_times cfg n (tn_sem_isignal cfg k sem).2 sem).1,
      (isignal_times cfg n (tn_sem_isignal cfg k sem).2 sem).2)

/-- The wait completions recorded in a log, oldest first: which task, with which code. -/
def wakeups (tr : List Event) : List (Nat × TN_RCode) :=
  (tr.filterMap (fun e =>
    match e with
    | Event.wait_complete t rc => some (t, rc)
    | _ => none)).reverse

/-! ## Sample system used to exercise the statements -/

/-- Sample configuration: debug build, 8 priorities, nothing else runs during a switch. -/
def demo_cfg : Config :=
  { TN_DEBUG := true
    TN_ID_SEMAPHORE := 0x6FA173EB
    TN_PRIORITIES_CNT := 8
    TN_WAIT_INFINITE := 0xFFFFFFFF
    arch_run_others := fun k => k }

/-- Sample system: idle task 0 at priority 7, tasks 1, 2, 3 at priority 4, task 5 at
priority 2; all runnable, task 1 running; no semaphore created yet. -/
def demo_kernel : Kernel :=
  { tasks := fun t =>
      { priority := if t = 0 then 7 else if t = 5 then 2 else 4
        task_state := { runnable := true, waiting := false, suspended := false, dormant := false }
        task_wait_reason := TN_WAIT_REASON_NONE
        task_wait_rc := TN_RC_OK }
    sems := fun _ => { wait_queue := [], count := 0, max_count := 0, id_sem := 0 }
    ready := fun p => if p = 7 then [0] else if p = 4 then [1, 2, 3] else if p = 2 then [5] else []
    timers := []
    tn_curr_run_task := 1
    tn_next_task_to_run := 1
    idle_task := 0
    context := TN_CONTEXT_TASK
    int_enabled := true
    trace := [] }

/-- The sample system seen from an interrupt handler. -/
def in_isr (k : Kernel) : Kernel :=
  { k with context := TN_CONTEXT_ISR }

/-- The sample system with task `t` running in task context. -/
def running (k : Kernel) (t : Nat) : Kernel :=
  { k with context := TN_CONTEXT_TASK, tn_curr_run_task := t, tn_next_task_to_run := t }

/-- Sample state: semaphore 0 created with count 0 of 3, then tasks 1, 2, 3 have called
acquire with an infinite timeout, in that order; task 5 is running. -/
def demo_waiting : Kernel :=
  let k0 := (tn_sem_create demo_cfg demo_kernel (some 0) 0 3).2
  let k1 := (tn_sem_acquire demo_cfg (running k0 1) (some 0) 0xFFFFFFFF).2
  let k2 := (tn_sem_acquire demo_cfg (running k1 2) (some 0) 0xFFFFFFFF).2
  let k3 := (tn_sem_acquire demo_cfg (running k2 3) (some 0) 0xFFFFFFFF).2
  running k3 5

/-- Sample state for the overflow scenario: semaphore 0 created with `start_count = 1`
and `max_count = 1`. -/
def demo_sem_1_1 : Kernel :=
  (tn_sem_create demo_cfg demo_kernel (some 0) 1 1).2

/-- Sample state: semaphore 0 created with count 0 of 3, task 1 running. -/
def demo_created : Kernel :=
  (tn_sem_create demo_cfg demo_kernel (some 0) 0 3).2

/-- Sample behaviour of the rest of the system while the caller (task 1) is switched
out: task 5 deletes semaphore 0, then task 1 is switched in again. -/
def demo_others_delete (k : Kernel) : Kernel :=
  running (tn_sem_delete demo_cfg (running k 5) (some 0)).2 1

/-- Sample behaviour of the rest of the system while the caller (task 1) is switched
out: task 5 signals semaphore 0, then task 1 is switched in again. -/
def demo_others_signal (k : Kernel) : Kernel :=
  running (tn_sem_signal demo_cfg (running k 5) (some 0)).2 1

/-- Sample behaviour of the rest of the system while the caller (task 1) is switched
out: the tick driver times the wait of task 1 out, then task 1 is switched in again. -/
def demo_others_tick (k : Kernel) : Kernel :=
  running (_tn_task_wait_complete demo_cfg k 1 TN_RC_TIMEOUT) 1

/-- The sample configuration with the given behaviour of the rest of the system. -/
def demo_cfg_with (others : Kernel → Kernel) : Config :=
  { demo_cfg with arch_run_others := others }

/-- The same state seen from a task. -/
def in_task (k : Kernel) : Kernel :=
  { k with context := TN_CONTEXT_TASK }

/-! ## Reading the ghost log -/

/-- The result codes of a failed validation: WPARAM, INVALID_OBJ, WCONTEXT. -/
def is_validation_failure (rc : TN_RCode) : Bool :=
  rc == TN_RC_WPARAM || rc == TN_RC_INVALID_OBJ || rc == TN_RC_WCONTEXT

/-- The codes a wait can end with: OK, TIMEOUT, DELETED, or FORCED (explicit release). -/
def is_wait_code (rc : TN_RCode) : Bool :=
  rc == TN_RC_OK || rc == TN_RC_TIMEOUT || rc == TN_RC_DELETED || rc == TN_RC_FORCED

/-- Every task's `wait_rc` holds a code a wait can end with. -/
def wait_codes_ok (k : Kernel) : Prop :=
  ∀ t, is_wait_code (k.tasks t).task_wait_rc = true

/-- The interrupt save-disable and restore entries of a log. -/
def int_events (tr : List Event) : List Event :=
  tr.filter (fun e =>
    match e with
    | Event.int_dis_save => true
    | Event.int_restore _ => true
    | Event.int_idis_save => true
    | Event.int_irestore _ => true
    | _ => false)

/-- The calls of the wait protocol (`wait_curr`) recorded in a log. -/
def wait_calls (tr : List Event) : List Event :=
  tr.filter (fun e =>
    match e with
    | Event.curr_to_wait _ _ _ => true
    | _ => false)

/-- What the interrupts-disabled region of a semaphore job may log between its
save-disable and its restore, on semaphore `s` with the given timeout: nothing, one
write of `count` with interrupts disabled, one wait completion with OK, or one call of
the wait protocol, preceded in the log order by the debug hook or not. -/
def section_log (s : Nat) (timeout : Nat) (mid : List Event) : Prop :=
  mid = []
    ∨ mid = [Event.count_write s false]
    ∨ (∃ t, mid = [Event.wait_complete t TN_RC_OK])
    ∨ mid = [Event.curr_to_wait s TN_WAIT_REASON_SEM timeout]
    ∨ mid = [Event.fatal_error, Event.curr_to_wait s TN_WAIT_REASON_SEM timeout]

/-- Between the states `k` and `k1` the log gained a save-disable, then the entries
`mid`, then the restore; in `mid` no write of `count` was made with interrupts enabled,
and every semaphore whose `count` differs between `k` and `k1` has a write of its
`count` with interrupts disabled in `mid`. -/
def count_writes_masked (k k1 : Kernel) (save restore : Event) : Prop :=
  ∃ mid, k1.trace = restore :: (mid ++ save :: k.trace)
    ∧ (∀ s1, Event.count_write s1 true ∉ mid)
    ∧ (∀ s1, (k1.sems s1).count ≠ (k.sems s1).count → Event.count_write s1 false ∈ mid)

/-- Between the states `k` and `k1` the log gained exactly one save-disable and, after
the entries `mid`, one restore; `mid` holds no interrupt entry and no context switch,
and the interrupt-enable bit of `k1` is the one of `k`. -/
def int_balanced (k k1 : Kernel) (save restore : Event) : Prop :=
  ∃ mid, k1.trace = restore :: (mid ++ save :: k.trace)
    ∧ int_events mid = []
    ∧ Event.context_switch ∉ mid
    ∧ k1.int_enabled = k.int_enabled

theorem wait_complete_sems (cfg : Config) (k : Kernel) (t : Nat) (rc : TN_RCode) (s : Nat) :
    (_tn_task_wait_complete cfg k t rc).sems s
      = { k.sems s with wait_queue := (k.sems s).wait_queue.erase t } := by
  unfold _tn_task_wait_complete
  split <;> simp [ready_enqueue]

theorem wait_complete_trace (cfg : Config) (k : Kernel) (t : Nat) (rc : TN_RCode) :
    (_tn_task_wait_complete cfg k t rc).trace = Event.wait_complete t rc :: k.trace := by
  unfold _tn_task_wait_complete
  split <;> simp [ready_enqueue]

theorem wait_complete_int_enabled (cfg : Config) (k : Kernel) (t : Nat) (rc : TN_RCode) :
    (_tn_task_wait_complete cfg k t rc).int_enabled = k.int_enabled := by
  unfold _tn_task_wait_complete
  split <;> simp [ready_enqueue]

theorem wait_complete_context (cfg : Config) (k : Kernel) (t : Nat) (rc : TN_RCode) :
    (_tn_task_wait_complete cfg k t rc).context = k.context := by
  unfold _tn_task_wait_complete
  split <;> simp [ready_enqueue]

theorem wait_complete_task_rc (cfg : Config) (k : Kernel) (t : Nat) (rc : TN_RCode) :
    ((_tn_task_wait_complete cfg k t rc).tasks t).task_wait_rc = rc := by
  unfold _tn_task_wait_complete
  split <;> simp [ready_enqueue]

theorem wait_complete_task_waiting (cfg : Config) (k : Kernel) (t : Nat) (rc : TN_RCode) :
    ((_tn_task_wait_complete cfg k t rc).tasks t).task_state.waiting = false := by
  unfold _tn_task_wait_complete
  split <;> simp [ready_enqueue]

theorem wait_complete_task_other (cfg : Config) (k : Kernel) (t : Nat) (rc : TN_RCode)
    (u : Nat) (hu : u ≠ t) :
    (_tn_task_wait_complete cfg k t rc).tasks u = k.tasks u := by
  unfold _tn_task_wait_complete
  split <;> simp [ready_enqueue, Function.update_noteq hu]

/-- Claim C1. On an initialised semaphore whose wait queue is `t :: rest`,
`tn_sem_signal` in task context and `tn_sem_isignal` in ISR context return OK.  The state
`k1` at the end of the interrupts-disabled region (the state the deferred context switch
starts from, resp. the returned state in an ISR) has `count`, `max_count` and the tag
unchanged, the wait queue reduced to `rest`, task `t` no longer waiting with
`wait_rc = OK`, every other task untouched, and exactly one `wait_complete` call, on `t`
with OK, was made; count was never written. -/
theorem tn_sem_signal_wakes_first_waiter (cfg : Config) (k : Kernel) (s t : Nat)
    (rest : List Nat)
    (hid : (k.sems s).id_sem = cfg.TN_ID_SEMAPHORE)
    (hq : (k.sems s).wait_queue = t :: rest) :
    (k.context = TN_CONTEXT_TASK →
      ∃ k1, tn_sem_signal cfg k (some s) = (TN_RC_OK, _tn_switch_context_if_needed cfg k1)
        ∧ (k1.sems s).count = (k.sems s).count
        ∧ (k1.sems s).max_count = (k.sems s).max_count
        ∧ (k1.sems s).id_sem = (k.sems s).id_sem
        ∧ (k1.sems s).wait_queue = rest
        ∧ (k1.tasks t).task_wait_rc = TN_RC_OK
        ∧ (k1.tasks t).task_state.waiting = false
        ∧ (∀ u, u ≠ t → k1.tasks u = k.tasks u)
        ∧ k1.trace = Event.int_restore k.int_enabled :: Event.wait_complete t TN_RC_OK
            :: Event.int_dis_save :: k.trace)
    ∧ (k.context = TN_CONTEXT_ISR →
      ∃ k1, tn_sem_isignal cfg k (some s) = (TN_RC_OK, k1)
        ∧ (k1.sems s).count = (k.sems s).count
        ∧ (k1.sems s).max_count = (k.sems s).max_count
        ∧ (k1.sems s).id_sem = (k.sems s).id_sem
        ∧ (k1.sems s).wait_queue = rest
        ∧ (k1.tasks t).task_wait_rc = TN_RC_OK
        ∧ (k1.tasks t).task_state.waiting = false
        ∧ (∀ u, u ≠ t → k1.tasks u = k.tasks u)
        ∧ k1.trace = Event.int_irestore k.int_enabled :: Event.wait_complete t TN_RC_OK
            :: Event.int_idis_save :: k.trace) := by
  constructor
  · intro hc
    refine ⟨(_sem_job_section cfg k s _sem_signal 0).2.2, ?_, ?_⟩
    · simp [tn_sem_signal, _sem_job_perform, _check_param_generic, hid, tn_is_task_context, hc,
        _sem_job_section, _sem_signal, tn_arch_sr_save_int_dis, hq, tn_is_list_empty]
    · simp [_sem_job_section, _sem_signal, tn_arch_sr_save_int_dis, hq, tn_is_list_empty,
        tn_arch_sr_restore, wait_complete_sems, wait_complete_trace, wait_complete_task_rc,
        wait_complete_task_waiting]
      intro u hu
      rw [wait_complete_task_other _ _ _ _ _ hu]
  · intro hc
    refine ⟨(_sem_job_iperform cfg k (some s) _sem_signal).2, ?_, ?_⟩
    · simp [tn_sem_isignal, _sem_job_iperform, _check_param_generic, hid, tn_is_isr_context, hc,
        _sem_signal, tn_arch_sr_save_int_idis, hq, tn_is_list_empty]
    · simp [_sem_job_iperform, _check_param_generic, hid, tn_is_isr_context, hc,
        _sem_signal, tn_arch_sr_save_int_idis, hq, tn_is_list_empty,
        tn_arch_sr_irestore, wait_complete_sems, wait_complete_trace, wait_complete_task_rc,
        wait_complete_task_waiting]
      intro u hu
      rw [wait_complete_task_other _ _ _ _ _ hu]

/-- Witness for C1 on the sample state: tasks 1, 2, 3 wait on semaphore 0, task 5 signals. -/
theorem tn_sem_signal_wakes_first_waiter_witness :
    (demo_waiting.sems 0).id_sem = demo_cfg.TN_ID_SEMAPHORE
      ∧ (demo_waiting.sems 0).wait_queue = 1 :: [2, 3]
      ∧ demo_waiting.context = TN_CONTEXT_TASK
      ∧ (tn_sem_signal demo_cfg demo_waiting (some 0)).1 = TN_RC_OK :=
  ⟨by decide, by decide, by decide, by
    obtain ⟨k1, h, _⟩ :=
      (tn_sem_signal_wakes_first_waiter demo_cfg demo_waiting 0 1 [2, 3]
        (by decide) (by decide)).1 (by decide)
    rw [h]⟩

/-- Claim C2. On an initialised semaphore whose wait queue is empty, `tn_sem_signal` in
task context and `tn_sem_isignal` in ISR context return OK and add exactly 1 to `count`
when `count < max_count`, and return OVERFLOW with every semaphore untouched when
`count` has reached `max_count`.  In task context the stated state `k1` is the one at
the end of the interrupts-disabled region, from which the deferred switch starts. -/
theorem tn_sem_signal_empty_queue (cfg : Config) (k : Kernel) (s : Nat)
    (hid : (k.sems s).id_sem = cfg.TN_ID_SEMAPHORE)
    (hq : (k.sems s).wait_queue = []) :
    (k.context = TN_CONTEXT_TASK →
      ((k.sems s).count < (k.sems s).max_count →
        ∃ k1, tn_sem_signal cfg k (some s) = (TN_RC_OK, _tn_switch_context_if_needed cfg k1)
          ∧ (k1.sems s).count = (k.sems s).count + 1
          ∧ (k1.sems s).max_count = (k.sems s).max_count
          ∧ (k1.sems s).wait_queue = []
          ∧ k1.tasks = k.tasks)
      ∧ ((k.sems s).max_count ≤ (k.sems s).count →
        ∃ k1, tn_sem_signal cfg k (some s)
            = (TN_RC_OVERFLOW, _tn_switch_context_if_needed cfg k1)
          ∧ k1.sems = k.sems
          ∧ k1.tasks = k.tasks))
    ∧ (k.context = TN_CONTEXT_ISR →
      ((k.sems s).count < (k.sems s).max_count →
        ∃ k1, tn_sem_isignal cfg k (some s) = (TN_RC_OK, k1)
          ∧ (k1.sems s).count = (k.sems s).count + 1
          ∧ (k1.sems s).max_count = (k.sems s).max_count
          ∧ (k1.sems s).wait_queue = []
          ∧ k1.tasks = k.tasks)
      ∧ ((k.sems s).max_count ≤ (k.sems s).count →
        ∃ k1, tn_sem_isignal cfg k (some s) = (TN_RC_OVERFLOW, k1)
          ∧ k1.sems = k.sems
          ∧ k1.tasks = k.tasks)) := by
  refine ⟨fun hc => ⟨fun hlt => ?_, fun hge => ?_⟩, fun hc => ⟨fun hlt => ?_, fun hge => ?_⟩⟩
  · refine ⟨(_sem_job_section cfg k s _sem_signal 0).2.2, ?_, ?_⟩
    · simp [tn_sem_signal, _sem_job_perform, _check_param_generic, hid, tn_is_task_context, hc,
        _sem_job_section, _sem_signal, tn_arch_sr_save_int_dis, hq, tn_is_list_empty, hlt]
    · simp [_sem_job_section, _sem_signal, tn_arch_sr_save_int_dis, hq, tn_is_list_empty, hlt,
        tn_arch_sr_restore]
  · refine ⟨(_sem_job_section cfg k s _sem_signal 0).2.2, ?_, ?_⟩
    · simp [tn_sem_signal, _sem_job_perform, _check_param_generic, hid, tn_is_task_context, hc,
        _sem_job_section, _sem_signal, tn_arch_sr_save_int_dis, hq, tn_is_list_empty,
        not_lt.mpr hge]
    · simp [_sem_job_section, _sem_signal, tn_arch_sr_save_int_dis, hq, tn_is_list_empty,
        not_lt.mpr hge, tn_arch_sr_restore]
  · refine ⟨(_sem_job_iperform cfg k (some s) _sem_signal).2, ?_, ?_⟩
    · simp [tn_sem_isignal, _sem_job_iperform, _check_param_generic, hid, tn_is_isr_context, hc,
        _sem_signal, tn_arch_sr_save_int_idis, hq, tn_is_list_empty, hlt]
    · simp [_sem_job_iperform, _check_param_generic, hid, tn_is_isr_context, hc,
        _sem_signal, tn_arch_sr_save_int_idis, hq, tn_is_list_empty, hlt, tn_arch_sr_irestore]
  · refine ⟨(_sem_job_iperform cfg k (some s) _sem_signal).2, ?_, ?_⟩
    · simp [tn_sem_isignal, _sem_job_iperform, _check_param_generic, hid, tn_is_isr_context, hc,
        _sem_signal, tn_arch_sr_save_int_idis, hq, tn_is_list_empty, not_lt.mpr hge]
    · simp [_sem_job_iperform, _check_param_generic, hid, tn_is_isr_context, hc,
        _sem_signal, tn_arch_sr_save_int_idis, hq, tn_is_list_empty, not_lt.mpr hge,
        tn_arch_sr_irestore]

/-- Witness for C2, the overflow scenario: semaphore 0 created with `start_count = 1`,
`max_count = 1`; signal returns OVERFLOW and `count` stays 1. -/
theorem tn_sem_signal_empty_queue_witness :
    ((demo_sem_1_1.sems 0).id_sem = demo_cfg.TN_ID_SEMAPHORE
      ∧ (demo_sem_1_1.sems 0).wait_queue = []
      ∧ demo_sem_1_1.context = TN_CONTEXT_TASK
      ∧ (demo_sem_1_1.sems 0).max_count ≤ (demo_sem_1_1.sems 0).count)
    ∧ (tn_sem_signal demo_cfg demo_sem_1_1 (some 0)).1 = TN_RC_OVERFLOW
    ∧ ((tn_sem_signal demo_cfg demo_sem_1_1 (some 0)).2.sems 0).count = 1 :=
  ⟨⟨by decide, by decide, by decide, by decide⟩, by
    obtain ⟨k1, h, _⟩ :=
      ((tn_sem_signal_empty_queue demo_cfg demo_sem_1_1 0 (by decide) (by decide)).1
        (by decide)).2 (by decide)
    rw [h], by decide⟩

/-- Claim C3. On an initialised semaphore with `count >= 1`, `tn_sem_acquire` in task
context returns OK for every timeout; in the state `k1` at the end of the
interrupts-disabled region (from which the deferred switch starts) `count` is one less,
every wait queue, every task (so the caller's state too), the ready set and the
scheduler pointers are unchanged, and the wait protocol was not called. -/
theorem tn_sem_acquire_takes_unit (cfg : Config) (k : Kernel) (s : Nat) (timeout : Nat)
    (hid : (k.sems s).id_sem = cfg.TN_ID_SEMAPHORE)
    (hctx : k.context = TN_CONTEXT_TASK)
    (hc : 1 ≤ (k.sems s).count) :
    ∃ k1, tn_sem_acquire cfg k (some s) timeout
        = (TN_RC_OK, _tn_switch_context_if_needed cfg k1)
      ∧ (k1.sems s).count = (k.sems s).count - 1
      ∧ (k1.sems s).max_count = (k.sems s).max_count
      ∧ (∀ s1, (k1.sems s1).wait_queue = (k.sems s1).wait_queue)
      ∧ k1.tasks = k.tasks
      ∧ k1.ready = k.ready
      ∧ k1.tn_curr_run_task = k.tn_curr_run_task
      ∧ k1.tn_next_task_to_run = k.tn_next_task_to_run
      ∧ k1.trace = Event.int_restore k.int_enabled :: Event.count_write s false
          :: Event.int_dis_save :: k.trace := by
  refine ⟨(_sem_job_section cfg k s _sem_acquire timeout).2.2, ?_, ?_⟩
  · simp [tn_sem_acquire, _sem_job_perform, _check_param_generic, hid, tn_is_task_context, hctx,
      _sem_job_section, _sem_acquire, tn_arch_sr_save_int_dis, hc]
  · simp only [_sem_job_section, _sem_acquire, tn_arch_sr_save_int_dis, hc, ge_iff_le,
      if_true, tn_arch_sr_restore]
    simp
    intro s1
    by_cases h : s1 = s
    · subst h; simp
    · simp [Function.update_noteq h]

/-- Witness for C3: semaphore 0 of the overflow scenario holds one unit; acquire with an
infinite timeout takes it at once. -/
theorem tn_sem_acquire_takes_unit_witness :
    ((demo_sem_1_1.sems 0).id_sem = demo_cfg.TN_ID_SEMAPHORE
      ∧ demo_sem_1_1.context = TN_CONTEXT_TASK
      ∧ 1 ≤ (demo_sem_1_1.sems 0).count)
    ∧ (tn_sem_acquire demo_cfg demo_sem_1_1 (some 0) 0xFFFFFFFF).1 = TN_RC_OK :=
  ⟨⟨by decide, by decide, by decide⟩, by
    obtain ⟨k1, h, _⟩ :=
      tn_sem_acquire_takes_unit demo_cfg demo_sem_1_1 0 0xFFFFFFFF
        (by decide) (by decide) (by decide)
    rw [h]⟩

/-- Claim C4. On an initialised semaphore with `count < 1`, `tn_sem_acquire` with
timeout 0 in task context returns TIMEOUT; the state `k1` at the end of the
interrupts-disabled region is the starting state except for the log, which gained only
the interrupt save-disable and its restore: the wait protocol was not called, and
`count`, `max_count`, the wait queue and every task are unchanged. -/
theorem tn_sem_acquire_poll_fails (cfg : Config) (k : Kernel) (s : Nat)
    (hid : (k.sems s).id_sem = cfg.TN_ID_SEMAPHORE)
    (hctx : k.context = TN_CONTEXT_TASK)
    (hc : (k.sems s).count < 1) :
    tn_sem_acquire cfg k (some s) 0
      = (TN_RC_TIMEOUT,
          _tn_switch_context_if_needed cfg
            { k with trace := Event.int_restore k.int_enabled :: Event.int_dis_save :: k.trace })
      := by
  simp [tn_sem_acquire, _sem_job_perform, _check_param_generic, hid, tn_is_task_context, hctx,
      _sem_job_section, _sem_acquire, tn_arch_sr_save_int_dis, not_le.mpr hc, tn_arch_sr_restore]

/-- Witness for C4: polling the empty semaphore 0 of the sample state. -/
theorem tn_sem_acquire_poll_fails_witness :
    ((demo_waiting.sems 0).id_sem = demo_cfg.TN_ID_SEMAPHORE
      ∧ demo_waiting.context = TN_CONTEXT_TASK
      ∧ (demo_waiting.sems 0).count < 1)
    ∧ (tn_sem_acquire demo_cfg demo_waiting (some 0) 0).1 = TN_RC_TIMEOUT :=
  ⟨⟨by decide, by decide, by decide⟩, by
    rw [tn_sem_acquire_poll_fails demo_cfg demo_waiting 0 (by decide) (by decide) (by decide)]⟩

/-- Claim C5. On an initialised semaphore with `count < 1`, `tn_sem_acquire` with a
non-zero timeout in task context calls the wait protocol exactly once, on the
semaphore's own wait queue with reason Sem and the given timeout, inside the
interrupts-disabled region (the log of the state `k1` at the end of that region shows
it; between it and the restore at most the debug hook is logged); `count` is unchanged
and the caller is appended to the wait queue; the code returned is the `wait_rc` of the
current task in the state the call returns in, that is after the deferred context
switch, whatever the immediate attempt produced. -/
theorem tn_sem_acquire_waits (cfg : Config) (k : Kernel) (s : Nat) (timeout : Nat)
    (hid : (k.sems s).id_sem = cfg.TN_ID_SEMAPHORE)
    (hctx : k.context = TN_CONTEXT_TASK)
    (hc : (k.sems s).count < 1)
    (ht : timeout ≠ 0) :
    ∃ k1 hook, (tn_sem_acquire cfg k (some s) timeout).2 = _tn_switch_context_if_needed cfg k1
      ∧ (tn_sem_acquire cfg k (some s) timeout).1
          = ((tn_sem_acquire cfg k (some s) timeout).2.tasks
              (tn_sem_acquire cfg k (some s) timeout).2.tn_curr_run_task).task_wait_rc
      ∧ (k1.sems s).count = (k.sems s).count
      ∧ (k1.sems s).max_count = (k.sems s).max_count
      ∧ (k1.sems s).wait_queue = (k.sems s).wait_queue ++ [k.tn_curr_run_task]
      ∧ (k1.tasks k.tn_curr_run_task).task_state.waiting = true
      ∧ (k1.tasks k.tn_curr_run_task).task_wait_reason = TN_WAIT_REASON_SEM
      ∧ (hook = [] ∨ hook = [Event.fatal_error])
      ∧ k1.trace = Event.int_restore k.int_enabled
          :: (hook ++ Event.curr_to_wait s TN_WAIT_REASON_SEM timeout
          :: Event.int_dis_save :: k.trace) := by
  have hw : (_sem_job_section cfg k s _sem_acquire timeout).2.1 = true := by
    simp [_sem_job_section, _sem_acquire, tn_arch_sr_save_int_dis, not_le.mpr hc, ht]
  have hsec : (_sem_job_section cfg k s _sem_acquire timeout).2.2
      = tn_arch_sr_restore
          (if (cfg.TN_DEBUG && (!_tn_need_context_switch
              (_tn_task_curr_to_wait_action cfg (tn_arch_sr_save_int_dis k).2 s
                TN_WAIT_REASON_SEM timeout) && true)) = true
            then _TN_FATAL_ERROR (_tn_task_curr_to_wait_action cfg (tn_arch_sr_save_int_dis k).2 s
                TN_WAIT_REASON_SEM timeout)
            else _tn_task_curr_to_wait_action cfg (tn_arch_sr_save_int_dis k).2 s
                TN_WAIT_REASON_SEM timeout) k.int_enabled := by
    have e1 : (_sem_acquire cfg (tn_arch_sr_save_int_dis k).2 s) = (TN_RC_TIMEOUT, (tn_arch_sr_save_int_dis k).2) := by
      simp [_sem_acquire, tn_arch_sr_save_int_dis, not_le.mpr hc]
    unfold _sem_job_section
    simp only [e1]
    simp [ht, tn_arch_sr_save_int_dis]
  by_cases hf : (cfg.TN_DEBUG && (!_tn_need_context_switch
      (_tn_task_curr_to_wait_action cfg (tn_arch_sr_save_int_dis k).2 s
        TN_WAIT_REASON_SEM timeout) && true)) = true
  · refine ⟨(_sem_job_section cfg k s _sem_acquire timeout).2.2, [Event.fatal_error], ?_, ?_, ?_⟩
    · simp [tn_sem_acquire, _sem_job_perform, _check_param_generic, hid, tn_is_task_context, hctx]
    · simp [tn_sem_acquire, _sem_job_perform, _check_param_generic, hid, tn_is_task_context, hctx,
        hw]
    · rw [hsec, if_pos hf]
      simp [tn_arch_sr_restore, _TN_FATAL_ERROR, _tn_task_curr_to_wait_action, ready_remove,
        tn_arch_sr_save_int_dis]
  · refine ⟨(_sem_job_section cfg k s _sem_acquire timeout).2.2, [], ?_, ?_, ?_⟩
    · simp [tn_sem_acquire, _sem_job_perform, _check_param_generic, hid, tn_is_task_context, hctx]
    · simp [tn_sem_acquire, _sem_job_perform, _check_param_generic, hid, tn_is_task_context, hctx,
        hw]
    · rw [hsec, if_neg hf]
      simp [tn_arch_sr_restore, _tn_task_curr_to_wait_action, ready_remove,
        tn_arch_sr_save_int_dis]

/-- Witness for C5: task 1 acquires the empty semaphore 0 with timeout 10.  When task 5
deletes the semaphore meanwhile the call returns DELETED, when task 5 signals it the
call returns OK, when the tick driver times the wait out it returns TIMEOUT. -/
theorem tn_sem_acquire_waits_witness :
    ((demo_created.sems 0).id_sem = (demo_cfg_with demo_others_delete).TN_ID_SEMAPHORE
      ∧ demo_created.context = TN_CONTEXT_TASK
      ∧ (demo_created.sems 0).count < 1
      ∧ 10 ≠ 0)
    ∧ (∃ k1 hook,
        (tn_sem_acquire (demo_cfg_with demo_others_delete) demo_created (some 0) 10).2
          = _tn_switch_context_if_needed (demo_cfg_with demo_others_delete) k1
        ∧ (k1.sems 0).wait_queue = [1]
        ∧ k1.trace = Event.int_restore true
            :: (hook ++ Event.curr_to_wait 0 TN_WAIT_REASON_SEM 10
            :: Event.int_dis_save :: demo_created.trace))
    ∧ (tn_sem_acquire (demo_cfg_with demo_others_delete) demo_created (some 0) 10).1
        = TN_RC_DELETED
    ∧ (tn_sem_acquire (demo_cfg_with demo_others_signal) demo_created (some 0) 10).1
        = TN_RC_OK
    ∧ (tn_sem_acquire (demo_cfg_with demo_others_tick) demo_created (some 0) 10).1
        = TN_RC_TIMEOUT :=
  ⟨⟨by decide, by decide, by decide, by decide⟩, by
    obtain ⟨k1, hook, h1, _, _, _, h5, _, _, _, h9⟩ :=
      tn_sem_acquire_waits (demo_cfg_with demo_others_delete) demo_created 0 10
        (by decide) (by decide) (by decide) (by decide)
    exact ⟨k1, hook, h1, h5, h9⟩, by decide, by decide, by decide⟩

/-! ### The range invariant, stage by stage -/

theorem curr_to_wait_sems (cfg : Config) (k : Kernel) (q : Nat) (r : TN_WaitReason)
    (timeout : Nat) :
    (_tn_task_curr_to_wait_action cfg k q r timeout).sems
      = Function.update k.sems q
          { k.sems q with wait_queue := (k.sems q).wait_queue ++ [k.tn_curr_run_task] } := by
  simp [_tn_task_curr_to_wait_action, ready_remove]

theorem notify_deleted_fold_sems (cfg : Config) (q : List Nat) (k : Kernel) (s : Nat) :
    ((q.foldl (fun k1 t => _tn_task_wait_complete cfg k1 t TN_RC_DELETED) k).sems s)
      = { k.sems s with wait_queue := q.foldl List.erase (k.sems s).wait_queue } := by
  induction q generalizing k with
  | nil => simp
  | cons t q ih => simp [List.foldl_cons, ih, wait_complete_sems]

theorem switch_sems_pred (cfg : Config) (P : TN_Sem → Prop)
    (hothers : ∀ k s, P (k.sems s) → P ((cfg.arch_run_others k).sems s))
    (k : Kernel) (s : Nat) (h : P (k.sems s)) :
    P ((_tn_switch_context_if_needed cfg k).sems s) := by
  unfold _tn_switch_context_if_needed
  split
  · exact hothers _ _ h
  · exact h

theorem sem_signal_range (cfg : Config) (k : Kernel) (s s1 : Nat)
    (h : count_in_range (k.sems s1)) :
    count_in_range ((_sem_signal cfg k s).2.sems s1) := by
  unfold _sem_signal
  cases hq : (k.sems s).wait_queue with
  | nil =>
    by_cases hlt : (k.sems s).count < (k.sems s).max_count
    · by_cases hs : s1 = s
      · subst hs
        simp only [count_in_range] at h ⊢
        simp [tn_is_list_empty, hlt]
        omega
      · simpa [tn_is_list_empty, hlt, Function.update_noteq hs] using h
    · simpa [tn_is_list_empty, hlt] using h
  | cons t rest =>
    simpa [tn_is_list_empty, wait_complete_sems, count_in_range] using h

theorem sem_acquire_range (cfg : Config) (k : Kernel) (s s1 : Nat)
    (h : count_in_range (k.sems s1)) :
    count_in_range ((_sem_acquire cfg k s).2.sems s1) := by
  unfold _sem_acquire
  by_cases hc : (k.sems s).count ≥ 1
  · by_cases hs : s1 = s
    · subst hs
      simp only [count_in_range] at h ⊢
      simp [hc]
      omega
    · simpa [hc, Function.update_noteq hs] using h
  · simpa [hc] using h

theorem section_range (cfg : Config) (k : Kernel) (s s1 : Nat)
    (p_worker : Config → Kernel → Nat → TN_RCode × Kernel) (timeout : Nat)
    (hp : ∀ k0, count_in_range (k0.sems s1) → count_in_range ((p_worker cfg k0 s).2.sems s1))
    (h : count_in_range (k.sems s1)) :
    count_in_range ((_sem_job_section cfg k s p_worker timeout).2.2.sems s1) := by
  have h1 : count_in_range ((p_worker cfg (tn_arch_sr_save_int_dis k).2 s).2.sems s1) :=
    hp _ (by simpa [tn_arch_sr_save_int_dis] using h)
  have h2 : ∀ k0 : Kernel, count_in_range (k0.sems s1) →
      count_in_range ((_tn_task_curr_to_wait_action cfg k0 s TN_WAIT_REASON_SEM timeout).sems s1)
      := by
    intro k0 h0
    rw [curr_to_wait_sems]
    by_cases hs : s1 = s
    · subst hs; simpa [count_in_range] using h0
    · simpa [Function.update_noteq hs] using h0
  unfold _sem_job_section
  simp only [tn_arch_sr_restore, _TN_FATAL_ERROR]
  split <;> split <;> first | exact h2 _ h1 | exact h1

theorem job_perform_range (cfg : Config)
    (hothers : ∀ k s, count_in_range (k.sems s) → count_in_range ((cfg.arch_run_others k).sems s))
    (k : Kernel) (sem : Option Nat) (s1 : Nat)
    (p_worker : Config → Kernel → Nat → TN_RCode × Kernel) (timeout : Nat)
    (hp : ∀ s k0, count_in_range (k0.sems s1) → count_in_range ((p_worker cfg k0 s).2.sems s1))
    (h : count_in_range (k.sems s1)) :
    count_in_range ((_sem_job_perform cfg k sem p_worker timeout).2.sems s1) := by
  unfold _sem_job_perform
  split
  · exact h
  · split
    · exact h
    · cases sem with
      | none => exact h
      | some s =>
        exact switch_sems_pred cfg count_in_range hothers _ _
          (section_range cfg k s s1 p_worker timeout (hp s) h)

theorem job_iperform_range (cfg : Config) (k : Kernel) (sem : Option Nat) (s1 : Nat)
    (p_worker : Config → Kernel → Nat → TN_RCode × Kernel)
    (hp : ∀ s k0, count_in_range (k0.sems s1) → count_in_range ((p_worker cfg k0 s).2.sems s1))
    (h : count_in_range (k.sems s1)) :
    count_in_range ((_sem_job_iperform cfg k sem p_worker).2.sems s1) := by
  unfold _sem_job_iperform
  split
  · exact h
  · split
    · exact h
    · cases sem with
      | none => exact h
      | some s =>
        have := hp s (tn_arch_sr_save_int_idis k).2 (by simpa [tn_arch_sr_save_int_idis] using h)
        simpa [tn_arch_sr_irestore] using this

theorem delete_section_sems (cfg : Config) (k : Kernel) (s s1 : Nat) :
    (tn_sem_delete_section cfg k s).sems s1
      = { k.sems s1 with
          wait_queue := (k.sems s).wait_queue.foldl List.erase (k.sems s1).wait_queue
          id_sem := if s1 = s then 0 else (k.sems s1).id_sem } := by
  unfold tn_sem_delete_section _tn_wait_queue_notify_deleted
  by_cases hs : s1 = s
  · subst hs
    simp [tn_arch_sr_restore, notify_deleted_fold_sems, tn_arch_sr_save_int_dis]
  · simp [tn_arch_sr_restore, notify_deleted_fold_sems, tn_arch_sr_save_int_dis,
      Function.update_noteq hs, hs]

theorem create_ok_state (cfg : Config) (k : Kernel) (s : Nat) (a b : Int)
    (hok : (tn_sem_create cfg k (some s) a b).1 = TN_RC_OK) :
    0 < b ∧ 0 ≤ a ∧ a ≤ b
      ∧ (tn_sem_create cfg k (some s) a b).2.sems s
          = { wait_queue := [], count := a, max_count := b, id_sem := cfg.TN_ID_SEMAPHORE } := by
  unfold tn_sem_create _check_param_create at hok ⊢
  by_cases hcond : (k.sems s).id_sem = cfg.TN_ID_SEMAPHORE ∨ b ≤ 0 ∨ a < 0 ∨ a > b
  · simp [hcond] at hok
  · by_cases hctx : tn_is_task_context k = true
    · simp only [hcond, if_false, ne_eq, not_true_eq_false, hctx, Bool.not_true,
        Bool.false_eq_true, Function.update_same]
      simp only [not_or, not_le, not_lt, gt_iff_lt] at hcond
      exact ⟨hcond.2.1, hcond.2.2.1, hcond.2.2.2, trivial⟩
    · simp [hcond, hctx] at hok

/-- Claim C6. The predicate `0 <= count <= max_count` is established on the object by
every successful `tn_sem_create` and, for every semaphore object, preserved by
`tn_sem_create`, `tn_sem_signal`, `tn_sem_isignal`, `tn_sem_acquire`,
`tn_sem_acquire_polling`, `tn_sem_iacquire_polling` and `tn_sem_delete`, for every
pointer (null included), context, timeout and return code.  The returned state of a
task-context call includes what the rest of the system did during the deferred context
switch, which is assumed to preserve the predicate too. -/
theorem count_in_range_established_and_preserved (cfg : Config)
    (hothers : ∀ k s, count_in_range (k.sems s) →
      count_in_range ((cfg.arch_run_others k).sems s)) :
    (∀ k s start_count max_count,
        (tn_sem_create cfg k (some s) start_count max_count).1 = TN_RC_OK →
        count_in_range ((tn_sem_create cfg k (some s) start_count max_count).2.sems s))
    ∧ (∀ k sem s1 (timeout : Nat) (start_count max_count : Int),
        count_in_range (k.sems s1) →
        count_in_range ((tn_sem_create cfg k sem start_count max_count).2.sems s1)
        ∧ count_in_range ((tn_sem_signal cfg k sem).2.sems s1)
        ∧ count_in_range ((tn_sem_isignal cfg k sem).2.sems s1)
        ∧ count_in_range ((tn_sem_acquire cfg k sem timeout).2.sems s1)
        ∧ count_in_range ((tn_sem_acquire_polling cfg k sem).2.sems s1)
        ∧ count_in_range ((tn_sem_iacquire_polling cfg k sem).2.sems s1)
        ∧ count_in_range ((tn_sem_delete cfg k sem).2.sems s1)) := by
  have hcreate : ∀ k s (a b : Int),
      (tn_sem_create cfg k (some s) a b).1 = TN_RC_OK →
      count_in_range ((tn_sem_create cfg k (some s) a b).2.sems s) := by
    intro k s a b hok
    obtain ⟨hb, ha, hab, hs⟩ := create_ok_state cfg k s a b hok
    rw [hs]
    exact ⟨ha, hab⟩
  refine ⟨hcreate, ?_⟩
  intro k sem s1 timeout a b h
  refine ⟨?_, ?_, ?_, ?_, ?_, ?_, ?_⟩
  · cases sem with
    | none => simpa [tn_sem_create, _check_param_create] using h
    | some s =>
      by_cases hok : (tn_sem_create cfg k (some s) a b).1 = TN_RC_OK
      · by_cases hs : s1 = s
        · subst hs; exact hcreate k s1 a b hok
        · unfold tn_sem_create
          split
          · exact h
          · split
            · exact h
            · simpa [Function.update_noteq hs] using h
      · unfold tn_sem_create at hok ⊢
        split
        · exact h
        · split
          · exact h
          · rename_i h1 h2
            simp [h1, h2] at hok
  · exact job_perform_range cfg hothers k sem s1 _sem_signal 0
      (fun s k0 h0 => sem_signal_range cfg k0 s s1 h0) h
  · exact job_iperform_range cfg k sem s1 _sem_signal
      (fun s k0 h0 => sem_signal_range cfg k0 s s1 h0) h
  · exact job_perform_range cfg hothers k sem s1 _sem_acquire timeout
      (fun s k0 h0 => sem_acquire_range cfg k0 s s1 h0) h
  · exact job_perform_range cfg hothers k sem s1 _sem_acquire 0
      (fun s k0 h0 => sem_acquire_range cfg k0 s s1 h0) h
  · exact job_iperform_range cfg k sem s1 _sem_acquire
      (fun s k0 h0 => sem_acquire_range cfg k0 s s1 h0) h
  · unfold tn_sem_delete
    split
    · exact h
    · split
      · exact h
      · cases sem with
        | none => exact h
        | some s =>
          refine switch_sems_pred cfg count_in_range hothers _ _ ?_
          rw [delete_section_sems]
          simpa [count_in_range] using h

/-- Witness for C6 on the sample system, where nothing else runs during a switch:
creating semaphore 0 with count 1 of 1 and signalling it keeps `count` in range. -/
theorem count_in_range_established_and_preserved_witness :
    (∀ k s, count_in_range (k.sems s) →
      count_in_range ((demo_cfg.arch_run_others k).sems s))
    ∧ (tn_sem_create demo_cfg demo_kernel (some 0) 1 1).1 = TN_RC_OK
    ∧ count_in_range (demo_sem_1_1.sems 0)
    ∧ count_in_range ((tn_sem_signal demo_cfg demo_sem_1_1 (some 0)).2.sems 0) :=
  have hw : ∀ k s, count_in_range (k.sems s) →
      count_in_range ((demo_cfg.arch_run_others k).sems s) := fun _ _ h => h
  have hc := (count_in_range_established_and_preserved demo_cfg hw).1 demo_kernel 0 1 1
    (by decide)
  ⟨hw, by decide, hc,
    ((count_in_range_established_and_preserved demo_cfg hw).2 demo_sem_1_1 (some 0) 0 0 0 0
      hc).2.1⟩

/-! ### The full invariant, stage by stage -/

theorem foldl_erase_nil (q : List Nat) : q.foldl List.erase [] = [] := by
  induction q with
  | nil => rfl
  | cons t q ih => simpa using ih

theorem foldl_erase_self (q : List Nat) : q.foldl List.erase q = [] := by
  induction q with
  | nil => rfl
  | cons t q ih => simpa using ih

theorem erase_invariant (x : TN_Sem) (t : Nat) (h : sem_invariant x) :
    sem_invariant { x with wait_queue := x.wait_queue.erase t } := by
  refine ⟨h.1, fun hne => h.2 ?_⟩
  intro hnil
  apply hne
  simp [hnil]

theorem foldl_erase_invariant (x : TN_Sem) (q : List Nat) (h : sem_invariant x) :
    sem_invariant { x with wait_queue := q.foldl List.erase x.wait_queue } := by
  refine ⟨h.1, fun hne => h.2 ?_⟩
  intro hnil
  apply hne
  simp [hnil, foldl_erase_nil]

theorem sem_signal_invariant (cfg : Config) (k : Kernel) (s s1 : Nat)
    (h : sem_invariant (k.sems s1)) :
    sem_invariant ((_sem_signal cfg k s).2.sems s1)
      ∧ (_sem_signal cfg k s).1 ≠ TN_RC_TIMEOUT := by
  unfold _sem_signal
  cases hq : (k.sems s).wait_queue with
  | nil =>
    by_cases hlt : (k.sems s).count < (k.sems s).max_count
    · by_cases hs : s1 = s
      · subst hs
        obtain ⟨⟨h0, _⟩, _⟩ := h
        simp only [sem_invariant, count_in_range, queue_implies_zero]
        simp [tn_is_list_empty, hlt, hq]
        omega
      · simpa [tn_is_list_empty, hlt, Function.update_noteq hs] using h
    · simpa [tn_is_list_empty, hlt] using h
  | cons t rest =>
    simp only [tn_is_list_empty, List.isEmpty_cons, Bool.not_false, if_true, wait_complete_sems]
    exact ⟨erase_invariant _ _ h, by decide⟩

theorem sem_acquire_invariant (cfg : Config) (k : Kernel) (s s1 : Nat)
    (h : sem_invariant (k.sems s1)) :
    sem_invariant ((_sem_acquire cfg k s).2.sems s1)
      ∧ ((_sem_acquire cfg k s).1 = TN_RC_TIMEOUT → s1 = s →
          ((_sem_acquire cfg k s).2.sems s1).count = 0) := by
  unfold _sem_acquire
  by_cases hc : (k.sems s).count ≥ 1
  · by_cases hs : s1 = s
    · subst hs
      obtain ⟨⟨_, h1⟩, h2⟩ := h
      have hq : (k.sems s1).wait_queue = [] := by
        by_contra hne
        have := h2 hne
        omega
      simp only [sem_invariant, count_in_range, queue_implies_zero]
      simp [hc, hq]
      omega
    · simpa [hc, Function.update_noteq hs] using h
  · refine ⟨by simpa [hc] using h, ?_⟩
    intro _ hs
    subst hs
    have := h.1.1
    simp only [hc, if_false]
    omega

theorem section_invariant (cfg : Config) (k : Kernel) (s s1 : Nat)
    (p_worker : Config → Kernel → Nat → TN_RCode × Kernel) (timeout : Nat)
    (hp : ∀ k0, sem_invariant (k0.sems s1) →
      sem_invariant ((p_worker cfg k0 s).2.sems s1)
        ∧ ((p_worker cfg k0 s).1 = TN_RC_TIMEOUT → s1 = s →
            ((p_worker cfg k0 s).2.sems s1).count = 0))
    (h : sem_invariant (k.sems s1)) :
    sem_invariant ((_sem_job_section cfg k s p_worker timeout).2.2.sems s1) := by
  obtain ⟨h1, hz⟩ := hp (tn_arch_sr_save_int_dis k).2 (by simpa [tn_arch_sr_save_int_dis] using h)
  have h2 : (p_worker cfg (tn_arch_sr_save_int_dis k).2 s).1 = TN_RC_TIMEOUT →
      sem_invariant ((_tn_task_curr_to_wait_action cfg (p_worker cfg (tn_arch_sr_save_int_dis k).2 s).2
        s TN_WAIT_REASON_SEM timeout).sems s1) := by
    intro hto
    rw [curr_to_wait_sems]
    by_cases hs : s1 = s
    · have hzero := hz hto hs
      subst hs
      simp only [Function.update_same]
      exact ⟨h1.1, fun _ => hzero⟩
    · simpa [Function.update_noteq hs] using h1
  cases hwait : ((p_worker cfg (tn_arch_sr_save_int_dis k).2 s).1 == TN_RC_TIMEOUT
      && timeout != 0) with
  | true =>
    have hto : (p_worker cfg (tn_arch_sr_save_int_dis k).2 s).1 = TN_RC_TIMEOUT := by
      simp only [Bool.and_eq_true, beq_iff_eq] at hwait
      exact hwait.1
    unfold _sem_job_section
    simp only [hwait, tn_arch_sr_restore, _TN_FATAL_ERROR, if_true]
    split <;> exact h2 hto
  | false =>
    unfold _sem_job_section
    simp only [hwait, tn_arch_sr_restore, Bool.and_false, Bool.false_eq_true, if_false]
    exact h1

theorem job_perform_invariant (cfg : Config)
    (hothers : ∀ k s, sem_invariant (k.sems s) → sem_invariant ((cfg.arch_run_others k).sems s))
    (k : Kernel) (sem : Option Nat) (s1 : Nat)
    (p_worker : Config → Kernel → Nat → TN_RCode × Kernel) (timeout : Nat)
    (hp : ∀ s k0, sem_invariant (k0.sems s1) →
      sem_invariant ((p_worker cfg k0 s).2.sems s1)
        ∧ ((p_worker cfg k0 s).1 = TN_RC_TIMEOUT → s1 = s →
            ((p_worker cfg k0 s).2.sems s1).count = 0))
    (h : sem_invariant (k.sems s1)) :
    sem_invariant ((_sem_job_perform cfg k sem p_worker timeout).2.sems s1) := by
  unfold _sem_job_perform
  split
  · exact h
  · split
    · exact h
    · cases sem with
      | none => exact h
      | some s =>
        exact switch_sems_pred cfg sem_invariant hothers _ _
          (section_invariant cfg k s s1 p_worker timeout (hp s) h)

theorem job_iperform_invariant (cfg : Config) (k : Kernel) (sem : Option Nat) (s1 : Nat)
    (p_worker : Config → Kernel → Nat → TN_RCode × Kernel)
    (hp : ∀ s k0, sem_invariant (k0.sems s1) → sem_invariant ((p_worker cfg k0 s).2.sems s1))
    (h : sem_invariant (k.sems s1)) :
    sem_invariant ((_sem_job_iperform cfg k sem p_worker).2.sems s1) := by
  unfold _sem_job_iperform
  split
  · exact h
  · split
    · exact h
    · cases sem with
      | none => exact h
      | some s =>
        have := hp s (tn_arch_sr_save_int_idis k).2 (by simpa [tn_arch_sr_save_int_idis] using h)
        simpa [tn_arch_sr_irestore] using this

/-- Claim C7. The predicate "wait queue non-empty implies `count == 0`" holds on the
object after every successful `tn_sem_create` and is kept by every semaphore operation
on every semaphore object, for every pointer, context and timeout.  It is carried
together with the range predicate `0 <= count <= max_count`, which every reachable
semaphore satisfies (acquire enqueues the caller when `count < 1`, which is
`count == 0` only for a non-negative count): `sem_invariant` is the conjunction of
both.  On a semaphore in range the predicate is the same as "`count > 0` implies the
wait queue is empty".  The rest of the system, running during a deferred context
switch, is assumed to keep the invariant too. -/
theorem queue_implies_zero_established_and_preserved (cfg : Config)
    (hothers : ∀ k s, sem_invariant (k.sems s) →
      sem_invariant ((cfg.arch_run_others k).sems s)) :
    (∀ k s start_count max_count,
        (tn_sem_create cfg k (some s) start_count max_count).1 = TN_RC_OK →
        queue_implies_zero ((tn_sem_create cfg k (some s) start_count max_count).2.sems s)
        ∧ sem_invariant ((tn_sem_create cfg k (some s) start_count max_count).2.sems s))
    ∧ (∀ k sem s1 (timeout : Nat) (start_count max_count : Int),
        sem_invariant (k.sems s1) →
        sem_invariant ((tn_sem_create cfg k sem start_count max_count).2.sems s1)
        ∧ sem_invariant ((tn_sem_signal cfg k sem).2.sems s1)
        ∧ sem_invariant ((tn_sem_isignal cfg k sem).2.sems s1)
        ∧ sem_invariant ((tn_sem_acquire cfg k sem timeout).2.sems s1)
        ∧ sem_invariant ((tn_sem_acquire_polling cfg k sem).2.sems s1)
        ∧ sem_invariant ((tn_sem_iacquire_polling cfg k sem).2.sems s1)
        ∧ sem_invariant ((tn_sem_delete cfg k sem).2.sems s1))
    ∧ (∀ x, count_in_range x →
        (queue_implies_zero x ↔ (0 < x.count → x.wait_queue = []))) := by
  have hcreate : ∀ k s (a b : Int),
      (tn_sem_create cfg k (some s) a b).1 = TN_RC_OK →
      sem_invariant ((tn_sem_create cfg k (some s) a b).2.sems s) := by
    intro k s a b hok
    obtain ⟨hb, ha, hab, hs⟩ := create_ok_state cfg k s a b hok
    rw [hs]
    exact ⟨⟨ha, hab⟩, fun hne => absurd rfl hne⟩
  refine ⟨fun k s a b hok => ⟨(hcreate k s a b hok).2, hcreate k s a b hok⟩, ?_, ?_⟩
  · intro k sem s1 timeout a b h
    refine ⟨?_, ?_, ?_, ?_, ?_, ?_, ?_⟩
    · cases sem with
      | none => simpa [tn_sem_create, _check_param_create] using h
      | some s =>
        by_cases hok : (tn_sem_create cfg k (some s) a b).1 = TN_RC_OK
        · by_cases hs : s1 = s
          · subst hs; exact hcreate k s1 a b hok
          · unfold tn_sem_create
            split
            · exact h
            · split
              · exact h
              · simpa [Function.update_noteq hs] using h
        · unfold tn_sem_create at hok ⊢
          split
          · exact h
          · split
            · exact h
            · rename_i h1 h2
              simp [h1, h2] at hok
    · exact job_perform_invariant cfg hothers k sem s1 _sem_signal 0
        (fun s k0 h0 => ⟨(sem_signal_invariant cfg k0 s s1 h0).1,
          fun hto => absurd hto (sem_signal_invariant cfg k0 s s1 h0).2⟩) h
    · exact job_iperform_invariant cfg k sem s1 _sem_signal
        (fun s k0 h0 => (sem_signal_invariant cfg k0 s s1 h0).1) h
    · exact job_perform_invariant cfg hothers k sem s1 _sem_acquire timeout
        (fun s k0 h0 => sem_acquire_invariant cfg k0 s s1 h0) h
    · exact job_perform_invariant cfg hothers k sem s1 _sem_acquire 0
        (fun s k0 h0 => sem_acquire_invariant cfg k0 s s1 h0) h
    · exact job_iperform_invariant cfg k sem s1 _sem_acquire
        (fun s k0 h0 => (sem_acquire_invariant cfg k0 s s1 h0).1) h
    · unfold tn_sem_delete
      split
      · exact h
      · split
        · exact h
        · cases sem with
          | none => exact h
          | some s =>
            refine switch_sems_pred cfg sem_invariant hothers _ _ ?_
            rw [delete_section_sems]
            exact foldl_erase_invariant { k.sems s1 with
              id_sem := if s1 = s then 0 else (k.sems s1).id_sem } _ h
  · intro x hx
    unfold queue_implies_zero
    constructor
    · intro h hpos
      by_contra hne
      have := h hne
      omega
    · intro h hne
      have h0 := hx.1
      by_contra hc
      exact hne (h (by omega))

/-- Witness for C7 on the sample system: the invariant holds once semaphore 0 is created
with count 0, and still holds after task 1 has been put to wait on it. -/
theorem queue_implies_zero_established_and_preserved_witness :
    (∀ k s, sem_invariant (k.sems s) → sem_invariant ((demo_cfg.arch_run_others k).sems s))
    ∧ (tn_sem_create demo_cfg demo_kernel (some 0) 0 3).1 = TN_RC_OK
    ∧ queue_implies_zero (demo_created.sems 0)
    ∧ sem_invariant ((tn_sem_acquire demo_cfg demo_created (some 0) 0xFFFFFFFF).2.sems 0) :=
  have hw : ∀ k s, sem_invariant (k.sems s) →
      sem_invariant ((demo_cfg.arch_run_others k).sems s) := fun _ _ h => h
  have hc := (queue_implies_zero_established_and_preserved demo_cfg hw).1 demo_kernel 0 0 3
    (by decide)
  ⟨hw, by decide, hc.1,
    ((queue_implies_zero_established_and_preserved demo_cfg hw).2.1 demo_created (some 0) 0
      0xFFFFFFFF 0 0 hc.2).2.2.2.1⟩

/-! ### FIFO wakeups -/

theorem signal_task_step (cfg : Config) (k : Kernel) (s t : Nat) (rest : List Nat)
    (hid : (k.sems s).id_sem = cfg.TN_ID_SEMAPHORE)
    (hq : (k.sems s).wait_queue = t :: rest)
    (hctx : k.context = TN_CONTEXT_TASK) :
    tn_sem_signal cfg k (some s)
      = (TN_RC_OK, _tn_switch_context_if_needed cfg
          (tn_arch_sr_restore
            (_tn_task_wait_complete cfg (tn_arch_sr_save_int_dis k).2 t TN_RC_OK) k.int_enabled))
      := by
  simp [tn_sem_signal, _sem_job_perform, _check_param_generic, hid, tn_is_task_context, hctx,
    _sem_job_section, _sem_signal, tn_arch_sr_save_int_dis, hq, tn_is_list_empty]

theorem signal_isr_step (cfg : Config) (k : Kernel) (s t : Nat) (rest : List Nat)
    (hid : (k.sems s).id_sem = cfg.TN_ID_SEMAPHORE)
    (hq : (k.sems s).wait_queue = t :: rest)
    (hctx : k.context = TN_CONTEXT_ISR) :
    tn_sem_isignal cfg k (some s)
      = (TN_RC_OK, tn_arch_sr_irestore
            (_tn_task_wait_complete cfg (tn_arch_sr_save_int_idis k).2 t TN_RC_OK) k.int_enabled)
      := by
  simp [tn_sem_isignal, _sem_job_iperform, _check_param_generic, hid, tn_is_isr_context, hctx,
    _sem_signal, tn_arch_sr_save_int_idis, hq, tn_is_list_empty]

theorem wakeups_cons_wait_complete (t : Nat) (rc : TN_RCode) (tr : List Event) :
    wakeups (Event.wait_complete t rc :: tr) = wakeups tr ++ [(t, rc)] := by
  simp [wakeups]

theorem signal_times_fifo (cfg : Config) (s : Nat)
    (hothers : ∀ k0, (cfg.arch_run_others k0).sems s = k0.sems s
      ∧ (cfg.arch_run_others k0).context = k0.context
      ∧ wakeups (cfg.arch_run_others k0).trace = wakeups k0.trace)
    (n : Nat) :
    ∀ (k : Kernel) (q : List Nat),
      (k.sems s).id_sem = cfg.TN_ID_SEMAPHORE →
      (k.sems s).wait_queue = q →
      k.context = TN_CONTEXT_TASK →
      n ≤ q.length →
      (signal_times cfg n k (some s)).1 = List.replicate n TN_RC_OK
      ∧ wakeups (signal_times cfg n k (some s)).2.trace
          = wakeups k.trace ++ (q.take n).map (fun t => (t, TN_RC_OK))
      ∧ (signal_times cfg n k (some s)).2.sems s
          = { k.sems s with wait_queue := q.drop n }
      ∧ (signal_times cfg n k (some s)).2.context = TN_CONTEXT_TASK := by
  induction n with
  | zero =>
    intro k q _ hq hctx _
    simp [signal_times, hctx, ← hq]
  | succ n ih =>
    intro k q hid hq hctx hn
    cases q with
    | nil => simp at hn
    | cons t rest =>
      have hstep := signal_task_step cfg k s t rest hid hq hctx
      have hsw : ∀ k1 : Kernel,
          (_tn_switch_context_if_needed cfg k1).sems s = k1.sems s
          ∧ (_tn_switch_context_if_needed cfg k1).context = k1.context
          ∧ wakeups (_tn_switch_context_if_needed cfg k1).trace = wakeups k1.trace := by
        intro k1
        unfold _tn_switch_context_if_needed _tn_arch_context_switch
        split
        · obtain ⟨h1, h2, h3⟩ := hothers
            { k1 with tn_curr_run_task := k1.tn_next_task_to_run,
                      trace := Event.context_switch :: k1.trace }
          refine ⟨h1, h2, ?_⟩
          rw [h3]
          simp [wakeups]
        · exact ⟨rfl, rfl, rfl⟩
      obtain ⟨hs1, hs2, hs3⟩ := hsw (tn_arch_sr_restore
            (_tn_task_wait_complete cfg (tn_arch_sr_save_int_dis k).2 t TN_RC_OK) k.int_enabled)
      have hsem : (tn_sem_signal cfg k (some s)).2.sems s
          = { k.sems s with wait_queue := rest } := by
        rw [hstep]
        simp only [hs1]
        simp [tn_arch_sr_restore, wait_complete_sems, tn_arch_sr_save_int_dis, hq]
      have hctx1 : (tn_sem_signal cfg k (some s)).2.context = TN_CONTEXT_TASK := by
        rw [hstep]
        simp only [hs2]
        simp [tn_arch_sr_restore, wait_complete_context, tn_arch_sr_save_int_dis, hctx]
      have htr : wakeups (tn_sem_signal cfg k (some s)).2.trace
          = wakeups k.trace ++ [(t, TN_RC_OK)] := by
        rw [hstep]
        simp only [hs3]
        simp [tn_arch_sr_restore, wait_complete_trace, tn_arch_sr_save_int_dis, wakeups]
      obtain ⟨i1, i2, i3, i4⟩ := ih (tn_sem_signal cfg k (some s)).2 rest
        (by rw [hsem]; exact hid) (by rw [hsem]) hctx1 (by simpa using hn)
      refine ⟨?_, ?_, ?_, ?_⟩
      · simp only [signal_times, i1, List.replicate_succ]
        rw [hstep]
      · simp only [signal_times, i2, htr]
        simp
      · simp only [signal_times, i3, hsem]
        simp
      · simpa only [signal_times] using i4

theorem isignal_times_fifo (cfg : Config) (s : Nat) (n : Nat) :
    ∀ (k : Kernel) (q : List Nat),
      (k.sems s).id_sem = cfg.TN_ID_SEMAPHORE →
      (k.sems s).wait_queue = q →
      k.context = TN_CONTEXT_ISR →
      n ≤ q.length →
      (isignal_times cfg n k (some s)).1 = List.replicate n TN_RC_OK
      ∧ wakeups (isignal_times cfg n k (some s)).2.trace
          = wakeups k.trace ++ (q.take n).map (fun t => (t, TN_RC_OK))
      ∧ (isignal_times cfg n k (some s)).2.sems s
          = { k.sems s with wait_queue := q.drop n }
      ∧ (isignal_times cfg n k (some s)).2.context = TN_CONTEXT_ISR
      ∧ (∀ t, t ∈ q.take n →
          ((isignal_times cfg n k (some s)).2.tasks t).task_wait_rc = TN_RC_OK
          ∧ ((isignal_times cfg n k (some s)).2.tasks t).task_state.waiting = false)
      ∧ (∀ t, t ∉ q.take n → (isignal_times cfg n k (some s)).2.tasks t = k.tasks t) := by
  induction n with
  | zero =>
    intro k q _ hq hctx _
    simp [isignal_times, hctx, ← hq]
  | succ n ih =>
    intro k q hid hq hctx hn
    cases q with
    | nil => simp at hn
    | cons t0 rest =>
      have hstep := signal_isr_step cfg k s t0 rest hid hq hctx
      have hsem : (tn_sem_isignal cfg k (some s)).2.sems s
          = { k.sems s with wait_queue := rest } := by
        rw [hstep]
        simp [tn_arch_sr_irestore, wait_complete_sems, tn_arch_sr_save_int_idis, hq]
      have hctx1 : (tn_sem_isignal cfg k (some s)).2.context = TN_CONTEXT_ISR := by
        rw [hstep]
        simp [tn_arch_sr_irestore, wait_complete_context, tn_arch_sr_save_int_idis, hctx]
      have htr : wakeups (tn_sem_isignal cfg k (some s)).2.trace
          = wakeups k.trace ++ [(t0, TN_RC_OK)] := by
        rw [hstep]
        simp [tn_arch_sr_irestore, wait_complete_trace, tn_arch_sr_save_int_idis, wakeups]
      have ht0 : ((tn_sem_isignal cfg k (some s)).2.tasks t0).task_wait_rc = TN_RC_OK
          ∧ ((tn_sem_isignal cfg k (some s)).2.tasks t0).task_state.waiting = false := by
        rw [hstep]
        simp [tn_arch_sr_irestore, wait_complete_task_rc, wait_complete_task_waiting]
      have hoth : ∀ u, u ≠ t0 → (tn_sem_isignal cfg k (some s)).2.tasks u = k.tasks u := by
        intro u hu
        rw [hstep]
        simp only [tn_arch_sr_irestore]
        rw [wait_complete_task_other _ _ _ _ _ hu]
        simp [tn_arch_sr_save_int_idis]
      obtain ⟨i1, i2, i3, i4, i5, i6⟩ := ih (tn_sem_isignal cfg k (some s)).2 rest
        (by rw [hsem]; exact hid) (by rw [hsem]) hctx1 (by simpa using hn)
      refine ⟨?_, ?_, ?_, ?_, ?_, ?_⟩
      · simp only [isignal_times, i1, List.replicate_succ]
        rw [hstep]
      · simp only [isignal_times, i2, htr]
        simp
      · simp only [isignal_times, i3, hsem]
        simp
      · simpa only [isignal_times] using i4
      · intro t ht
        simp only [isignal_times]
        by_cases hin : t ∈ rest.take n
        · exact i5 t hin
        · have : t = t0 := by
            simp only [List.take_succ_cons, List.mem_cons] at ht
            rcases ht with h | h
            · exact h
            · exact absurd h hin
          subst this
          rw [i6 t hin]
          exact ht0
      · intro t ht
        simp only [List.take_succ_cons, List.mem_cons, not_or] at ht
        simp only [isignal_times]
        rw [i6 t ht.2, hoth t ht.1]

/-- Claim C8. Wakeups are FIFO and do not look at priorities.  On an initialised
semaphore with count 0 whose wait queue is `q`, `n <= length q` consecutive
`tn_sem_signal` calls in task context (resp. `tn_sem_isignal` calls in ISR context) all
return OK, complete the waits of the first `n` tasks of `q`, in queue order and each
with code OK (and complete no other wait), leave the remaining tasks queued in their
original order, and leave `count` at 0.  For task-context calls the rest of the
system, which may run at each deferred context switch, is assumed to leave this
semaphore alone, to return in the caller's context and to complete no wait itself.
For ISR calls the woken tasks end with `wait_rc = OK` and Waiting cleared, and every
other task is untouched. -/
theorem signal_wakeups_are_fifo (cfg : Config) (k : Kernel) (s : Nat) (q : List Nat) (n : Nat)
    (hid : (k.sems s).id_sem = cfg.TN_ID_SEMAPHORE)
    (hq : (k.sems s).wait_queue = q)
    (hcount : (k.sems s).count = 0)
    (hn : n ≤ q.length) :
    ((∀ k0, (cfg.arch_run_others k0).sems s = k0.sems s
          ∧ (cfg.arch_run_others k0).context = k0.context
          ∧ wakeups (cfg.arch_run_others k0).trace = wakeups k0.trace) →
      k.context = TN_CONTEXT_TASK →
      (signal_times cfg n k (some s)).1 = List.replicate n TN_RC_OK
      ∧ wakeups (signal_times cfg n k (some s)).2.trace
          = wakeups k.trace ++ (q.take n).map (fun t => (t, TN_RC_OK))
      ∧ ((signal_times cfg n k (some s)).2.sems s).wait_queue = q.drop n
      ∧ ((signal_times cfg n k (some s)).2.sems s).count = 0)
    ∧ (k.context = TN_CONTEXT_ISR →
      (isignal_times cfg n k (some s)).1 = List.replicate n TN_RC_OK
      ∧ wakeups (isignal_times cfg n k (some s)).2.trace
          = wakeups k.trace ++ (q.take n).map (fun t => (t, TN_RC_OK))
      ∧ ((isignal_times cfg n k (some s)).2.sems s).wait_queue = q.drop n
      ∧ ((isignal_times cfg n k (some s)).2.sems s).count = 0
      ∧ (∀ t, t ∈ q.take n →
          ((isignal_times cfg n k (some s)).2.tasks t).task_wait_rc = TN_RC_OK
          ∧ ((isignal_times cfg n k (some s)).2.tasks t).task_state.waiting = false)
      ∧ (∀ t, t ∉ q.take n → (isignal_times cfg n k (some s)).2.tasks t = k.tasks t)) := by
  constructor
  · intro hothers hctx
    obtain ⟨h1, h2, h3, _⟩ := signal_times_fifo cfg s hothers n k q hid hq hctx hn
    refine ⟨h1, h2, ?_, ?_⟩
    · rw [h3]
    · rw [h3]; exact hcount
  · intro hctx
    obtain ⟨h1, h2, h3, _, h5, h6⟩ := isignal_times_fifo cfg s n k q hid hq hctx hn
    refine ⟨h1, h2, ?_, ?_, h5, h6⟩
    · rw [h3]
    · rw [h3]; exact hcount

/-- Witness for C8, the FIFO scenario: tasks 1, 2, 3 (all at priority 4) wait on
semaphore 0 in that order; two signals from task 5 wake task 1 then task 2 with OK, task
3 stays queued and `count` stays 0. -/
theorem signal_wakeups_are_fifo_witness :
    ((demo_waiting.sems 0).id_sem = demo_cfg.TN_ID_SEMAPHORE
      ∧ (demo_waiting.sems 0).wait_queue = [1, 2, 3]
      ∧ (demo_waiting.sems 0).count = 0
      ∧ 2 ≤ [1, 2, 3].length
      ∧ demo_waiting.context = TN_CONTEXT_TASK
      ∧ (demo_waiting.tasks 1).priority = 4
      ∧ (demo_waiting.tasks 2).priority = 4
      ∧ (demo_waiting.tasks 3).priority = 4)
    ∧ (signal_times demo_cfg 2 demo_waiting (some 0)).1 = [TN_RC_OK, TN_RC_OK]
    ∧ wakeups (signal_times demo_cfg 2 demo_waiting (some 0)).2.trace
        = wakeups demo_waiting.trace ++ [(1, TN_RC_OK), (2, TN_RC_OK)]
    ∧ ((signal_times demo_cfg 2 demo_waiting (some 0)).2.sems 0).wait_queue = [3]
    ∧ ((signal_times demo_cfg 2 demo_waiting (some 0)).2.sems 0).count = 0 :=
  ⟨⟨by decide, by decide, by decide, by decide, by decide, by decide, by decide, by decide⟩,
    (signal_wakeups_are_fifo demo_cfg demo_waiting 0 [1, 2, 3] 2
      (by decide) (by decide) (by decide) (by decide)).1
      (fun _ => ⟨rfl, rfl, rfl⟩) (by decide)⟩

/-! ### Deletion -/

theorem notify_fold_trace (cfg : Config) (q : List Nat) (k : Kernel) :
    (q.foldl (fun k1 t => _tn_task_wait_complete cfg k1 t TN_RC_DELETED) k).trace
      = (q.map (fun w => Event.wait_complete w TN_RC_DELETED)).reverse ++ k.trace := by
  induction q generalizing k with
  | nil => simp
  | cons t q ih => simp [List.foldl_cons, ih, wait_complete_trace]

theorem notify_fold_int_enabled (cfg : Config) (q : List Nat) (k : Kernel) :
    (q.foldl (fun k1 t => _tn_task_wait_complete cfg k1 t TN_RC_DELETED) k).int_enabled
      = k.int_enabled := by
  induction q generalizing k with
  | nil => simp
  | cons t q ih => simp [List.foldl_cons, ih, wait_complete_int_enabled]

theorem notify_fold_task_other (cfg : Config) (q : List Nat) (k : Kernel) (u : Nat)
    (hu : u ∉ q) :
    (q.foldl (fun k1 t => _tn_task_wait_complete cfg k1 t TN_RC_DELETED) k).tasks u
      = k.tasks u := by
  induction q generalizing k with
  | nil => simp
  | cons t q ih =>
    simp only [List.mem_cons, not_or] at hu
    simp only [List.foldl_cons]
    rw [ih _ hu.2, wait_complete_task_other _ _ _ _ _ hu.1]

theorem notify_fold_task_waiter (cfg : Config) (q : List Nat) (k : Kernel) (w : Nat)
    (hw : w ∈ q) :
    ((q.foldl (fun k1 t => _tn_task_wait_complete cfg k1 t TN_RC_DELETED) k).tasks w).task_wait_rc
        = TN_RC_DELETED
      ∧ ((q.foldl (fun k1 t => _tn_task_wait_complete cfg k1 t TN_RC_DELETED) k).tasks
          w).task_state.waiting = false := by
  induction q generalizing k with
  | nil => simp at hw
  | cons t q ih =>
    simp only [List.foldl_cons]
    by_cases hin : w ∈ q
    · exact ih _ hin
    · have hwt : w = t := by
        simp only [List.mem_cons] at hw
        rcases hw with h | h
        · exact h
        · exact absurd h hin
      subst hwt
      rw [notify_fold_task_other _ _ _ _ hin]
      exact ⟨wait_complete_task_rc _ _ _ _, wait_complete_task_waiting _ _ _ _⟩

/-- Claim C9. On an initialised semaphore, `tn_sem_delete` in task context returns OK.
In the state `k1` at the end of its interrupts-disabled region the wait queue is empty,
the identity tag is 0, every former waiter has `wait_rc = DELETED` with Waiting cleared,
and every other task is untouched.  The log shows, between the save-disable and the
restore, one `wait_complete(w, DELETED)` per waiter in queue order followed by the write
of the tag with interrupts disabled, and no context switch.  The deferred context
switch starts from `k1`: when one is needed, the rest of the system (the resumed
waiters included) runs on a state whose tag is already cleared. -/
theorem tn_sem_delete_notifies_waiters (cfg : Config) (k : Kernel) (s : Nat)
    (hid : (k.sems s).id_sem = cfg.TN_ID_SEMAPHORE)
    (hctx : k.context = TN_CONTEXT_TASK) :
    ∃ k1, tn_sem_delete cfg k (some s) = (TN_RC_OK, _tn_switch_context_if_needed cfg k1)
      ∧ (k1.sems s).wait_queue = []
      ∧ (k1.sems s).id_sem = 0
      ∧ (∀ w, w ∈ (k.sems s).wait_queue →
          (k1.tasks w).task_wait_rc = TN_RC_DELETED
          ∧ (k1.tasks w).task_state.waiting = false)
      ∧ (∀ u, u ∉ (k.sems s).wait_queue → k1.tasks u = k.tasks u)
      ∧ k1.trace = Event.int_restore k.int_enabled :: Event.id_write s 0 false
          :: (((k.sems s).wait_queue.map (fun w => Event.wait_complete w TN_RC_DELETED)).reverse
            ++ Event.int_dis_save :: k.trace)
      ∧ k1.int_enabled = k.int_enabled
      ∧ (_tn_need_context_switch k1 = true →
          (tn_sem_delete cfg k (some s)).2
            = cfg.arch_run_others
                { k1 with
                  tn_curr_run_task := k1.tn_next_task_to_run
                  trace := Event.context_switch :: k1.trace }) := by
  refine ⟨tn_sem_delete_section cfg k s, ?_, ?_, ?_, ?_, ?_, ?_, ?_, ?_⟩
  · simp [tn_sem_delete, _check_param_generic, hid, tn_is_task_context, hctx]
  · rw [delete_section_sems]
    simp [foldl_erase_self]
  · rw [delete_section_sems]
    simp
  · intro w hw
    have := notify_fold_task_waiter cfg (k.sems s).wait_queue (tn_arch_sr_save_int_dis k).2 w hw
    simpa [tn_sem_delete_section, _tn_wait_queue_notify_deleted, tn_arch_sr_restore,
      tn_arch_sr_save_int_dis] using this
  · intro u hu
    have := notify_fold_task_other cfg (k.sems s).wait_queue (tn_arch_sr_save_int_dis k).2 u hu
    simpa [tn_sem_delete_section, _tn_wait_queue_notify_deleted, tn_arch_sr_restore,
      tn_arch_sr_save_int_dis] using this
  · simp [tn_sem_delete_section, _tn_wait_queue_notify_deleted, tn_arch_sr_restore,
      tn_arch_sr_save_int_dis, notify_fold_trace, notify_fold_int_enabled]
  · simp [tn_sem_delete_section, tn_arch_sr_restore, tn_arch_sr_save_int_dis]
  · intro hneed
    simp [tn_sem_delete, _check_param_generic, hid, tn_is_task_context, hctx,
      _tn_switch_context_if_needed, hneed, _tn_arch_context_switch]

/-- Witness for C9 on the sample state: task 5 deletes semaphore 0 while tasks 1, 2, 3
wait on it. -/
theorem tn_sem_delete_notifies_waiters_witness :
    ((demo_waiting.sems 0).id_sem = demo_cfg.TN_ID_SEMAPHORE
      ∧ demo_waiting.context = TN_CONTEXT_TASK
      ∧ (demo_waiting.sems 0).wait_queue = [1, 2, 3])
    ∧ (tn_sem_delete demo_cfg demo_waiting (some 0)).1 = TN_RC_OK
    ∧ ((tn_sem_delete demo_cfg demo_waiting (some 0)).2.tasks 3).task_wait_rc = TN_RC_DELETED
    ∧ ((tn_sem_delete demo_cfg demo_waiting (some 0)).2.sems 0).id_sem = 0 :=
  ⟨⟨by decide, by decide, by decide⟩, by
    obtain ⟨k1, h, _⟩ :=
      tn_sem_delete_notifies_waiters demo_cfg demo_waiting 0 (by decide) (by decide)
    rw [h], by decide, by decide⟩

/-! ### Objects without the semaphore tag -/

theorem invalid_object_calls (cfg : Config) (k : Kernel) (s : Nat) (timeout : Nat)
    (h : (k.sems s).id_sem ≠ cfg.TN_ID_SEMAPHORE) :
    tn_sem_signal cfg k (some s) = (TN_RC_INVALID_OBJ, k)
      ∧ tn_sem_isignal cfg k (some s) = (TN_RC_INVALID_OBJ, k)
      ∧ tn_sem_acquire cfg k (some s) timeout = (TN_RC_INVALID_OBJ, k)
      ∧ tn_sem_acquire_polling cfg k (some s) = (TN_RC_INVALID_OBJ, k)
      ∧ tn_sem_iacquire_polling cfg k (some s) = (TN_RC_INVALID_OBJ, k)
      ∧ tn_sem_delete cfg k (some s) = (TN_RC_INVALID_OBJ, k) := by
  simp [tn_sem_signal, tn_sem_isignal, tn_sem_acquire, tn_sem_acquire_polling,
    tn_sem_iacquire_polling, tn_sem_delete, _sem_job_perform, _sem_job_iperform,
    _check_param_generic, h]

theorem delete_ok_clears_tag (cfg : Config) (k : Kernel) (s : Nat)
    (hothers : ∀ k0, ((cfg.arch_run_others k0).sems s).id_sem = (k0.sems s).id_sem)
    (hok : (tn_sem_delete cfg k (some s)).1 = TN_RC_OK) :
    ((tn_sem_delete cfg k (some s)).2.sems s).id_sem = 0 := by
  unfold tn_sem_delete at hok ⊢
  split
  · rename_i h1
    rw [if_pos h1] at hok
    exact absurd hok h1
  · split
    · rename_i h1 h2
      rw [if_neg h1, if_pos h2] at hok
      exact TN_RCode.noConfusion hok
    · simp only
      unfold _tn_switch_context_if_needed _tn_arch_context_switch
      split
      · rw [hothers]
        simp [delete_section_sems]
      · simp [delete_section_sems]

/-- Claim C10. For every non-null semaphore object whose identity tag is not the
semaphore sentinel, each of `tn_sem_signal`, `tn_sem_isignal`, `tn_sem_acquire` (any
timeout), `tn_sem_acquire_polling`, `tn_sem_iacquire_polling` and `tn_sem_delete`
returns INVALID_OBJ and returns the state it was given, in every calling context (no
assumption is made on the context).  In particular, with a sentinel different from the
cleared value 0 and a rest of the system that does not write the tag during the
deferred switch, every such call made in the state a successful `tn_sem_delete`
returns gives INVALID_OBJ. -/
theorem invalid_object_is_rejected (cfg : Config) (k : Kernel) (s : Nat) (timeout : Nat) :
    ((k.sems s).id_sem ≠ cfg.TN_ID_SEMAPHORE →
      tn_sem_signal cfg k (some s) = (TN_RC_INVALID_OBJ, k)
      ∧ tn_sem_isignal cfg k (some s) = (TN_RC_INVALID_OBJ, k)
      ∧ tn_sem_acquire cfg k (some s) timeout = (TN_RC_INVALID_OBJ, k)
      ∧ tn_sem_acquire_polling cfg k (some s) = (TN_RC_INVALID_OBJ, k)
      ∧ tn_sem_iacquire_polling cfg k (some s) = (TN_RC_INVALID_OBJ, k)
      ∧ tn_sem_delete cfg k (some s) = (TN_RC_INVALID_OBJ, k))
    ∧ (cfg.TN_ID_SEMAPHORE ≠ 0 →
      (∀ k0, ((cfg.arch_run_others k0).sems s).id_sem = (k0.sems s).id_sem) →
      (tn_sem_delete cfg k (some s)).1 = TN_RC_OK →
      ∀ kd, kd = (tn_sem_delete cfg k (some s)).2 →
        tn_sem_signal cfg kd (some s) = (TN_RC_INVALID_OBJ, kd)
        ∧ tn_sem_isignal cfg kd (some s) = (TN_RC_INVALID_OBJ, kd)
        ∧ tn_sem_acquire cfg kd (some s) timeout = (TN_RC_INVALID_OBJ, kd)
        ∧ tn_sem_acquire_polling cfg kd (some s) = (TN_RC_INVALID_OBJ, kd)
        ∧ tn_sem_iacquire_polling cfg kd (some s) = (TN_RC_INVALID_OBJ, kd)
        ∧ tn_sem_delete cfg kd (some s) = (TN_RC_INVALID_OBJ, kd)) := by
  refine ⟨invalid_object_calls cfg k s timeout, ?_⟩
  intro hne hothers hok kd hkd
  subst hkd
  apply invalid_object_calls
  rw [delete_ok_clears_tag cfg k s hothers hok]
  exact fun h => hne h.symm

/-- Witness for C10: semaphore 0 of the untouched sample system was never created, and
semaphore 0 of the sample state with three waiters has just been deleted by task 5. -/
theorem invalid_object_is_rejected_witness :
    ((demo_kernel.sems 0).id_sem ≠ demo_cfg.TN_ID_SEMAPHORE
      ∧ tn_sem_acquire demo_cfg demo_kernel (some 0) 7 = (TN_RC_INVALID_OBJ, demo_kernel)
      ∧ tn_sem_isignal demo_cfg (in_isr demo_kernel) (some 0)
          = (TN_RC_INVALID_OBJ, in_isr demo_kernel))
    ∧ (demo_cfg.TN_ID_SEMAPHORE ≠ 0
      ∧ (tn_sem_delete demo_cfg demo_waiting (some 0)).1 = TN_RC_OK
      ∧ (tn_sem_signal demo_cfg (tn_sem_delete demo_cfg demo_waiting (some 0)).2 (some 0)).1
          = TN_RC_INVALID_OBJ) :=
  ⟨⟨by decide,
      ((invalid_object_is_rejected demo_cfg demo_kernel 0 7).1 (by decide)).2.2.1,
      ((invalid_object_is_rejected demo_cfg (in_isr demo_kernel) 0 7).1 (by decide)).2.1⟩,
    by decide, by decide, by
      rw [((invalid_object_is_rejected demo_cfg demo_waiting 0 7).2 (by decide)
        (fun _ => rfl) (by decide) _ rfl).1]⟩

/-! ### Creation -/

/-- Claim C11. `tn_sem_create` returns WPARAM if and only if `sem` is null, or the
object already carries the semaphore identity tag, or `max_count <= 0`, or
`start_count < 0`, or `start_count > max_count`; no assumption is made on the calling
context; and whenever it returns WPARAM the whole state, the object included, is the
one it was given. -/
theorem tn_sem_create_wparam_iff (cfg : Config) (k : Kernel) (sem : Option Nat)
    (start_count max_count : Int) :
    ((tn_sem_create cfg k sem start_count max_count).1 = TN_RC_WPARAM ↔
      (sem = none ∨ ∃ s, sem = some s ∧
        ((k.sems s).id_sem = cfg.TN_ID_SEMAPHORE ∨ max_count ≤ 0 ∨ start_count < 0
          ∨ start_count > max_count)))
    ∧ ((tn_sem_create cfg k sem start_count max_count).1 = TN_RC_WPARAM →
        (tn_sem_create cfg k sem start_count max_count).2 = k) := by
  cases sem with
  | none => simp [tn_sem_create, _check_param_create]
  | some s =>
    by_cases hcond : (k.sems s).id_sem = cfg.TN_ID_SEMAPHORE ∨ max_count ≤ 0 ∨ start_count < 0
        ∨ start_count > max_count
    · simp [tn_sem_create, _check_param_create, hcond]
    · by_cases hctx : tn_is_task_context k = true
      · simp [tn_sem_create, _check_param_create, hcond, hctx]
      · simp [tn_sem_create, _check_param_create, hcond, hctx]

/-- Witness for C11: a create with `start_count = 2 > max_count = 1` on the sample
system, and a second create on an object that is already a semaphore. -/
theorem tn_sem_create_wparam_iff_witness :
    (tn_sem_create demo_cfg demo_kernel (some 0) 2 1).1 = TN_RC_WPARAM
    ∧ (tn_sem_create demo_cfg demo_kernel (some 0) 2 1).2 = demo_kernel
    ∧ (tn_sem_create demo_cfg demo_created (some 0) 0 3).1 = TN_RC_WPARAM :=
  have h1 := (tn_sem_create_wparam_iff demo_cfg demo_kernel (some 0) 2 1).1.2
    (Or.inr ⟨0, rfl, by decide⟩)
  ⟨h1, (tn_sem_create_wparam_iff demo_cfg demo_kernel (some 0) 2 1).2 h1,
    (tn_sem_create_wparam_iff demo_cfg demo_created (some 0) 0 3).1.2
      (Or.inr ⟨0, rfl, by decide⟩)⟩

/-- Claim C12. On a non-null object that does not carry the semaphore tag, with
`max_count > 0` and `0 <= start_count <= max_count`, `tn_sem_create` in task context
returns OK and leaves the object with `count = start_count`, the given `max_count`, an
empty wait queue and the semaphore sentinel as tag; every other semaphore object, the
tasks, the ready set, the scheduler pointers and the interrupt state are unchanged. -/
theorem tn_sem_create_initialises (cfg : Config) (k : Kernel) (s : Nat)
    (start_count max_count : Int)
    (hid : (k.sems s).id_sem ≠ cfg.TN_ID_SEMAPHORE)
    (hctx : k.context = TN_CONTEXT_TASK)
    (hmax : 0 < max_count)
    (hstart : 0 ≤ start_count)
    (hle : start_count ≤ max_count) :
    (tn_sem_create cfg k (some s) start_count max_count).1 = TN_RC_OK
    ∧ ((tn_sem_create cfg k (some s) start_count max_count).2.sems s).count = start_count
    ∧ ((tn_sem_create cfg k (some s) start_count max_count).2.sems s).max_count = max_count
    ∧ ((tn_sem_create cfg k (some s) start_count max_count).2.sems s).wait_queue = []
    ∧ ((tn_sem_create cfg k (some s) start_count max_count).2.sems s).id_sem
        = cfg.TN_ID_SEMAPHORE
    ∧ (∀ s1, s1 ≠ s →
        (tn_sem_create cfg k (some s) start_count max_count).2.sems s1 = k.sems s1)
    ∧ (tn_sem_create cfg k (some s) start_count max_count).2.tasks = k.tasks
    ∧ (tn_sem_create cfg k (some s) start_count max_count).2.ready = k.ready
    ∧ (tn_sem_create cfg k (some s) start_count max_count).2.tn_curr_run_task
        = k.tn_curr_run_task
    ∧ (tn_sem_create cfg k (some s) start_count max_count).2.tn_next_task_to_run
        = k.tn_next_task_to_run
    ∧ (tn_sem_create cfg k (some s) start_count max_count).2.int_enabled = k.int_enabled := by
  have hcond : ¬((k.sems s).id_sem = cfg.TN_ID_SEMAPHORE ∨ max_count ≤ 0 ∨ start_count < 0
      ∨ start_count > max_count) := by
    simp only [not_or, not_le, not_lt, gt_iff_lt]
    exact ⟨hid, hmax, hstart, hle⟩
  simp only [tn_sem_create, _check_param_create, hcond, if_false, tn_is_task_context, hctx]
  simp
  intro s1 hs1
  simp [Function.update_noteq hs1]

/-- Witness for C12: creating semaphore 0 with count 0 of 3 on the sample system. -/
theorem tn_sem_create_initialises_witness :
    ((demo_kernel.sems 0).id_sem ≠ demo_cfg.TN_ID_SEMAPHORE
      ∧ demo_kernel.context = TN_CONTEXT_TASK
      ∧ (0 : Int) < 3 ∧ (0 : Int) ≤ 0 ∧ (0 : Int) ≤ 3)
    ∧ (tn_sem_create demo_cfg demo_kernel (some 0) 0 3).1 = TN_RC_OK
    ∧ ((tn_sem_create demo_cfg demo_kernel (some 0) 0 3).2.sems 0).count = 0 :=
  have h := tn_sem_create_initialises demo_cfg demo_kernel 0 0 3
    (by decide) (by decide) (by decide) (by decide) (by decide)
  ⟨⟨by decide, by decide, by decide, by decide, by decide⟩, h.1, h.2.1⟩

/-! ### The paths through the job wrappers -/

theorem check_generic_ok_iff (cfg : Config) (k : Kernel) (sem : Option Nat) :
    _check_param_generic cfg k sem = TN_RC_OK
      ↔ ∃ s, sem = some s ∧ (k.sems s).id_sem = cfg.TN_ID_SEMAPHORE := by
  cases sem with
  | none => simp [_check_param_generic]
  | some s =>
    by_cases h : (k.sems s).id_sem = cfg.TN_ID_SEMAPHORE <;> simp [_check_param_generic, h]

theorem check_generic_codes (cfg : Config) (k : Kernel) (sem : Option Nat) :
    _check_param_generic cfg k sem = TN_RC_OK
      ∨ _check_param_generic cfg k sem = TN_RC_WPARAM
      ∨ _check_param_generic cfg k sem = TN_RC_INVALID_OBJ := by
  cases sem with
  | none => simp [_check_param_generic]
  | some s =>
    by_cases h : (k.sems s).id_sem = cfg.TN_ID_SEMAPHORE <;> simp [_check_param_generic, h]

theorem sem_signal_codes (cfg : Config) (k : Kernel) (s : Nat) :
    (_sem_signal cfg k s).1 = TN_RC_OK ∨ (_sem_signal cfg k s).1 = TN_RC_OVERFLOW := by
  unfold _sem_signal
  cases hq : (k.sems s).wait_queue with
  | nil =>
    by_cases hlt : (k.sems s).count < (k.sems s).max_count <;> simp [tn_is_list_empty, hlt]
  | cons t rest => simp [tn_is_list_empty]

theorem sem_acquire_codes (cfg : Config) (k : Kernel) (s : Nat) :
    (_sem_acquire cfg k s).1 = TN_RC_OK ∨ (_sem_acquire cfg k s).1 = TN_RC_TIMEOUT := by
  unfold _sem_acquire
  by_cases hc : (k.sems s).count ≥ 1 <;> simp [hc]

theorem job_perform_fail_check (cfg : Config) (k : Kernel) (sem : Option Nat)
    (w : Config → Kernel → Nat → TN_RCode × Kernel) (timeout : Nat)
    (h : _check_param_generic cfg k sem ≠ TN_RC_OK) :
    _sem_job_perform cfg k sem w timeout = (_check_param_generic cfg k sem, k) := by
  simp [_sem_job_perform, h]

theorem job_perform_fail_context (cfg : Config) (k : Kernel) (sem : Option Nat)
    (w : Config → Kernel → Nat → TN_RCode × Kernel) (timeout : Nat)
    (h : _check_param_generic cfg k sem = TN_RC_OK) (hc : k.context ≠ TN_CONTEXT_TASK) :
    _sem_job_perform cfg k sem w timeout = (TN_RC_WCONTEXT, k) := by
  simp [_sem_job_perform, h, tn_is_task_context, hc]

theorem job_perform_run (cfg : Config) (k : Kernel) (s : Nat)
    (w : Config → Kernel → Nat → TN_RCode × Kernel) (timeout : Nat)
    (hid : (k.sems s).id_sem = cfg.TN_ID_SEMAPHORE) (hc : k.context = TN_CONTEXT_TASK) :
    _sem_job_perform cfg k (some s) w timeout
      = (if (_sem_job_section cfg k s w timeout).2.1 then
            ((_tn_switch_context_if_needed cfg (_sem_job_section cfg k s w timeout).2.2).tasks
              (_tn_switch_context_if_needed cfg
                (_sem_job_section cfg k s w timeout).2.2).tn_curr_run_task).task_wait_rc
          else (_sem_job_section cfg k s w timeout).1,
        _tn_switch_context_if_needed cfg (_sem_job_section cfg k s w timeout).2.2) := by
  simp [_sem_job_perform, _check_param_generic, hid, tn_is_task_context, hc]

theorem job_iperform_fail_check (cfg : Config) (k : Kernel) (sem : Option Nat)
    (w : Config → Kernel → Nat → TN_RCode × Kernel)
    (h : _check_param_generic cfg k sem ≠ TN_RC_OK) :
    _sem_job_iperform cfg k sem w = (_check_param_generic cfg k sem, k) := by
  simp [_sem_job_iperform, h]

theorem job_iperform_fail_context (cfg : Config) (k : Kernel) (sem : Option Nat)
    (w : Config → Kernel → Nat → TN_RCode × Kernel)
    (h : _check_param_generic cfg k sem = TN_RC_OK) (hc : k.context ≠ TN_CONTEXT_ISR) :
    _sem_job_iperform cfg k sem w = (TN_RC_WCONTEXT, k) := by
  simp [_sem_job_iperform, h, tn_is_isr_context, hc]

theorem job_iperform_run (cfg : Config) (k : Kernel) (s : Nat)
    (w : Config → Kernel → Nat → TN_RCode × Kernel)
    (hid : (k.sems s).id_sem = cfg.TN_ID_SEMAPHORE) (hc : k.context = TN_CONTEXT_ISR) :
    _sem_job_iperform cfg k (some s) w
      = ((w cfg (tn_arch_sr_save_int_idis k).2 s).1,
          tn_arch_sr_irestore (w cfg (tn_arch_sr_save_int_idis k).2 s).2 k.int_enabled) := by
  simp [_sem_job_iperform, _check_param_generic, hid, tn_is_isr_context, hc,
    tn_arch_sr_save_int_idis]

theorem section_code (cfg : Config) (k : Kernel) (s : Nat)
    (w : Config → Kernel → Nat → TN_RCode × Kernel) (timeout : Nat) :
    (_sem_job_section cfg k s w timeout).1 = (w cfg (tn_arch_sr_save_int_dis k).2 s).1
    ∧ (_sem_job_section cfg k s w timeout).2.1
        = ((w cfg (tn_arch_sr_save_int_dis k).2 s).1 == TN_RC_TIMEOUT && timeout != 0) := by
  simp [_sem_job_section]

theorem curr_to_wait_wait_codes (cfg : Config) (k : Kernel) (q : Nat) (r : TN_WaitReason)
    (timeout : Nat) (h : wait_codes_ok k) :
    wait_codes_ok (_tn_task_curr_to_wait_action cfg k q r timeout) := by
  intro t
  by_cases ht : t = k.tn_curr_run_task
  · subst ht
    simp [_tn_task_curr_to_wait_action, ready_remove, is_wait_code]
  · have := h t
    simpa [_tn_task_curr_to_wait_action, ready_remove, Function.update_noteq ht] using this

theorem wait_complete_wait_codes (cfg : Config) (k : Kernel) (t : Nat) (rc : TN_RCode)
    (hrc : is_wait_code rc = true) (h : wait_codes_ok k) :
    wait_codes_ok (_tn_task_wait_complete cfg k t rc) := by
  intro u
  by_cases hu : u = t
  · subst hu
    rw [wait_complete_task_rc]
    exact hrc
  · rw [wait_complete_task_other _ _ _ _ _ hu]
    exact h u

theorem section_wait_codes (cfg : Config) (k : Kernel) (s : Nat)
    (w : Config → Kernel → Nat → TN_RCode × Kernel) (timeout : Nat)
    (hw : ∀ k0 s, wait_codes_ok k0 → wait_codes_ok (w cfg k0 s).2)
    (h : wait_codes_ok k) :
    wait_codes_ok (_sem_job_section cfg k s w timeout).2.2 := by
  have h1 : wait_codes_ok (w cfg (tn_arch_sr_save_int_dis k).2 s).2 :=
    hw _ _ (fun t => by simpa [tn_arch_sr_save_int_dis] using h t)
  have h2 := curr_to_wait_wait_codes cfg (w cfg (tn_arch_sr_save_int_dis k).2 s).2 s
    TN_WAIT_REASON_SEM timeout h1
  unfold _sem_job_section
  simp only [tn_arch_sr_restore, _TN_FATAL_ERROR]
  intro t
  split <;> split <;> first | exact h2 t | exact h1 t

theorem switch_wait_codes (cfg : Config)
    (hothers : ∀ k0, wait_codes_ok k0 → wait_codes_ok (cfg.arch_run_others k0))
    (k : Kernel) (h : wait_codes_ok k) :
    wait_codes_ok (_tn_switch_context_if_needed cfg k) := by
  unfold _tn_switch_context_if_needed _tn_arch_context_switch
  split
  · exact hothers _ (fun t => h t)
  · exact h

theorem job_perform_code_origin (cfg : Config) (k : Kernel) (sem : Option Nat)
    (w : Config → Kernel → Nat → TN_RCode × Kernel) (timeout : Nat)
    (bad : TN_RCode → Prop)
    (hcodes : ∀ rc, is_wait_code rc = true → ¬ bad rc)
    (hw : ∀ k0 s, ¬ bad (w cfg k0 s).1)
    (hrely : timeout = 0 ∨ (wait_codes_ok k
      ∧ (∀ k0, wait_codes_ok k0 → wait_codes_ok (cfg.arch_run_others k0))
      ∧ (∀ k0 s, wait_codes_ok k0 → wait_codes_ok (w cfg k0 s).2)))
    (hbad : bad (_sem_job_perform cfg k sem w timeout).1) :
    (_check_param_generic cfg k sem ≠ TN_RC_OK
        ∧ _sem_job_perform cfg k sem w timeout = (_check_param_generic cfg k sem, k))
      ∨ (_check_param_generic cfg k sem = TN_RC_OK ∧ k.context ≠ TN_CONTEXT_TASK
        ∧ _sem_job_perform cfg k sem w timeout = (TN_RC_WCONTEXT, k)) := by
  by_cases hchk : _check_param_generic cfg k sem = TN_RC_OK
  · by_cases hc : k.context = TN_CONTEXT_TASK
    · exfalso
      obtain ⟨s, hs, hid⟩ := (check_generic_ok_iff cfg k sem).1 hchk
      subst hs
      rw [job_perform_run cfg k s w timeout hid hc] at hbad
      simp only at hbad
      cases hwait : (_sem_job_section cfg k s w timeout).2.1 with
      | false =>
        rw [hwait] at hbad
        simp only [Bool.false_eq_true, if_false] at hbad
        rw [(section_code cfg k s w timeout).1] at hbad
        exact hw _ _ hbad
      | true =>
        rw [hwait] at hbad
        simp only [if_true] at hbad
        rcases hrely with h0 | ⟨hk, hothers, hwk⟩
        · rw [(section_code cfg k s w timeout).2, h0] at hwait
          simp at hwait
        · exact hcodes _ (switch_wait_codes cfg hothers _
            (section_wait_codes cfg k s w timeout hwk hk) _) hbad
    · exact Or.inr ⟨hchk, hc, job_perform_fail_context cfg k sem w timeout hchk hc⟩
  · exact Or.inl ⟨hchk, job_perform_fail_check cfg k sem w timeout hchk⟩

theorem job_iperform_code_origin (cfg : Config) (k : Kernel) (sem : Option Nat)
    (w : Config → Kernel → Nat → TN_RCode × Kernel)
    (bad : TN_RCode → Prop)
    (hw : ∀ k0 s, ¬ bad (w cfg k0 s).1)
    (hbad : bad (_sem_job_iperform cfg k sem w).1) :
    (_check_param_generic cfg k sem ≠ TN_RC_OK
        ∧ _sem_job_iperform cfg k sem w = (_check_param_generic cfg k sem, k))
      ∨ (_check_param_generic cfg k sem = TN_RC_OK ∧ k.context ≠ TN_CONTEXT_ISR
        ∧ _sem_job_iperform cfg k sem w = (TN_RC_WCONTEXT, k)) := by
  by_cases hchk : _check_param_generic cfg k sem = TN_RC_OK
  · by_cases hc : k.context = TN_CONTEXT_ISR
    · exfalso
      obtain ⟨s, hs, hid⟩ := (check_generic_ok_iff cfg k sem).1 hchk
      subst hs
      rw [job_iperform_run cfg k s w hid hc] at hbad
      exact hw _ _ hbad
    · exact Or.inr ⟨hchk, hc, job_iperform_fail_context cfg k sem w hchk hc⟩
  · exact Or.inl ⟨hchk, job_iperform_fail_check cfg k sem w hchk⟩

theorem delete_code_origin (cfg : Config) (k : Kernel) (sem : Option Nat)
    (hne : (tn_sem_delete cfg k sem).1 ≠ TN_RC_OK) :
    (_check_param_generic cfg k sem ≠ TN_RC_OK
        ∧ tn_sem_delete cfg k sem = (_check_param_generic cfg k sem, k))
      ∨ (_check_param_generic cfg k sem = TN_RC_OK ∧ k.context ≠ TN_CONTEXT_TASK
        ∧ tn_sem_delete cfg k sem = (TN_RC_WCONTEXT, k)) := by
  by_cases hchk : _check_param_generic cfg k sem = TN_RC_OK
  · by_cases hc : k.context = TN_CONTEXT_TASK
    · exfalso
      obtain ⟨s, hs, hid⟩ := (check_generic_ok_iff cfg k sem).1 hchk
      subst hs
      apply hne
      simp [tn_sem_delete, _check_param_generic, hid, tn_is_task_context, hc]
    · refine Or.inr ⟨hchk, hc, ?_⟩
      simp [tn_sem_delete, hchk, tn_is_task_context, hc]
  · refine Or.inl ⟨hchk, ?_⟩
    simp [tn_sem_delete, hchk]

theorem create_code_origin (cfg : Config) (k : Kernel) (sem : Option Nat) (a b : Int)
    (hne : (tn_sem_create cfg k sem a b).1 ≠ TN_RC_OK) :
    (_check_param_create cfg k sem a b = TN_RC_WPARAM
        ∧ tn_sem_create cfg k sem a b = (TN_RC_WPARAM, k))
      ∨ (_check_param_create cfg k sem a b = TN_RC_OK ∧ k.context ≠ TN_CONTEXT_TASK
        ∧ tn_sem_create cfg k sem a b = (TN_RC_WCONTEXT, k)) := by
  cases sem with
  | none => left; simp [tn_sem_create, _check_param_create]
  | some s =>
    by_cases hcond : (k.sems s).id_sem = cfg.TN_ID_SEMAPHORE ∨ b ≤ 0 ∨ a < 0 ∨ a > b
    · left; simp [tn_sem_create, _check_param_create, hcond]
    · by_cases hc : k.context = TN_CONTEXT_TASK
      · exfalso
        apply hne
        simp [tn_sem_create, _check_param_create, hcond, tn_is_task_context, hc]
      · right
        simp [tn_sem_create, _check_param_create, hcond, tn_is_task_context, hc]

/-! ### Context gating and atomic failure -/

theorem sem_acquire_wait_codes (cfg : Config) (k0 : Kernel) (s : Nat)
    (h : wait_codes_ok k0) : wait_codes_ok (_sem_acquire cfg k0 s).2 := by
  unfold _sem_acquire
  split
  · exact fun t => h t
  · exact h

theorem perform_wcontext_iff (cfg : Config) (k : Kernel) (sem : Option Nat)
    (w : Config → Kernel → Nat → TN_RCode × Kernel) (timeout : Nat)
    (hw : ∀ k0 s, (w cfg k0 s).1 ≠ TN_RC_WCONTEXT)
    (hrely : timeout = 0 ∨ (wait_codes_ok k
      ∧ (∀ k0, wait_codes_ok k0 → wait_codes_ok (cfg.arch_run_others k0))
      ∧ (∀ k0 s, wait_codes_ok k0 → wait_codes_ok (w cfg k0 s).2))) :
    (_sem_job_perform cfg k sem w timeout).1 = TN_RC_WCONTEXT
      ↔ _check_param_generic cfg k sem = TN_RC_OK ∧ k.context ≠ TN_CONTEXT_TASK := by
  constructor
  · intro h
    rcases job_perform_code_origin cfg k sem w timeout (fun rc => rc = TN_RC_WCONTEXT)
      (fun rc hrc hbad => by subst hbad; simp [is_wait_code] at hrc) hw hrely h with h1 | h1
    · exfalso
      rw [h1.2] at h
      rcases check_generic_codes cfg k sem with h2 | h2 | h2
      · exact h1.1 h2
      · simp only at h; rw [h2] at h; exact TN_RCode.noConfusion h
      · simp only at h; rw [h2] at h; exact TN_RCode.noConfusion h
    · exact ⟨h1.1, h1.2.1⟩
  · intro h
    rw [job_perform_fail_context cfg k sem w timeout h.1 h.2]

theorem iperform_wcontext_iff (cfg : Config) (k : Kernel) (sem : Option Nat)
    (w : Config → Kernel → Nat → TN_RCode × Kernel)
    (hw : ∀ k0 s, (w cfg k0 s).1 ≠ TN_RC_WCONTEXT) :
    (_sem_job_iperform cfg k sem w).1 = TN_RC_WCONTEXT
      ↔ _check_param_generic cfg k sem = TN_RC_OK ∧ k.context ≠ TN_CONTEXT_ISR := by
  constructor
  · intro h
    rcases job_iperform_code_origin cfg k sem w (fun rc => rc = TN_RC_WCONTEXT) hw h with h1 | h1
    · exfalso
      rw [h1.2] at h
      rcases check_generic_codes cfg k sem with h2 | h2 | h2
      · exact h1.1 h2
      · simp only at h; rw [h2] at h; exact TN_RCode.noConfusion h
      · simp only at h; rw [h2] at h; exact TN_RCode.noConfusion h
    · exact ⟨h1.1, h1.2.1⟩
  · intro h
    rw [job_iperform_fail_context cfg k sem w h.1 h.2]

theorem sem_signal_not_wcontext (cfg : Config) (k0 : Kernel) (s : Nat) :
    (_sem_signal cfg k0 s).1 ≠ TN_RC_WCONTEXT := by
  rcases sem_signal_codes cfg k0 s with h | h <;> rw [h] <;> exact TN_RCode.noConfusion

theorem sem_acquire_not_wcontext (cfg : Config) (k0 : Kernel) (s : Nat) :
    (_sem_acquire cfg k0 s).1 ≠ TN_RC_WCONTEXT := by
  rcases sem_acquire_codes cfg k0 s with h | h <;> rw [h] <;> exact TN_RCode.noConfusion

/-- Claim C13. Context gating.  Each operation returns WCONTEXT exactly when its
arguments pass its parameter validation and the calling context is the wrong one: not
the task context for `tn_sem_create`, `tn_sem_delete`, `tn_sem_signal`,
`tn_sem_acquire` and `tn_sem_acquire_polling`, not the ISR context for
`tn_sem_isignal` and `tn_sem_iacquire_polling`; hence none returns WCONTEXT from its
own context.  For `tn_sem_acquire` with a non-zero timeout the code of a call that
waited is the `wait_rc` delivered at resumption: there the statement assumes that every
task's `wait_rc` holds a code a wait can end with (OK, TIMEOUT, DELETED, FORCED) and
that the rest of the system keeps it so. -/
theorem wcontext_exactly_on_wrong_context (cfg : Config) (k : Kernel) (sem : Option Nat)
    (start_count max_count : Int) (timeout : Nat) :
    ((tn_sem_create cfg k sem start_count max_count).1 = TN_RC_WCONTEXT
        ↔ _check_param_create cfg k sem start_count max_count = TN_RC_OK
          ∧ k.context ≠ TN_CONTEXT_TASK)
    ∧ ((tn_sem_delete cfg k sem).1 = TN_RC_WCONTEXT
        ↔ _check_param_generic cfg k sem = TN_RC_OK ∧ k.context ≠ TN_CONTEXT_TASK)
    ∧ ((tn_sem_signal cfg k sem).1 = TN_RC_WCONTEXT
        ↔ _check_param_generic cfg k sem = TN_RC_OK ∧ k.context ≠ TN_CONTEXT_TASK)
    ∧ ((tn_sem_acquire_polling cfg k sem).1 = TN_RC_WCONTEXT
        ↔ _check_param_generic cfg k sem = TN_RC_OK ∧ k.context ≠ TN_CONTEXT_TASK)
    ∧ ((tn_sem_isignal cfg k sem).1 = TN_RC_WCONTEXT
        ↔ _check_param_generic cfg k sem = TN_RC_OK ∧ k.context ≠ TN_CONTEXT_ISR)
    ∧ ((tn_sem_iacquire_polling cfg k sem).1 = TN_RC_WCONTEXT
        ↔ _check_param_generic cfg k sem = TN_RC_OK ∧ k.context ≠ TN_CONTEXT_ISR)
    ∧ ((timeout = 0 ∨ (wait_codes_ok k
          ∧ ∀ k0, wait_codes_ok k0 → wait_codes_ok (cfg.arch_run_others k0))) →
        ((tn_sem_acquire cfg k sem timeout).1 = TN_RC_WCONTEXT
          ↔ _check_param_generic cfg k sem = TN_RC_OK ∧ k.context ≠ TN_CONTEXT_TASK)) := by
  refine ⟨?_, ?_, ?_, ?_, ?_, ?_, ?_⟩
  · constructor
    · intro h
      rcases create_code_origin cfg k sem start_count max_count
        (by rw [h]; exact TN_RCode.noConfusion) with h1 | h1
      · rw [h1.2] at h; exact TN_RCode.noConfusion h
      · exact ⟨h1.1, h1.2.1⟩
    · intro h
      cases sem with
      | none => simp [_check_param_create] at h
      | some s => simp [tn_sem_create, h.1, tn_is_task_context, h.2]
  · constructor
    · intro h
      rcases delete_code_origin cfg k sem (by rw [h]; exact TN_RCode.noConfusion) with h1 | h1
      · exfalso
        rw [h1.2] at h
        rcases check_generic_codes cfg k sem with h2 | h2 | h2
        · exact h1.1 h2
        · simp only at h; rw [h2] at h; exact TN_RCode.noConfusion h
        · simp only at h; rw [h2] at h; exact TN_RCode.noConfusion h
      · exact ⟨h1.1, h1.2.1⟩
    · intro h
      simp [tn_sem_delete, h.1, tn_is_task_context, h.2]
  · exact perform_wcontext_iff cfg k sem _sem_signal 0 (sem_signal_not_wcontext cfg) (Or.inl rfl)
  · exact perform_wcontext_iff cfg k sem _sem_acquire 0 (sem_acquire_not_wcontext cfg)
      (Or.inl rfl)
  · exact iperform_wcontext_iff cfg k sem _sem_signal (sem_signal_not_wcontext cfg)
  · exact iperform_wcontext_iff cfg k sem _sem_acquire (sem_acquire_not_wcontext cfg)
  · intro hrely
    refine perform_wcontext_iff cfg k sem _sem_acquire timeout (sem_acquire_not_wcontext cfg) ?_
    rcases hrely with h0 | ⟨hk, hothers⟩
    · exact Or.inl h0
    · exact Or.inr ⟨hk, hothers, fun k0 s h => sem_acquire_wait_codes cfg k0 s h⟩

/-- Witness for C13 on the sample system, where the tick driver times the wait out
while the caller is switched out: acquire with timeout 10 from a task is not refused,
and the same call from an interrupt handler returns WCONTEXT. -/
theorem wcontext_exactly_on_wrong_context_witness :
    (wait_codes_ok demo_created
      ∧ ∀ k0, wait_codes_ok k0 →
          wait_codes_ok ((demo_cfg_with demo_others_tick).arch_run_others k0))
    ∧ (tn_sem_acquire (demo_cfg_with demo_others_tick) demo_created (some 0) 10).1
        ≠ TN_RC_WCONTEXT
    ∧ (tn_sem_acquire (demo_cfg_with demo_others_tick) (in_isr demo_created) (some 0) 10).1
        = TN_RC_WCONTEXT :=
  have hk : wait_codes_ok demo_created := fun _ => rfl
  have ho : ∀ k0, wait_codes_ok k0 →
      wait_codes_ok ((demo_cfg_with demo_others_tick).arch_run_others k0) :=
    fun k0 h => wait_complete_wait_codes demo_cfg k0 1 TN_RC_TIMEOUT rfl h
  ⟨⟨hk, ho⟩,
    fun h => ((wcontext_exactly_on_wrong_context (demo_cfg_with demo_others_tick) demo_created
      (some 0) 0 0 10).2.2.2.2.2.2 (Or.inr ⟨hk, ho⟩)).1 h |>.2 (by decide),
    ((wcontext_exactly_on_wrong_context (demo_cfg_with demo_others_tick) (in_isr demo_created)
      (some 0) 0 0 10).2.2.2.2.2.2 (Or.inr ⟨fun _ => rfl, ho⟩)).2 ⟨by decide, by decide⟩⟩

theorem perform_failure_atomic (cfg : Config) (k : Kernel) (sem : Option Nat)
    (w : Config → Kernel → Nat → TN_RCode × Kernel) (timeout : Nat)
    (hw : ∀ k0 s, ¬ is_validation_failure (w cfg k0 s).1 = true)
    (hrely : timeout = 0 ∨ (wait_codes_ok k
      ∧ (∀ k0, wait_codes_ok k0 → wait_codes_ok (cfg.arch_run_others k0))
      ∧ (∀ k0 s, wait_codes_ok k0 → wait_codes_ok (w cfg k0 s).2)))
    (h : is_validation_failure (_sem_job_perform cfg k sem w timeout).1 = true) :
    (_sem_job_perform cfg k sem w timeout).2 = k := by
  rcases job_perform_code_origin cfg k sem w timeout (fun rc => is_validation_failure rc = true)
    (fun rc hrc hbad => by cases rc <;> simp [is_wait_code, is_validation_failure] at hrc hbad)
    hw hrely h with h1 | h1
  · rw [h1.2]
  · rw [h1.2.2]

theorem iperform_failure_atomic (cfg : Config) (k : Kernel) (sem : Option Nat)
    (w : Config → Kernel → Nat → TN_RCode × Kernel)
    (hw : ∀ k0 s, ¬ is_validation_failure (w cfg k0 s).1 = true)
    (h : is_validation_failure (_sem_job_iperform cfg k sem w).1 = true) :
    (_sem_job_iperform cfg k sem w).2 = k := by
  rcases job_iperform_code_origin cfg k sem w (fun rc => is_validation_failure rc = true)
    hw h with h1 | h1
  · rw [h1.2]
  · rw [h1.2.2]

theorem sem_signal_not_failure (cfg : Config) (k0 : Kernel) (s : Nat) :
    ¬ is_validation_failure (_sem_signal cfg k0 s).1 = true := by
  rcases sem_signal_codes cfg k0 s with h | h <;> rw [h] <;> decide

theorem sem_acquire_not_failure (cfg : Config) (k0 : Kernel) (s : Nat) :
    ¬ is_validation_failure (_sem_acquire cfg k0 s).1 = true := by
  rcases sem_acquire_codes cfg k0 s with h | h <;> rw [h] <;> decide

/-- Claim C14. Atomicity on failure.  Whenever a semaphore operation returns WPARAM,
INVALID_OBJ or WCONTEXT, the state it returns is the state it was given: identity tag,
`count`, `max_count` and wait queue of every semaphore, every task, the ready set, the
scheduler's current and next task, the interrupt state, and the log, so that no
wait-protocol or context-switch routine was called.  This holds for every starting
state, pointer and context.  For `tn_sem_acquire` with a non-zero timeout the code of a
call that waited is the `wait_rc` delivered at resumption: there the statement assumes
that every task's `wait_rc` holds a code a wait can end with and that the rest of the
system keeps it so. -/
theorem failed_validation_changes_nothing (cfg : Config) (k : Kernel) (sem : Option Nat)
    (start_count max_count : Int) (timeout : Nat) :
    (is_validation_failure (tn_sem_create cfg k sem start_count max_count).1 = true →
        (tn_sem_create cfg k sem start_count max_count).2 = k)
    ∧ (is_validation_failure (tn_sem_delete cfg k sem).1 = true →
        (tn_sem_delete cfg k sem).2 = k)
    ∧ (is_validation_failure (tn_sem_signal cfg k sem).1 = true →
        (tn_sem_signal cfg k sem).2 = k)
    ∧ (is_validation_failure (tn_sem_isignal cfg k sem).1 = true →
        (tn_sem_isignal cfg k sem).2 = k)
    ∧ (is_validation_failure (tn_sem_acquire_polling cfg k sem).1 = true →
        (tn_sem_acquire_polling cfg k sem).2 = k)
    ∧ (is_validation_failure (tn_sem_iacquire_polling cfg k sem).1 = true →
        (tn_sem_iacquire_polling cfg k sem).2 = k)
    ∧ ((timeout = 0 ∨ (wait_codes_ok k
          ∧ ∀ k0, wait_codes_ok k0 → wait_codes_ok (cfg.arch_run_others k0))) →
        is_validation_failure (tn_sem_acquire cfg k sem timeout).1 = true →
        (tn_sem_acquire cfg k sem timeout).2 = k) := by
  refine ⟨?_, ?_, ?_, ?_, ?_, ?_, ?_⟩
  · intro h
    rcases create_code_origin cfg k sem start_count max_count
      (by intro hok; rw [hok] at h; exact absurd h (by decide)) with h1 | h1
    · rw [h1.2]
    · rw [h1.2.2]
  · intro h
    rcases delete_code_origin cfg k sem
      (by intro hok; rw [hok] at h; exact absurd h (by decide)) with h1 | h1
    · rw [h1.2]
    · rw [h1.2.2]
  · exact perform_failure_atomic cfg k sem _sem_signal 0 (sem_signal_not_failure cfg)
      (Or.inl rfl)
  · exact iperform_failure_atomic cfg k sem _sem_signal (sem_signal_not_failure cfg)
  · exact perform_failure_atomic cfg k sem _sem_acquire 0 (sem_acquire_not_failure cfg)
      (Or.inl rfl)
  · exact iperform_failure_atomic cfg k sem _sem_acquire (sem_acquire_not_failure cfg)
  · intro hrely
    refine perform_failure_atomic cfg k sem _sem_acquire timeout (sem_acquire_not_failure cfg) ?_
    rcases hrely with h0 | ⟨hk, hothers⟩
    · exact Or.inl h0
    · exact Or.inr ⟨hk, hothers, fun k0 s h => sem_acquire_wait_codes cfg k0 s h⟩

/-- Witness for C14: signalling the never-created semaphore 0 of the sample system
returns INVALID_OBJ, acquiring through a null pointer returns WPARAM, deleting from an
interrupt handler returns WCONTEXT; each leaves the state as it was. -/
theorem failed_validation_changes_nothing_witness :
    (is_validation_failure (tn_sem_signal demo_cfg demo_kernel (some 0)).1 = true
      ∧ (tn_sem_signal demo_cfg demo_kernel (some 0)).2 = demo_kernel)
    ∧ (is_validation_failure (tn_sem_acquire demo_cfg demo_kernel none 10).1 = true
      ∧ (tn_sem_acquire demo_cfg demo_kernel none 10).2 = demo_kernel)
    ∧ (is_validation_failure (tn_sem_delete demo_cfg (in_isr demo_created) (some 0)).1 = true
      ∧ (tn_sem_delete demo_cfg (in_isr demo_created) (some 0)).2 = in_isr demo_created) :=
  ⟨⟨by decide,
      (failed_validation_changes_nothing demo_cfg demo_kernel (some 0) 0 0 0).2.2.1
        (by decide)⟩,
    ⟨by decide,
      (failed_validation_changes_nothing demo_cfg demo_kernel none 0 0 10).2.2.2.2.2.2
        (Or.inr ⟨fun _ => rfl, fun _ h => h⟩) (by decide)⟩,
    ⟨by decide,
      (failed_validation_changes_nothing demo_cfg (in_isr demo_created) (some 0) 0 0 0).2.1
        (by decide)⟩⟩

/-! ### Polling -/

theorem acquire_poll_section (cfg : Config) (k : Kernel) (s : Nat) :
    (_sem_job_section cfg k s _sem_acquire 0).2.1 = false
    ∧ wait_calls (_sem_job_section cfg k s _sem_acquire 0).2.2.trace = wait_calls k.trace
    ∧ (_sem_job_section cfg k s _sem_acquire 0).2.2.tasks = k.tasks
    ∧ (_sem_job_section cfg k s _sem_acquire 0).2.2.ready = k.ready
    ∧ (_sem_job_section cfg k s _sem_acquire 0).2.2.tn_curr_run_task = k.tn_curr_run_task
    ∧ (_sem_job_section cfg k s _sem_acquire 0).2.2.tn_next_task_to_run
        = k.tn_next_task_to_run
    ∧ (∀ s1, ((_sem_job_section cfg k s _sem_acquire 0).2.2.sems s1).wait_queue
        = (k.sems s1).wait_queue)
    ∧ (_sem_job_section cfg k s _sem_acquire 0).2.2.sems
        = (_sem_acquire cfg k s).2.sems
    ∧ (_sem_job_section cfg k s _sem_acquire 0).1 = (_sem_acquire cfg k s).1 := by
  by_cases hc : (k.sems s).count ≥ 1
  · simp only [_sem_job_section, _sem_acquire, tn_arch_sr_save_int_dis, hc, if_true,
      tn_arch_sr_restore]
    simp [wait_calls]
    intro s1
    by_cases h : s1 = s
    · subst h; simp
    · simp [Function.update_noteq h]
  · simp [_sem_job_section, _sem_acquire, tn_arch_sr_save_int_dis, hc, tn_arch_sr_restore,
      wait_calls]

theorem iacquire_poll_run (cfg : Config) (k : Kernel) (s : Nat) :
    wait_calls (tn_arch_sr_irestore (_sem_acquire cfg (tn_arch_sr_save_int_idis k).2 s).2
        k.int_enabled).trace = wait_calls k.trace
    ∧ (tn_arch_sr_irestore (_sem_acquire cfg (tn_arch_sr_save_int_idis k).2 s).2
        k.int_enabled).tasks = k.tasks
    ∧ (tn_arch_sr_irestore (_sem_acquire cfg (tn_arch_sr_save_int_idis k).2 s).2
        k.int_enabled).ready = k.ready
    ∧ (∀ s1, ((tn_arch_sr_irestore (_sem_acquire cfg (tn_arch_sr_save_int_idis k).2 s).2
        k.int_enabled).sems s1).wait_queue = (k.sems s1).wait_queue)
    ∧ (tn_arch_sr_irestore (_sem_acquire cfg (tn_arch_sr_save_int_idis k).2 s).2
        k.int_enabled).sems = (_sem_acquire cfg k s).2.sems
    ∧ (_sem_acquire cfg (tn_arch_sr_save_int_idis k).2 s).1 = (_sem_acquire cfg k s).1 := by
  by_cases hc : (k.sems s).count ≥ 1
  · simp only [_sem_acquire, tn_arch_sr_save_int_idis, hc, if_true, tn_arch_sr_irestore]
    simp [wait_calls]
    intro s1
    by_cases h : s1 = s
    · subst h; simp
    · simp [Function.update_noteq h]
  · simp [_sem_acquire, tn_arch_sr_save_int_idis, hc, tn_arch_sr_irestore, wait_calls]

theorem sem_acquire_context_free (cfg : Config) (k : Kernel) (s : Nat) (c : TN_Context) :
    (_sem_acquire cfg { k with context := c } s).1 = (_sem_acquire cfg k s).1
    ∧ (_sem_acquire cfg { k with context := c } s).2.sems = (_sem_acquire cfg k s).2.sems := by
  unfold _sem_acquire
  by_cases hc : (k.sems s).count ≥ 1 <;> simp [hc]

theorem switch_sems_eq (cfg : Config) (k k1 : Kernel)
    (hcur : k1.tn_curr_run_task = k.tn_curr_run_task)
    (hnext : k1.tn_next_task_to_run = k.tn_next_task_to_run)
    (hsw : _tn_need_context_switch k = false
      ∨ ∀ k0, (cfg.arch_run_others k0).sems = k0.sems) :
    (_tn_switch_context_if_needed cfg k1).sems = k1.sems := by
  unfold _tn_switch_context_if_needed _tn_arch_context_switch
  split
  · rename_i hneed
    rcases hsw with h | h
    · simp [_tn_need_context_switch, hcur, hnext] at hneed h
      exact absurd h hneed
    · rw [h]
  · rfl

/-- Claim C15. Polling equivalence.  `tn_sem_acquire_polling(sem)` is
`tn_sem_acquire(sem, 0)`: same code, same state, in every context.
`tn_sem_iacquire_polling(sem)` called in ISR context returns the same code as
`tn_sem_acquire_polling(sem)` called in task context on the same state, and the same
semaphores result, when no context switch is pending at the call or the rest of the
system leaves the semaphores alone during it.  None of the three calls the wait
protocol: `tn_sem_iacquire_polling` returns with no wait call logged, every task, the
ready set and every wait queue unchanged, and `tn_sem_acquire` with timeout 0 either
returns the state it was given or starts its deferred switch from such a state. -/
theorem polling_equivalence (cfg : Config) (k : Kernel) (sem : Option Nat) :
    tn_sem_acquire_polling cfg k sem = tn_sem_acquire cfg k sem 0
    ∧ (tn_sem_iacquire_polling cfg (in_isr k) sem).1
        = (tn_sem_acquire_polling cfg (in_task k) sem).1
    ∧ ((_tn_need_context_switch k = false
          ∨ ∀ k0, (cfg.arch_run_others k0).sems = k0.sems) →
        (tn_sem_iacquire_polling cfg (in_isr k) sem).2.sems
          = (tn_sem_acquire_polling cfg (in_task k) sem).2.sems)
    ∧ (wait_calls (tn_sem_iacquire_polling cfg k sem).2.trace = wait_calls k.trace
        ∧ (tn_sem_iacquire_polling cfg k sem).2.tasks = k.tasks
        ∧ (tn_sem_iacquire_polling cfg k sem).2.ready = k.ready
        ∧ ∀ s1, ((tn_sem_iacquire_polling cfg k sem).2.sems s1).wait_queue
            = (k.sems s1).wait_queue)
    ∧ ((tn_sem_acquire cfg k sem 0).2 = k
        ∨ ∃ k1, (tn_sem_acquire cfg k sem 0).2 = _tn_switch_context_if_needed cfg k1
            ∧ wait_calls k1.trace = wait_calls k.trace
            ∧ k1.tasks = k.tasks
            ∧ k1.ready = k.ready
            ∧ ∀ s1, (k1.sems s1).wait_queue = (k.sems s1).wait_queue) := by
  refine ⟨rfl, ?_, ?_, ?_, ?_⟩
  · by_cases hchk : _check_param_generic cfg k sem = TN_RC_OK
    · obtain ⟨s, hs, hid⟩ := (check_generic_ok_iff cfg k sem).1 hchk
      subst hs
      have h1 := job_iperform_run cfg (in_isr k) s _sem_acquire hid rfl
      have h2 := job_perform_run cfg (in_task k) s _sem_acquire 0 hid rfl
      have h3 := acquire_poll_section cfg (in_task k) s
      have h4 := iacquire_poll_run cfg (in_isr k) s
      unfold tn_sem_iacquire_polling tn_sem_acquire_polling
      rw [h1, h2, h3.1]
      simp only [Bool.false_eq_true, if_false]
      rw [h3.2.2.2.2.2.2.2.2, h4.2.2.2.2.2]
      exact ((sem_acquire_context_free cfg k s TN_CONTEXT_ISR).1).trans
        ((sem_acquire_context_free cfg k s TN_CONTEXT_TASK).1).symm
    · have h1 := job_iperform_fail_check cfg (in_isr k) sem _sem_acquire hchk
      have h2 := job_perform_fail_check cfg (in_task k) sem _sem_acquire 0 hchk
      unfold tn_sem_iacquire_polling tn_sem_acquire_polling
      rw [h1, h2]
      rfl
  · intro hsw
    by_cases hchk : _check_param_generic cfg k sem = TN_RC_OK
    · obtain ⟨s, hs, hid⟩ := (check_generic_ok_iff cfg k sem).1 hchk
      subst hs
      have h1 := job_iperform_run cfg (in_isr k) s _sem_acquire hid rfl
      have h2 := job_perform_run cfg (in_task k) s _sem_acquire 0 hid rfl
      have h3 := acquire_poll_section cfg (in_task k) s
      have h4 := iacquire_poll_run cfg (in_isr k) s
      unfold tn_sem_iacquire_polling tn_sem_acquire_polling
      rw [h1, h2]
      simp only
      rw [switch_sems_eq cfg k _ h3.2.2.2.2.1 h3.2.2.2.2.2.1 hsw, h3.2.2.2.2.2.2.2.1,
        h4.2.2.2.2.1]
      exact ((sem_acquire_context_free cfg k s TN_CONTEXT_ISR).2).trans
        ((sem_acquire_context_free cfg k s TN_CONTEXT_TASK).2).symm
    · have h1 := job_iperform_fail_check cfg (in_isr k) sem _sem_acquire hchk
      have h2 := job_perform_fail_check cfg (in_task k) sem _sem_acquire 0 hchk
      unfold tn_sem_iacquire_polling tn_sem_acquire_polling
      rw [h1, h2]
      rfl
  · by_cases hchk : _check_param_generic cfg k sem = TN_RC_OK
    · by_cases hc : k.context = TN_CONTEXT_ISR
      · obtain ⟨s, hs, hid⟩ := (check_generic_ok_iff cfg k sem).1 hchk
        subst hs
        have h4 := iacquire_poll_run cfg k s
        unfold tn_sem_iacquire_polling
        rw [job_iperform_run cfg k s _sem_acquire hid hc]
        exact ⟨h4.1, h4.2.1, h4.2.2.1, h4.2.2.2.1⟩
      · unfold tn_sem_iacquire_polling
        rw [job_iperform_fail_context cfg k sem _sem_acquire hchk hc]
        exact ⟨rfl, rfl, rfl, fun _ => rfl⟩
    · unfold tn_sem_iacquire_polling
      rw [job_iperform_fail_check cfg k sem _sem_acquire hchk]
      exact ⟨rfl, rfl, rfl, fun _ => rfl⟩
  · by_cases hchk : _check_param_generic cfg k sem = TN_RC_OK
    · by_cases hc : k.context = TN_CONTEXT_TASK
      · obtain ⟨s, hs, hid⟩ := (check_generic_ok_iff cfg k sem).1 hchk
        subst hs
        have h3 := acquire_poll_section cfg k s
        right
        refine ⟨(_sem_job_section cfg k s _sem_acquire 0).2.2, ?_, h3.2.1, h3.2.2.1,
          h3.2.2.2.1, h3.2.2.2.2.2.2.1⟩
        unfold tn_sem_acquire
        rw [job_perform_run cfg k s _sem_acquire 0 hid hc]
      · left
        unfold tn_sem_acquire
        rw [job_perform_fail_context cfg k sem _sem_acquire 0 hchk hc]
    · left
      unfold tn_sem_acquire
      rw [job_perform_fail_check cfg k sem _sem_acquire 0 hchk]

/-- Witness for C15 on the overflow-scenario state (semaphore 0 holds one unit, no
switch pending): polling from an interrupt handler and from a task give the same code
and the same semaphores. -/
theorem polling_equivalence_witness :
    _tn_need_context_switch demo_sem_1_1 = false
    ∧ (tn_sem_iacquire_polling demo_cfg (in_isr demo_sem_1_1) (some 0)).1 = TN_RC_OK
    ∧ (tn_sem_acquire_polling demo_cfg (in_task demo_sem_1_1) (some 0)).1 = TN_RC_OK
    ∧ (tn_sem_iacquire_polling demo_cfg (in_isr demo_sem_1_1) (some 0)).2.sems
        = (tn_sem_acquire_polling demo_cfg (in_task demo_sem_1_1) (some 0)).2.sems :=
  ⟨by decide, by decide, by decide,
    (polling_equivalence demo_cfg demo_sem_1_1 (some 0)).2.2.1 (Or.inl (by decide))⟩

/-! ### Round trips -/

theorem signal_empty_step (cfg : Config) (k : Kernel) (s : Nat)
    (hid : (k.sems s).id_sem = cfg.TN_ID_SEMAPHORE)
    (hctx : k.context = TN_CONTEXT_TASK)
    (hq : (k.sems s).wait_queue = [])
    (hlt : (k.sems s).count < (k.sems s).max_count) :
    tn_sem_signal cfg k (some s)
      = (TN_RC_OK, _tn_switch_context_if_needed cfg
          { k with
            sems := Function.update k.sems s { k.sems s with count := (k.sems s).count + 1 }
            trace := Event.int_restore k.int_enabled :: Event.count_write s false
              :: Event.int_dis_save :: k.trace }) := by
  simp [tn_sem_signal, _sem_job_perform, _check_param_generic, hid, tn_is_task_context, hctx,
    _sem_job_section, _sem_signal, tn_arch_sr_save_int_dis, hq, tn_is_list_empty, hlt,
    tn_arch_sr_restore]

theorem acquire_unit_step (cfg : Config) (k : Kernel) (s : Nat) (timeout : Nat)
    (hid : (k.sems s).id_sem = cfg.TN_ID_SEMAPHORE)
    (hctx : k.context = TN_CONTEXT_TASK)
    (hc : 1 ≤ (k.sems s).count) :
    tn_sem_acquire cfg k (some s) timeout
      = (TN_RC_OK, _tn_switch_context_if_needed cfg
          { k with
            sems := Function.update k.sems s { k.sems s with count := (k.sems s).count - 1 }
            trace := Event.int_restore k.int_enabled :: Event.count_write s false
              :: Event.int_dis_save :: k.trace }) := by
  simp [tn_sem_acquire, _sem_job_perform, _check_param_generic, hid, tn_is_task_context, hctx,
    _sem_job_section, _sem_acquire, tn_arch_sr_save_int_dis, hc, tn_arch_sr_restore]

theorem switch_frame (cfg : Config) (k1 : Kernel) (s : Nat)
    (hsw : _tn_need_context_switch k1 = false
      ∨ ∀ k0, (cfg.arch_run_others k0).sems s = k0.sems s
          ∧ (cfg.arch_run_others k0).context = k0.context) :
    (_tn_switch_context_if_needed cfg k1).sems s = k1.sems s
    ∧ (_tn_switch_context_if_needed cfg k1).context = k1.context
    ∧ (_tn_need_context_switch k1 = false → _tn_switch_context_if_needed cfg k1 = k1) := by
  unfold _tn_switch_context_if_needed _tn_arch_context_switch
  split
  · rename_i hneed
    rcases hsw with h | h
    · rw [h] at hneed; exact absurd hneed (by decide)
    · refine ⟨(h _).1, (h _).2, ?_⟩
      intro hf; rw [hf] at hneed; exact absurd hneed (by decide)
  · exact ⟨rfl, rfl, fun _ => rfl⟩

/-- Claim C16. Round trip.  On an initialised semaphore with an empty wait queue and
`0 <= count < max_count` (in particular `count == 0` with `max_count >= 1`),
`tn_sem_signal` followed by `tn_sem_acquire` with timeout 0, or by
`tn_sem_acquire_polling`, both in task context, both return OK and leave the semaphore
object as it was, `count` included.  It is assumed that no context switch is pending at
the first call, or else that the rest of the system, running during the deferred
switches, leaves this semaphore alone and returns in the caller's context. -/
theorem signal_then_poll_round_trip (cfg : Config) (k : Kernel) (s : Nat)
    (hid : (k.sems s).id_sem = cfg.TN_ID_SEMAPHORE)
    (hctx : k.context = TN_CONTEXT_TASK)
    (hq : (k.sems s).wait_queue = [])
    (hnonneg : 0 ≤ (k.sems s).count)
    (hlt : (k.sems s).count < (k.sems s).max_count)
    (hsw : _tn_need_context_switch k = false
      ∨ ∀ k0, (cfg.arch_run_others k0).sems s = k0.sems s
          ∧ (cfg.arch_run_others k0).context = k0.context) :
    (tn_sem_signal cfg k (some s)).1 = TN_RC_OK
    ∧ (tn_sem_acquire cfg (tn_sem_signal cfg k (some s)).2 (some s) 0).1 = TN_RC_OK
    ∧ (tn_sem_acquire cfg (tn_sem_signal cfg k (some s)).2 (some s) 0).2.sems s = k.sems s
    ∧ (tn_sem_acquire_polling cfg (tn_sem_signal cfg k (some s)).2 (some s)).1 = TN_RC_OK
    ∧ (tn_sem_acquire_polling cfg (tn_sem_signal cfg k (some s)).2 (some s)).2.sems s
        = k.sems s
    ∧ ((k.sems s).count = 0 →
        ((tn_sem_acquire cfg (tn_sem_signal cfg k (some s)).2 (some s) 0).2.sems s).count
          = 0) := by
  have hstep1 := signal_empty_step cfg k s hid hctx hq hlt
  have hsw1 : _tn_need_context_switch
        { k with
          sems := Function.update k.sems s { k.sems s with count := (k.sems s).count + 1 }
          trace := Event.int_restore k.int_enabled :: Event.count_write s false
            :: Event.int_dis_save :: k.trace } = false
      ∨ ∀ k0, (cfg.arch_run_others k0).sems s = k0.sems s
          ∧ (cfg.arch_run_others k0).context = k0.context := by
    rcases hsw with h | h
    · left; simpa [_tn_need_context_switch] using h
    · right; exact h
  obtain ⟨f1, f2, f3⟩ := switch_frame cfg _ s hsw1
  have hsem1 : (tn_sem_signal cfg k (some s)).2.sems s
      = { k.sems s with count := (k.sems s).count + 1 } := by
    rw [hstep1]; simp only; rw [f1]; simp
  have hctx1 : (tn_sem_signal cfg k (some s)).2.context = TN_CONTEXT_TASK := by
    rw [hstep1]; simp only; rw [f2]; exact hctx
  have hstep2 := acquire_unit_step cfg (tn_sem_signal cfg k (some s)).2 s 0
    (by rw [hsem1]; exact hid) hctx1 (by rw [hsem1]; simp only; omega)
  have hsw2 : _tn_need_context_switch
        { (tn_sem_signal cfg k (some s)).2 with
          sems := Function.update (tn_sem_signal cfg k (some s)).2.sems s
            { (tn_sem_signal cfg k (some s)).2.sems s with
              count := ((tn_sem_signal cfg k (some s)).2.sems s).count - 1 }
          trace := Event.int_restore (tn_sem_signal cfg k (some s)).2.int_enabled
            :: Event.count_write s false
            :: Event.int_dis_save :: (tn_sem_signal cfg k (some s)).2.trace } = false
      ∨ ∀ k0, (cfg.arch_run_others k0).sems s = k0.sems s
          ∧ (cfg.arch_run_others k0).context = k0.context := by
    rcases hsw with h | h
    · left
      have hk1 := f3 (by simpa [_tn_need_context_switch] using h)
      rw [hstep1]
      simp only
      rw [hk1]
      simpa [_tn_need_context_switch] using h
    · right; exact h
  obtain ⟨g1, _, _⟩ := switch_frame cfg _ s hsw2
  have hfinal : (tn_sem_acquire cfg (tn_sem_signal cfg k (some s)).2 (some s) 0).2.sems s
      = k.sems s := by
    rw [hstep2]; simp only; rw [g1]
    simp only [Function.update_same, hsem1]
    simp
  refine ⟨by rw [hstep1], by rw [hstep2], hfinal, by
    show (tn_sem_acquire cfg (tn_sem_signal cfg k (some s)).2 (some s) 0).1 = TN_RC_OK
    rw [hstep2], hfinal, ?_⟩
  intro h0
  rw [hfinal]; exact h0

/-- Witness for C16: semaphore 0 freshly created with count 0 of 3 on the sample
system; signal then acquire with timeout 0 both return OK and `count` is 0 again. -/
theorem signal_then_poll_round_trip_witness :
    ((demo_created.sems 0).id_sem = demo_cfg.TN_ID_SEMAPHORE
      ∧ demo_created.context = TN_CONTEXT_TASK
      ∧ (demo_created.sems 0).wait_queue = []
      ∧ (demo_created.sems 0).count = 0
      ∧ 1 ≤ (demo_created.sems 0).max_count
      ∧ _tn_need_context_switch demo_created = false)
    ∧ (tn_sem_signal demo_cfg demo_created (some 0)).1 = TN_RC_OK
    ∧ (tn_sem_acquire demo_cfg (tn_sem_signal demo_cfg demo_created (some 0)).2 (some 0) 0).1
        = TN_RC_OK
    ∧ ((tn_sem_acquire demo_cfg (tn_sem_signal demo_cfg demo_created (some 0)).2
        (some 0) 0).2.sems 0).count = 0 :=
  have h := signal_then_poll_round_trip demo_cfg demo_created 0
    (by decide) (by decide) (by decide) (by decide) (by decide) (Or.inl (by decide))
  ⟨⟨by decide, by decide, by decide, by decide, by decide, by decide⟩,
    h.1, h.2.1, h.2.2.2.2.2 (by decide)⟩

theorem create_valid_step (cfg : Config) (k : Kernel) (s : Nat) (a b : Int)
    (hid : (k.sems s).id_sem ≠ cfg.TN_ID_SEMAPHORE)
    (hctx : k.context = TN_CONTEXT_TASK)
    (hb : 0 < b) (ha : 0 ≤ a) (hab : a ≤ b) :
    tn_sem_create cfg k (some s) a b
      = (TN_RC_OK,
          { k with
            sems := Function.update k.sems s
              { wait_queue := [], count := a, max_count := b, id_sem := cfg.TN_ID_SEMAPHORE }
            trace := Event.id_write s cfg.TN_ID_SEMAPHORE k.int_enabled
              :: Event.count_write s k.int_enabled :: k.trace }) := by
  have hcond : ¬((k.sems s).id_sem = cfg.TN_ID_SEMAPHORE ∨ b ≤ 0 ∨ a < 0 ∨ a > b) := by
    simp only [not_or, not_le, not_lt, gt_iff_lt]
    exact ⟨hid, hb, ha, hab⟩
  simp [tn_sem_create, _check_param_create, hcond, tn_is_task_context, hctx]

theorem notify_fold_context (cfg : Config) (q : List Nat) (k : Kernel) :
    (q.foldl (fun k1 t => _tn_task_wait_complete cfg k1 t TN_RC_DELETED) k).context
      = k.context := by
  induction q generalizing k with
  | nil => simp
  | cons t q ih => simp [List.foldl_cons, ih, wait_complete_context]

theorem delete_run (cfg : Config) (k : Kernel) (s : Nat)
    (hid : (k.sems s).id_sem = cfg.TN_ID_SEMAPHORE)
    (hctx : k.context = TN_CONTEXT_TASK) :
    tn_sem_delete cfg k (some s)
      = (TN_RC_OK, _tn_switch_context_if_needed cfg (tn_sem_delete_section cfg k s)) := by
  simp [tn_sem_delete, _check_param_generic, hid, tn_is_task_context, hctx]

theorem delete_section_context (cfg : Config) (k : Kernel) (s : Nat) :
    (tn_sem_delete_section cfg k s).context = k.context := by
  simp [tn_sem_delete_section, _tn_wait_queue_notify_deleted, tn_arch_sr_restore,
    notify_fold_context, tn_arch_sr_save_int_dis]

/-- Claim C17. Create, delete, create again.  A successful `tn_sem_create` leaves the
object tagged as a semaphore.  On any state in which the object is so tagged, whatever
its `count`, `max_count` and waiters, `tn_sem_delete` in task context returns OK, and a
following `tn_sem_create` on the same object with `max_count > 0` and
`0 <= start_count <= max_count` returns OK (not WPARAM) and leaves the object exactly as
a create with those arguments leaves a never-initialised object: empty queue, the
given counts, the sentinel tag.  The sentinel is assumed different from the cleared
value 0, and the rest of the system, which may run at the deferred switch of the
delete, is assumed to leave the object's tag alone and to return in the caller's
context. -/
theorem create_delete_create (cfg : Config) (k : Kernel) (s : Nat)
    (start_count max_count : Int)
    (hid : (k.sems s).id_sem = cfg.TN_ID_SEMAPHORE)
    (hctx : k.context = TN_CONTEXT_TASK)
    (hsentinel : cfg.TN_ID_SEMAPHORE ≠ 0)
    (hothers : ∀ k0, ((cfg.arch_run_others k0).sems s).id_sem = (k0.sems s).id_sem
      ∧ (cfg.arch_run_others k0).context = k0.context)
    (hmax : 0 < max_count)
    (hstart : 0 ≤ start_count)
    (hle : start_count ≤ max_count) :
    (∀ k0 a0 b0, (tn_sem_create cfg k0 (some s) a0 b0).1 = TN_RC_OK →
        ((tn_sem_create cfg k0 (some s) a0 b0).2.sems s).id_sem = cfg.TN_ID_SEMAPHORE)
    ∧ (tn_sem_delete cfg k (some s)).1 = TN_RC_OK
    ∧ (tn_sem_create cfg (tn_sem_delete cfg k (some s)).2 (some s) start_count max_count).1
        = TN_RC_OK
    ∧ (tn_sem_create cfg (tn_sem_delete cfg k (some s)).2 (some s)
          start_count max_count).2.sems s
        = { wait_queue := [], count := start_count, max_count := max_count,
            id_sem := cfg.TN_ID_SEMAPHORE }
    ∧ (∀ kf, (kf.sems s).id_sem ≠ cfg.TN_ID_SEMAPHORE → kf.context = TN_CONTEXT_TASK →
        (tn_sem_create cfg (tn_sem_delete cfg k (some s)).2 (some s)
            start_count max_count).2.sems s
          = (tn_sem_create cfg kf (some s) start_count max_count).2.sems s) := by
  have hdel := delete_run cfg k s hid hctx
  have hok : (tn_sem_delete cfg k (some s)).1 = TN_RC_OK := by rw [hdel]
  have htag : ((tn_sem_delete cfg k (some s)).2.sems s).id_sem = 0 :=
    delete_ok_clears_tag cfg k s (fun k0 => (hothers k0).1) hok
  have hctx1 : (tn_sem_delete cfg k (some s)).2.context = TN_CONTEXT_TASK := by
    rw [hdel]
    simp only
    unfold _tn_switch_context_if_needed _tn_arch_context_switch
    split
    · rw [(hothers _).2]
      simp [delete_section_context, hctx]
    · simp [delete_section_context, hctx]
  have hcreate := create_valid_step cfg (tn_sem_delete cfg k (some s)).2 s start_count max_count
    (by rw [htag]; exact fun h => hsentinel h.symm) hctx1 hmax hstart hle
  refine ⟨?_, hok, by rw [hcreate], by rw [hcreate]; simp, ?_⟩
  · intro k0 a0 b0 h0
    rw [(create_ok_state cfg k0 s a0 b0 h0).2.2.2]
  · intro kf hf hcf
    rw [hcreate, create_valid_step cfg kf s start_count max_count hf hcf hmax hstart hle]
    simp

/-- Witness for C17 on the sample state: semaphore 0, created with count 0 of 3 and
with tasks 1, 2, 3 waiting on it, is deleted by task 5 and created again with count 2
of 5. -/
theorem create_delete_create_witness :
    ((demo_waiting.sems 0).id_sem = demo_cfg.TN_ID_SEMAPHORE
      ∧ demo_waiting.context = TN_CONTEXT_TASK
      ∧ demo_cfg.TN_ID_SEMAPHORE ≠ 0
      ∧ (0 : Int) < 5 ∧ (0 : Int) ≤ 2 ∧ (2 : Int) ≤ 5)
    ∧ (tn_sem_delete demo_cfg demo_waiting (some 0)).1 = TN_RC_OK
    ∧ (tn_sem_create demo_cfg (tn_sem_delete demo_cfg demo_waiting (some 0)).2
        (some 0) 2 5).1 = TN_RC_OK
    ∧ (tn_sem_create demo_cfg (tn_sem_delete demo_cfg demo_waiting (some 0)).2
        (some 0) 2 5).2.sems 0
        = (tn_sem_create demo_cfg demo_kernel (some 0) 2 5).2.sems 0 :=
  have h := create_delete_create demo_cfg demo_waiting 0 2 5
    (by decide) (by decide) (by decide) (fun _ => ⟨rfl, rfl⟩)
    (by decide) (by decide) (by decide)
  ⟨⟨by decide, by decide, by decide, by decide, by decide, by decide⟩,
    h.2.1, h.2.2.1, h.2.2.2.2 demo_kernel (by decide) (by decide)⟩

/-! ### What the interrupts-disabled regions log -/

theorem section_log_ints (s timeout : Nat) (mid : List Event)
    (h : section_log s timeout mid) :
    int_events mid = [] ∧ Event.context_switch ∉ mid
      ∧ (∀ s1, Event.count_write s1 true ∉ mid) := by
  rcases h with h | h | ⟨t, h⟩ | h | h <;> subst h <;> simp [int_events]

theorem signal_section_shape (cfg : Config) (k : Kernel) (s : Nat) :
    ∃ mid, section_log s 0 mid
      ∧ (_sem_job_section cfg k s _sem_signal 0).2.2.trace
          = Event.int_restore k.int_enabled :: (mid ++ Event.int_dis_save :: k.trace)
      ∧ (_sem_job_section cfg k s _sem_signal 0).2.2.int_enabled = k.int_enabled
      ∧ (∀ s1, ((_sem_job_section cfg k s _sem_signal 0).2.2.sems s1).count
            ≠ (k.sems s1).count → Event.count_write s1 false ∈ mid) := by
  cases hq : (k.sems s).wait_queue with
  | nil =>
    by_cases hlt : (k.sems s).count < (k.sems s).max_count
    · refine ⟨[Event.count_write s false], Or.inr (Or.inl rfl), ?_, ?_, ?_⟩
      · simp [_sem_job_section, _sem_signal, tn_arch_sr_save_int_dis, hq, tn_is_list_empty, hlt,
          tn_arch_sr_restore]
      · simp [_sem_job_section, _sem_signal, tn_arch_sr_save_int_dis, hq, tn_is_list_empty, hlt,
          tn_arch_sr_restore]
      · intro s1 h
        by_cases hs : s1 = s
        · subst hs; simp
        · exfalso; apply h
          simp [_sem_job_section, _sem_signal, tn_arch_sr_save_int_dis, hq, tn_is_list_empty,
            hlt, tn_arch_sr_restore, Function.update_noteq hs]
    · refine ⟨[], Or.inl rfl, ?_, ?_, ?_⟩
      · simp [_sem_job_section, _sem_signal, tn_arch_sr_save_int_dis, hq, tn_is_list_empty, hlt,
          tn_arch_sr_restore]
      · simp [_sem_job_section, _sem_signal, tn_arch_sr_save_int_dis, hq, tn_is_list_empty, hlt,
          tn_arch_sr_restore]
      · intro s1 h
        exfalso; apply h
        simp [_sem_job_section, _sem_signal, tn_arch_sr_save_int_dis, hq, tn_is_list_empty,
          hlt, tn_arch_sr_restore]
  | cons t rest =>
    refine ⟨[Event.wait_complete t TN_RC_OK], Or.inr (Or.inr (Or.inl ⟨t, rfl⟩)), ?_, ?_, ?_⟩
    · simp [_sem_job_section, _sem_signal, tn_arch_sr_save_int_dis, hq, tn_is_list_empty,
        tn_arch_sr_restore, wait_complete_trace]
    · simp [_sem_job_section, _sem_signal, tn_arch_sr_save_int_dis, hq, tn_is_list_empty,
        tn_arch_sr_restore]
    · intro s1 h
      exfalso; apply h
      simp [_sem_job_section, _sem_signal, tn_arch_sr_save_int_dis, hq, tn_is_list_empty,
        tn_arch_sr_restore, wait_complete_sems]

theorem acquire_wait_section_eq (cfg : Config) (k : Kernel) (s : Nat) (timeout : Nat)
    (hc : (k.sems s).count < 1) (ht : timeout ≠ 0) :
    (_sem_job_section cfg k s _sem_acquire timeout).2.2
      = tn_arch_sr_restore
          (if (cfg.TN_DEBUG && (!_tn_need_context_switch
              (_tn_task_curr_to_wait_action cfg (tn_arch_sr_save_int_dis k).2 s
                TN_WAIT_REASON_SEM timeout) && true)) = true
            then _TN_FATAL_ERROR (_tn_task_curr_to_wait_action cfg (tn_arch_sr_save_int_dis k).2 s
                TN_WAIT_REASON_SEM timeout)
            else _tn_task_curr_to_wait_action cfg (tn_arch_sr_save_int_dis k).2 s
                TN_WAIT_REASON_SEM timeout) k.int_enabled := by
  have e1 : (_sem_acquire cfg (tn_arch_sr_save_int_dis k).2 s)
      = (TN_RC_TIMEOUT, (tn_arch_sr_save_int_dis k).2) := by
    simp [_sem_acquire, tn_arch_sr_save_int_dis, not_le.mpr hc]
  unfold _sem_job_section
  simp only [e1]
  simp [ht, tn_arch_sr_save_int_dis]

theorem acquire_section_shape (cfg : Config) (k : Kernel) (s : Nat) (timeout : Nat) :
    ∃ mid, section_log s timeout mid
      ∧ (_sem_job_section cfg k s _sem_acquire timeout).2.2.trace
          = Event.int_restore k.int_enabled :: (mid ++ Event.int_dis_save :: k.trace)
      ∧ (_sem_job_section cfg k s _sem_acquire timeout).2.2.int_enabled = k.int_enabled
      ∧ (∀ s1, ((_sem_job_section cfg k s _sem_acquire timeout).2.2.sems s1).count
            ≠ (k.sems s1).count → Event.count_write s1 false ∈ mid) := by
  by_cases hc : (k.sems s).count ≥ 1
  · refine ⟨[Event.count_write s false], Or.inr (Or.inl rfl), ?_, ?_, ?_⟩
    · simp [_sem_job_section, _sem_acquire, tn_arch_sr_save_int_dis, hc, tn_arch_sr_restore]
    · simp [_sem_job_section, _sem_acquire, tn_arch_sr_save_int_dis, hc, tn_arch_sr_restore]
    · intro s1 h
      by_cases hs : s1 = s
      · subst hs; simp
      · exfalso; apply h
        simp [_sem_job_section, _sem_acquire, tn_arch_sr_save_int_dis, hc, tn_arch_sr_restore,
          Function.update_noteq hs]
  · by_cases ht : timeout = 0
    · refine ⟨[], Or.inl rfl, ?_, ?_, ?_⟩
      · simp [_sem_job_section, _sem_acquire, hc, ht, tn_arch_sr_restore,
          tn_arch_sr_save_int_dis]
      · simp [_sem_job_section, tn_arch_sr_restore, tn_arch_sr_save_int_dis]
      · intro s1 h
        exfalso; apply h
        simp [_sem_job_section, _sem_acquire, hc, ht, tn_arch_sr_restore,
          tn_arch_sr_save_int_dis]
    · have hsec := acquire_wait_section_eq cfg k s timeout (not_le.mp hc) ht
      by_cases hf : (cfg.TN_DEBUG && (!_tn_need_context_switch
          (_tn_task_curr_to_wait_action cfg (tn_arch_sr_save_int_dis k).2 s
            TN_WAIT_REASON_SEM timeout) && true)) = true
      · refine ⟨[Event.fatal_error, Event.curr_to_wait s TN_WAIT_REASON_SEM timeout],
          Or.inr (Or.inr (Or.inr (Or.inr rfl))), ?_, ?_, ?_⟩
        · rw [hsec, if_pos hf]
          simp [tn_arch_sr_restore, _TN_FATAL_ERROR, _tn_task_curr_to_wait_action, ready_remove,
            tn_arch_sr_save_int_dis]
        · rw [hsec]; simp [tn_arch_sr_restore]
        · intro s1 h
          exfalso; apply h
          rw [hsec, if_pos hf]
          simp only [tn_arch_sr_restore, _TN_FATAL_ERROR, curr_to_wait_sems]
          by_cases hs : s1 = s
          · subst hs; simp [tn_arch_sr_save_int_dis]
          · simp [Function.update_noteq hs, tn_arch_sr_save_int_dis]
      · refine ⟨[Event.curr_to_wait s TN_WAIT_REASON_SEM timeout],
          Or.inr (Or.inr (Or.inr (Or.inl rfl))), ?_, ?_, ?_⟩
        · rw [hsec, if_neg hf]
          simp [tn_arch_sr_restore, _tn_task_curr_to_wait_action, ready_remove,
            tn_arch_sr_save_int_dis]
        · rw [hsec]; simp [tn_arch_sr_restore]
        · intro s1 h
          exfalso; apply h
          rw [hsec, if_neg hf]
          simp only [tn_arch_sr_restore, curr_to_wait_sems]
          by_cases hs : s1 = s
          · subst hs; simp [tn_arch_sr_save_int_dis]
          · simp [Function.update_noteq hs, tn_arch_sr_save_int_dis]

theorem isignal_run_shape (cfg : Config) (k : Kernel) (s : Nat) :
    ∃ mid, section_log s 0 mid
      ∧ (tn_arch_sr_irestore (_sem_signal cfg (tn_arch_sr_save_int_idis k).2 s).2
          k.int_enabled).trace
          = Event.int_irestore k.int_enabled :: (mid ++ Event.int_idis_save :: k.trace)
      ∧ (tn_arch_sr_irestore (_sem_signal cfg (tn_arch_sr_save_int_idis k).2 s).2
          k.int_enabled).int_enabled = k.int_enabled
      ∧ (∀ s1, ((tn_arch_sr_irestore (_sem_signal cfg (tn_arch_sr_save_int_idis k).2 s).2
            k.int_enabled).sems s1).count
            ≠ (k.sems s1).count → Event.count_write s1 false ∈ mid) := by
  cases hq : (k.sems s).wait_queue with
  | nil =>
    by_cases hlt : (k.sems s).count < (k.sems s).max_count
    · refine ⟨[Event.count_write s false], Or.inr (Or.inl rfl), ?_, ?_, ?_⟩
      · simp [_sem_signal, tn_arch_sr_save_int_idis, hq, tn_is_list_empty, hlt,
          tn_arch_sr_irestore]
      · simp [tn_arch_sr_irestore]
      · intro s1 h
        by_cases hs : s1 = s
        · subst hs; simp
        · exfalso; apply h
          simp [_sem_signal, tn_arch_sr_save_int_idis, hq, tn_is_list_empty,
            hlt, tn_arch_sr_irestore, Function.update_noteq hs]
    · refine ⟨[], Or.inl rfl, ?_, ?_, ?_⟩
      · simp [_sem_signal, tn_arch_sr_save_int_idis, hq, tn_is_list_empty, hlt,
          tn_arch_sr_irestore]
      · simp [tn_arch_sr_irestore]
      · intro s1 h
        exfalso; apply h
        simp [_sem_signal, tn_arch_sr_save_int_idis, hq, tn_is_list_empty,
          hlt, tn_arch_sr_irestore]
  | cons t rest =>
    refine ⟨[Event.wait_complete t TN_RC_OK], Or.inr (Or.inr (Or.inl ⟨t, rfl⟩)), ?_, ?_, ?_⟩
    · simp [_sem_signal, tn_arch_sr_save_int_idis, hq, tn_is_list_empty,
        tn_arch_sr_irestore, wait_complete_trace]
    · simp [tn_arch_sr_irestore]
    · intro s1 h
      exfalso; apply h
      simp [_sem_signal, tn_arch_sr_save_int_idis, hq, tn_is_list_empty,
        tn_arch_sr_irestore, wait_complete_sems]

theorem iacquire_run_shape (cfg : Config) (k : Kernel) (s : Nat) :
    ∃ mid, section_log s 0 mid
      ∧ (tn_arch_sr_irestore (_sem_acquire cfg (tn_arch_sr_save_int_idis k).2 s).2
          k.int_enabled).trace
          = Event.int_irestore k.int_enabled :: (mid ++ Event.int_idis_save :: k.trace)
      ∧ (tn_arch_sr_irestore (_sem_acquire cfg (tn_arch_sr_save_int_idis k).2 s).2
          k.int_enabled).int_enabled = k.int_enabled
      ∧ (∀ s1, ((tn_arch_sr_irestore (_sem_acquire cfg (tn_arch_sr_save_int_idis k).2 s).2
            k.int_enabled).sems s1).count
            ≠ (k.sems s1).count → Event.count_write s1 false ∈ mid) := by
  by_cases hc : (k.sems s).count ≥ 1
  · refine ⟨[Event.count_write s false], Or.inr (Or.inl rfl), ?_, ?_, ?_⟩
    · simp [_sem_acquire, tn_arch_sr_save_int_idis, hc, tn_arch_sr_irestore]
    · simp [tn_arch_sr_irestore]
    · intro s1 h
      by_cases hs : s1 = s
      · subst hs; simp
      · exfalso; apply h
        simp [_sem_acquire, tn_arch_sr_save_int_idis, hc, tn_arch_sr_irestore,
          Function.update_noteq hs]
  · refine ⟨[], Or.inl rfl, ?_, ?_, ?_⟩
    · simp [_sem_acquire, tn_arch_sr_save_int_idis, hc, tn_arch_sr_irestore]
    · simp [tn_arch_sr_irestore]
    · intro s1 h
      exfalso; apply h
      simp [_sem_acquire, tn_arch_sr_save_int_idis, hc, tn_arch_sr_irestore]

theorem perform_masked (cfg : Config) (k : Kernel) (sem : Option Nat)
    (w : Config → Kernel → Nat → TN_RCode × Kernel) (timeout : Nat)
    (hshape : ∀ s, ∃ mid, section_log s timeout mid
      ∧ (_sem_job_section cfg k s w timeout).2.2.trace
          = Event.int_restore k.int_enabled :: (mid ++ Event.int_dis_save :: k.trace)
      ∧ (_sem_job_section cfg k s w timeout).2.2.int_enabled = k.int_enabled
      ∧ (∀ s1, ((_sem_job_section cfg k s w timeout).2.2.sems s1).count
            ≠ (k.sems s1).count → Event.count_write s1 false ∈ mid)) :
    (¬(_check_param_generic cfg k sem = TN_RC_OK ∧ k.context = TN_CONTEXT_TASK) →
        (_sem_job_perform cfg k sem w timeout).2 = k)
    ∧ (_check_param_generic cfg k sem = TN_RC_OK ∧ k.context = TN_CONTEXT_TASK →
        ∃ k1, (_sem_job_perform cfg k sem w timeout).2 = _tn_switch_context_if_needed cfg k1
          ∧ count_writes_masked k k1 Event.int_dis_save (Event.int_restore k.int_enabled)
          ∧ int_balanced k k1 Event.int_dis_save (Event.int_restore k.int_enabled)) := by
  constructor
  · intro h
    by_cases hchk : _check_param_generic cfg k sem = TN_RC_OK
    · have hc : k.context ≠ TN_CONTEXT_TASK := fun hc => h ⟨hchk, hc⟩
      rw [job_perform_fail_context cfg k sem w timeout hchk hc]
    · rw [job_perform_fail_check cfg k sem w timeout hchk]
  · intro h
    obtain ⟨s, hs, hid⟩ := (check_generic_ok_iff cfg k sem).1 h.1
    subst hs
    obtain ⟨mid, hlog, htr, hie, hcnt⟩ := hshape s
    obtain ⟨l1, l2, l3⟩ := section_log_ints s timeout mid hlog
    refine ⟨(_sem_job_section cfg k s w timeout).2.2, ?_, ⟨mid, htr, l3, hcnt⟩,
      ⟨mid, htr, l1, l2, hie⟩⟩
    rw [job_perform_run cfg k s w timeout hid h.2]

theorem iperform_masked (cfg : Config) (k : Kernel) (sem : Option Nat)
    (w : Config → Kernel → Nat → TN_RCode × Kernel)
    (hshape : ∀ s, ∃ mid, section_log s 0 mid
      ∧ (tn_arch_sr_irestore (w cfg (tn_arch_sr_save_int_idis k).2 s).2 k.int_enabled).trace
          = Event.int_irestore k.int_enabled :: (mid ++ Event.int_idis_save :: k.trace)
      ∧ (tn_arch_sr_irestore (w cfg (tn_arch_sr_save_int_idis k).2 s).2
          k.int_enabled).int_enabled = k.int_enabled
      ∧ (∀ s1, ((tn_arch_sr_irestore (w cfg (tn_arch_sr_save_int_idis k).2 s).2
            k.int_enabled).sems s1).count
            ≠ (k.sems s1).count → Event.count_write s1 false ∈ mid)) :
    (¬(_check_param_generic cfg k sem = TN_RC_OK ∧ k.context = TN_CONTEXT_ISR) →
        (_sem_job_iperform cfg k sem w).2 = k)
    ∧ (_check_param_generic cfg k sem = TN_RC_OK ∧ k.context = TN_CONTEXT_ISR →
        count_writes_masked k (_sem_job_iperform cfg k sem w).2
            Event.int_idis_save (Event.int_irestore k.int_enabled)
          ∧ int_balanced k (_sem_job_iperform cfg k sem w).2
            Event.int_idis_save (Event.int_irestore k.int_enabled)) := by
  constructor
  · intro h
    by_cases hchk : _check_param_generic cfg k sem = TN_RC_OK
    · have hc : k.context ≠ TN_CONTEXT_ISR := fun hc => h ⟨hchk, hc⟩
      rw [job_iperform_fail_context cfg k sem w hchk hc]
    · rw [job_iperform_fail_check cfg k sem w hchk]
  · intro h
    obtain ⟨s, hs, hid⟩ := (check_generic_ok_iff cfg k sem).1 h.1
    subst hs
    obtain ⟨mid, hlog, htr, hie, hcnt⟩ := hshape s
    obtain ⟨l1, l2, l3⟩ := section_log_ints s 0 mid hlog
    rw [job_iperform_run cfg k s w hid h.2]
    exact ⟨⟨mid, htr, l3, hcnt⟩, ⟨mid, htr, l1, l2, hie⟩⟩

/-! ### Writes of `count` and the interrupt state -/

/-- Counterexample for C18 as stated: on the sample system, whose interrupts are
enabled, a successful `tn_sem_create` changes `count` of semaphore 0 from 0 to 1; its
log shows the write made with interrupts enabled and no save-disable or restore at
all, so the write does not lie between a save-disable and its restore. -/
theorem tn_sem_create_writes_count_unmasked :
    demo_kernel.int_enabled = true
    ∧ (tn_sem_create demo_cfg demo_kernel (some 0) 1 1).1 = TN_RC_OK
    ∧ (demo_kernel.sems 0).count = 0
    ∧ ((tn_sem_create demo_cfg demo_kernel (some 0) 1 1).2.sems 0).count = 1
    ∧ (tn_sem_create demo_cfg demo_kernel (some 0) 1 1).2.trace
        = [Event.id_write 0 demo_cfg.TN_ID_SEMAPHORE true, Event.count_write 0 true]
    ∧ ¬ count_writes_masked demo_kernel (tn_sem_create demo_cfg demo_kernel (some 0) 1 1).2
        Event.int_dis_save (Event.int_restore true) := by
  refine ⟨by decide, by decide, by decide, by decide, by decide, ?_⟩
  rintro ⟨mid, h, _, _⟩
  have ht : (tn_sem_create demo_cfg demo_kernel (some 0) 1 1).2.trace
      = [Event.id_write 0 demo_cfg.TN_ID_SEMAPHORE true, Event.count_write 0 true] := by
    decide
  rw [ht] at h
  simp at h

/-- Claim C18, amended. Every change of a semaphore's `count` made by
`tn_sem_signal`, `tn_sem_isignal`, `tn_sem_acquire`, `tn_sem_acquire_polling` and
`tn_sem_iacquire_polling` is made with interrupts disabled, between the operation's
interrupt save-disable and its matching restore: when validation fails the state is
returned as given; otherwise the log gains the save-disable, entries among which no
write of `count` is made with interrupts enabled, and the restore of the saved value,
and every semaphore whose `count` changed has such a masked write logged in between
(in task context this is the state the deferred switch starts from).
`tn_sem_create` is different: it writes `count` without touching the interrupt state,
so under whatever interrupt state its caller has. -/
theorem count_written_with_interrupts_disabled (cfg : Config) (k : Kernel)
    (sem : Option Nat) (timeout : Nat) (start_count max_count : Int) :
    ((¬(_check_param_generic cfg k sem = TN_RC_OK ∧ k.context = TN_CONTEXT_TASK) →
          (tn_sem_signal cfg k sem).2 = k)
      ∧ (_check_param_generic cfg k sem = TN_RC_OK ∧ k.context = TN_CONTEXT_TASK →
          ∃ k1, (tn_sem_signal cfg k sem).2 = _tn_switch_context_if_needed cfg k1
            ∧ count_writes_masked k k1 Event.int_dis_save (Event.int_restore k.int_enabled)))
    ∧ ((¬(_check_param_generic cfg k sem = TN_RC_OK ∧ k.context = TN_CONTEXT_TASK) →
          (tn_sem_acquire cfg k sem timeout).2 = k)
      ∧ (_check_param_generic cfg k sem = TN_RC_OK ∧ k.context = TN_CONTEXT_TASK →
          ∃ k1, (tn_sem_acquire cfg k sem timeout).2 = _tn_switch_context_if_needed cfg k1
            ∧ count_writes_masked k k1 Event.int_dis_save (Event.int_restore k.int_enabled)))
    ∧ ((¬(_check_param_generic cfg k sem = TN_RC_OK ∧ k.context = TN_CONTEXT_TASK) →
          (tn_sem_acquire_polling cfg k sem).2 = k)
      ∧ (_check_param_generic cfg k sem = TN_RC_OK ∧ k.context = TN_CONTEXT_TASK →
          ∃ k1, (tn_sem_acquire_polling cfg k sem).2 = _tn_switch_context_if_needed cfg k1
            ∧ count_writes_masked k k1 Event.int_dis_save (Event.int_restore k.int_enabled)))
    ∧ ((¬(_check_param_generic cfg k sem = TN_RC_OK ∧ k.context = TN_CONTEXT_ISR) →
          (tn_sem_isignal cfg k sem).2 = k)
      ∧ (_check_param_generic cfg k sem = TN_RC_OK ∧ k.context = TN_CONTEXT_ISR →
          count_writes_masked k (tn_sem_isignal cfg k sem).2
            Event.int_idis_save (Event.int_irestore k.int_enabled)))
    ∧ ((¬(_check_param_generic cfg k sem = TN_RC_OK ∧ k.context = TN_CONTEXT_ISR) →
          (tn_sem_iacquire_polling cfg k sem).2 = k)
      ∧ (_check_param_generic cfg k sem = TN_RC_OK ∧ k.context = TN_CONTEXT_ISR →
          count_writes_masked k (tn_sem_iacquire_polling cfg k sem).2
            Event.int_idis_save (Event.int_irestore k.int_enabled)))
    ∧ ((tn_sem_create cfg k sem start_count max_count).1 ≠ TN_RC_OK →
          (tn_sem_create cfg k sem start_count max_count).2 = k)
    ∧ (∀ s, sem = some s → (tn_sem_create cfg k sem start_count max_count).1 = TN_RC_OK →
          (tn_sem_create cfg k sem start_count max_count).2.trace
              = Event.id_write s cfg.TN_ID_SEMAPHORE k.int_enabled
                :: Event.count_write s k.int_enabled :: k.trace
            ∧ (tn_sem_create cfg k sem start_count max_count).2.int_enabled
                = k.int_enabled) := by
  have hsig := perform_masked cfg k sem _sem_signal 0 (fun s => signal_section_shape cfg k s)
  have hacq := perform_masked cfg k sem _sem_acquire timeout
    (fun s => acquire_section_shape cfg k s timeout)
  have hpol := perform_masked cfg k sem _sem_acquire 0
    (fun s => acquire_section_shape cfg k s 0)
  have hisig := iperform_masked cfg k sem _sem_signal (fun s => isignal_run_shape cfg k s)
  have hiacq := iperform_masked cfg k sem _sem_acquire (fun s => iacquire_run_shape cfg k s)
  refine ⟨⟨hsig.1, fun h => ?_⟩, ⟨hacq.1, fun h => ?_⟩, ⟨hpol.1, fun h => ?_⟩,
    ⟨hisig.1, fun h => (hisig.2 h).1⟩, ⟨hiacq.1, fun h => (hiacq.2 h).1⟩, ?_, ?_⟩
  · obtain ⟨k1, h1, h2, _⟩ := hsig.2 h
    exact ⟨k1, h1, h2⟩
  · obtain ⟨k1, h1, h2, _⟩ := hacq.2 h
    exact ⟨k1, h1, h2⟩
  · obtain ⟨k1, h1, h2, _⟩ := hpol.2 h
    exact ⟨k1, h1, h2⟩
  · intro hne
    rcases create_code_origin cfg k sem start_count max_count hne with h1 | h1
    · rw [h1.2]
    · rw [h1.2.2]
  · intro s hs hok
    subst hs
    unfold tn_sem_create at hok ⊢
    split
    · rename_i h1
      rw [if_pos h1] at hok
      exact absurd hok h1
    · split
      · rename_i h1 h2
        rw [if_neg h1, if_pos h2] at hok
        exact TN_RCode.noConfusion hok
      · exact ⟨rfl, rfl⟩

/-- Witness for C18 as amended: acquire on the overflow-scenario state, where
semaphore 0 holds one unit, from a task. -/
theorem count_written_with_interrupts_disabled_witness :
    (_check_param_generic demo_cfg demo_sem_1_1 (some 0) = TN_RC_OK
      ∧ demo_sem_1_1.context = TN_CONTEXT_TASK)
    ∧ (∃ k1, (tn_sem_acquire demo_cfg demo_sem_1_1 (some 0) 5).2
          = _tn_switch_context_if_needed demo_cfg k1
        ∧ count_writes_masked demo_sem_1_1 k1 Event.int_dis_save
            (Event.int_restore demo_sem_1_1.int_enabled))
    ∧ ((tn_sem_acquire demo_cfg demo_sem_1_1 (some 0) 5).2.sems 0).count = 0 :=
  ⟨⟨by decide, by decide⟩,
    (count_written_with_interrupts_disabled demo_cfg demo_sem_1_1 (some 0) 5 0 0).2.1.2
      ⟨by decide, by decide⟩,
    by decide⟩

theorem delete_section_balanced (cfg : Config) (k : Kernel) (s : Nat) :
    int_balanced k (tn_sem_delete_section cfg k s)
      Event.int_dis_save (Event.int_restore k.int_enabled) := by
  refine ⟨Event.id_write s 0 false
      :: ((k.sems s).wait_queue.map (fun w => Event.wait_complete w TN_RC_DELETED)).reverse,
    ?_, ?_, ?_, ?_⟩
  · simp [tn_sem_delete_section, _tn_wait_queue_notify_deleted, tn_arch_sr_restore,
      tn_arch_sr_save_int_dis, notify_fold_trace, notify_fold_int_enabled]
  · simp [int_events, List.filter_eq_nil_iff]
  · simp
  · simp [tn_sem_delete_section, tn_arch_sr_restore, tn_arch_sr_save_int_dis]

/-- Claim C20. Every semaphore operation leaves the interrupt-enable state as it found
it.  When parameter or context validation fails the state is returned as given, so
interrupts are never disabled.  Otherwise the log gains exactly one save-disable and,
after entries that hold no interrupt entry and no context switch, exactly one restore
of the saved value, and the interrupt-enable bit is back to what it was: for the
task-context operations (`tn_sem_signal`, `tn_sem_acquire`, `tn_sem_acquire_polling`,
`tn_sem_delete`) this is the state from which the deferred context-switch check is then
made, for the ISR operations it is the returned state.  `tn_sem_create` logs no
interrupt entry and leaves the bit alone on every path. -/
theorem interrupt_state_is_restored (cfg : Config) (k : Kernel) (sem : Option Nat)
    (timeout : Nat) (start_count max_count : Int) :
    ((¬(_check_param_generic cfg k sem = TN_RC_OK ∧ k.context = TN_CONTEXT_TASK) →
          (tn_sem_signal cfg k sem).2 = k)
      ∧ (_check_param_generic cfg k sem = TN_RC_OK ∧ k.context = TN_CONTEXT_TASK →
          ∃ k1, (tn_sem_signal cfg k sem).2 = _tn_switch_context_if_needed cfg k1
            ∧ int_balanced k k1 Event.int_dis_save (Event.int_restore k.int_enabled)))
    ∧ ((¬(_check_param_generic cfg k sem = TN_RC_OK ∧ k.context = TN_CONTEXT_TASK) →
          (tn_sem_acquire cfg k sem timeout).2 = k)
      ∧ (_check_param_generic cfg k sem = TN_RC_OK ∧ k.context = TN_CONTEXT_TASK →
          ∃ k1, (tn_sem_acquire cfg k sem timeout).2 = _tn_switch_context_if_needed cfg k1
            ∧ int_balanced k k1 Event.int_dis_save (Event.int_restore k.int_enabled)))
    ∧ ((¬(_check_param_generic cfg k sem = TN_RC_OK ∧ k.context = TN_CONTEXT_TASK) →
          (tn_sem_acquire_polling cfg k sem).2 = k)
      ∧ (_check_param_generic cfg k sem = TN_RC_OK ∧ k.context = TN_CONTEXT_TASK →
          ∃ k1, (tn_sem_acquire_polling cfg k sem).2 = _tn_switch_context_if_needed cfg k1
            ∧ int_balanced k k1 Event.int_dis_save (Event.int_restore k.int_enabled)))
    ∧ ((¬(_check_param_generic cfg k sem = TN_RC_OK ∧ k.context = TN_CONTEXT_TASK) →
          (tn_sem_delete cfg k sem).2 = k)
      ∧ (_check_param_generic cfg k sem = TN_RC_OK ∧ k.context = TN_CONTEXT_TASK →
          ∃ k1, (tn_sem_delete cfg k sem).2 = _tn_switch_context_if_needed cfg k1
            ∧ int_balanced k k1 Event.int_dis_save (Event.int_restore k.int_enabled)))
    ∧ ((¬(_check_param_generic cfg k sem = TN_RC_OK ∧ k.context = TN_CONTEXT_ISR) →
          (tn_sem_isignal cfg k sem).2 = k)
      ∧ (_check_param_generic cfg k sem = TN_RC_OK ∧ k.context = TN_CONTEXT_ISR →
          int_balanced k (tn_sem_isignal cfg k sem).2
            Event.int_idis_save (Event.int_irestore k.int_enabled)))
    ∧ ((¬(_check_param_generic cfg k sem = TN_RC_OK ∧ k.context = TN_CONTEXT_ISR) →
          (tn_sem_iacquire_polling cfg k sem).2 = k)
      ∧ (_check_param_generic cfg k sem = TN_RC_OK ∧ k.context = TN_CONTEXT_ISR →
          int_balanced k (tn_sem_iacquire_polling cfg k sem).2
            Event.int_idis_save (Event.int_irestore k.int_enabled)))
    ∧ (int_events (tn_sem_create cfg k sem start_count max_count).2.trace
          = int_events k.trace
        ∧ (tn_sem_create cfg k sem start_count max_count).2.int_enabled = k.int_enabled) := by
  have hsig := perform_masked cfg k sem _sem_signal 0 (fun s => signal_section_shape cfg k s)
  have hacq := perform_masked cfg k sem _sem_acquire timeout
    (fun s => acquire_section_shape cfg k s timeout)
  have hpol := perform_masked cfg k sem _sem_acquire 0
    (fun s => acquire_section_shape cfg k s 0)
  have hisig := iperform_masked cfg k sem _sem_signal (fun s => isignal_run_shape cfg k s)
  have hiacq := iperform_masked cfg k sem _sem_acquire (fun s => iacquire_run_shape cfg k s)
  refine ⟨⟨hsig.1, fun h => ?_⟩, ⟨hacq.1, fun h => ?_⟩, ⟨hpol.1, fun h => ?_⟩,
    ⟨?_, fun h => ?_⟩, ⟨hisig.1, fun h => (hisig.2 h).2⟩, ⟨hiacq.1, fun h => (hiacq.2 h).2⟩, ?_⟩
  · obtain ⟨k1, h1, _, h2⟩ := hsig.2 h
    exact ⟨k1, h1, h2⟩
  · obtain ⟨k1, h1, _, h2⟩ := hacq.2 h
    exact ⟨k1, h1, h2⟩
  · obtain ⟨k1, h1, _, h2⟩ := hpol.2 h
    exact ⟨k1, h1, h2⟩
  · intro h
    by_cases hchk : _check_param_generic cfg k sem = TN_RC_OK
    · have hc : k.context ≠ TN_CONTEXT_TASK := fun hc => h ⟨hchk, hc⟩
      simp [tn_sem_delete, hchk, tn_is_task_context, hc]
    · simp [tn_sem_delete, hchk]
  · obtain ⟨s, hs, hid⟩ := (check_generic_ok_iff cfg k sem).1 h.1
    subst hs
    exact ⟨tn_sem_delete_section cfg k s, by rw [delete_run cfg k s hid h.2],
      delete_section_balanced cfg k s⟩
  · by_cases hok : (tn_sem_create cfg k sem start_count max_count).1 = TN_RC_OK
    · cases sem with
      | none => simp [tn_sem_create, _check_param_create] at hok
      | some s =>
        unfold tn_sem_create at hok ⊢
        split
        · exact ⟨rfl, rfl⟩
        · split
          · exact ⟨rfl, rfl⟩
          · simp [int_events]
    · rcases create_code_origin cfg k sem start_count max_count hok with h1 | h1
      · rw [h1.2]; exact ⟨rfl, rfl⟩
      · rw [h1.2.2]; exact ⟨rfl, rfl⟩

/-- Witness for C20 on the sample state with three waiters: task 5 deletes semaphore
0. -/
theorem interrupt_state_is_restored_witness :
    (_check_param_generic demo_cfg demo_waiting (some 0) = TN_RC_OK
      ∧ demo_waiting.context = TN_CONTEXT_TASK)
    ∧ (∃ k1, (tn_sem_delete demo_cfg demo_waiting (some 0)).2
          = _tn_switch_context_if_needed demo_cfg k1
        ∧ int_balanced demo_waiting k1 Event.int_dis_save
            (Event.int_restore demo_waiting.int_enabled))
    ∧ (tn_sem_delete demo_cfg demo_waiting (some 0)).2.int_enabled
        = demo_waiting.int_enabled :=
  ⟨⟨by decide, by decide⟩,
    (interrupt_state_is_restored demo_cfg demo_waiting (some 0) 0 0 0).2.2.2.1.2
      ⟨by decide, by decide⟩,
    by decide⟩

/-! ### The debug hook -/

end TNeo
